import Mathlib

/-!
# Stereo feature front end of MSCKF-VIO (`msckf_vio::ImageProcessor`)

A shallow embedding of `src/src/image_processor.cpp`.

Conventions of the embedding.

* `float` and `double` values are rationals: rounding, infinities and NaN are
  not modelled, and a division by zero has the value `0` (Mathlib's convention).
* Every call into OpenCV, libm or `random_numbers` is a field of `OpenCV` or of
  `StereoFrame`: the verification holds for every behaviour of these functions.
  OpenCV's point functions work point by point, so they are functions on one point
  and the vector call is a `List.map` / `List.zipWith`.
* A function returns `none` where the C++ has undefined behaviour (a vector read
  past its end, an integer division by zero, a signed overflow).
* `std::map<int, std::vector<FeatureMetaData>>` is a list of `(code, cell)` pairs
  kept in increasing order of `code`.
-/

namespace msckf_vio

/-! ## Geometry -/

/-- The type `cv::Point2f` (also used for `cv::Point2d`). -/
structure Point2f where
  x : ℚ
  y : ℚ
deriving DecidableEq

/-- The type `cv::Vec3d` / `cv::Vec3f` / `Eigen::Vector3d`. -/
structure Vec3 where
  x : ℚ
  y : ℚ
  z : ℚ
deriving DecidableEq

/-- The type `cv::Vec4d`: intrinsics `(fx, fy, cx, cy)` or four distortion coefficients. -/
structure Vec4 where
  v0 : ℚ
  v1 : ℚ
  v2 : ℚ
  v3 : ℚ
deriving DecidableEq

/-- The type `cv::Matx33d` / `cv::Matx33f`, stored by rows. -/
structure Matx33 where
  r0 : Vec3
  r1 : Vec3
  r2 : Vec3
deriving DecidableEq

/-- The method `cv::Point2f::dot`. -/
def Point2f.dot (p q : Point2f) : ℚ := p.x * q.x + p.y * q.y

/-- Difference of two points. -/
def Point2f.sub (p q : Point2f) : Point2f := ⟨p.x - q.x, p.y - q.y⟩

/-- Product of a point with a scalar (`pt *= s`). -/
def Point2f.scale (s : ℚ) (p : Point2f) : Point2f := ⟨p.x * s, p.y * s⟩

/-- Scalar product of two 3-vectors. -/
def Vec3.dot (a b : Vec3) : ℚ := a.x * b.x + a.y * b.y + a.z * b.z

/-- Difference of two 3-vectors. -/
def Vec3.sub (a b : Vec3) : Vec3 := ⟨a.x - b.x, a.y - b.y, a.z - b.z⟩

/-- Sum of two 3-vectors. -/
def Vec3.add (a b : Vec3) : Vec3 := ⟨a.x + b.x, a.y + b.y, a.z + b.z⟩

/-- Product of a 3-vector with a scalar. -/
def Vec3.smul (s : ℚ) (a : Vec3) : Vec3 := ⟨a.x * s, a.y * s, a.z * s⟩

/-- Matrix times vector. -/
def Matx33.mulVec (m : Matx33) (v : Vec3) : Vec3 := ⟨m.r0.dot v, m.r1.dot v, m.r2.dot v⟩

/-- Transpose (`.t()`). -/
def Matx33.t (m : Matx33) : Matx33 :=
  ⟨⟨m.r0.x, m.r1.x, m.r2.x⟩, ⟨m.r0.y, m.r1.y, m.r2.y⟩, ⟨m.r0.z, m.r1.z, m.r2.z⟩⟩

/-- Matrix product. -/
def Matx33.mul (a b : Matx33) : Matx33 :=
  let bt := b.t
  ⟨⟨a.r0.dot bt.r0, a.r0.dot bt.r1, a.r0.dot bt.r2⟩,
   ⟨a.r1.dot bt.r0, a.r1.dot bt.r1, a.r1.dot bt.r2⟩,
   ⟨a.r2.dot bt.r0, a.r2.dot bt.r1, a.r2.dot bt.r2⟩⟩

/-- The matrix `cv::Matx33d::eye()`. -/
def Matx33.eye : Matx33 := ⟨⟨1, 0, 0⟩, ⟨0, 1, 0⟩, ⟨0, 0, 1⟩⟩

/-- The intrinsic matrix `K` built from `(fx, fy, cx, cy)`. -/
def intrinsicMatrix (intrinsics : Vec4) : Matx33 :=
  ⟨⟨intrinsics.v0, 0, intrinsics.v2⟩, ⟨0, intrinsics.v1, intrinsics.v3⟩, ⟨0, 0, 1⟩⟩

/-- The cast `static_cast<int>` of a floating-point value: truncation towards zero. -/
def truncToInt (q : ℚ) : Int := if 0 ≤ q then ⌊q⌋ else ⌈q⌉

/-! ## External functions -/

/-- The library functions the processor calls, one field per function.

* `undistortPoints K D R P`: `cv::undistortPoints` on one point.
* `fisheye_undistortPoints K D R P`: `cv::fisheye::undistortPoints` on one point.
* `projectPoints K D`: `cv::convertPointsToHomogeneous` followed by `cv::projectPoints`
  with zero rotation and translation, on one point.
* `fisheye_distortPoints K D`: `cv::fisheye::distortPoints` on one point.
* `Rodrigues`: `cv::Rodrigues`, rotation vector to rotation matrix.
* `inv`: `cv::Matx33f::inv`.
* `sqrt`, `log`: the libm functions. -/
structure OpenCV where
  undistortPoints : Matx33 → Vec4 → Matx33 → Matx33 → Point2f → Point2f
  fisheye_undistortPoints : Matx33 → Vec4 → Matx33 → Matx33 → Point2f → Point2f
  projectPoints : Matx33 → Vec4 → Point2f → Point2f
  fisheye_distortPoints : Matx33 → Vec4 → Point2f → Point2f
  Rodrigues : Vec3 → Matx33
  inv : Matx33 → Matx33
  sqrt : ℚ → ℚ
  log : ℚ → ℚ

/-- The call `random_gen.uniformInteger(lo, hi)`: an integer of `[lo, hi]`, chosen by the
raw value `raw` the generator produces for this call. -/
def uniformInteger (raw : Nat) (lo hi : Int) : Int := lo + (raw : Int) % (hi - lo + 1)

/-! ## Camera model -/

/-- The function `ImageProcessor::undistortPoints`. `pts_out` is the output vector as the
caller passes it: it is returned untouched when there is no input point. An unrecognized
model name is treated as radtan. -/
def undistortPoints (cv : OpenCV) (pts_in : List Point2f) (intrinsics : Vec4)
    (distortion_model : String) (distortion_coeffs : Vec4) (pts_out : List Point2f)
    (rectification_matrix : Matx33) (new_intrinsics : Vec4) : List Point2f :=
  if pts_in.length = 0 then pts_out
  else
    let K := intrinsicMatrix intrinsics
    let K_new := intrinsicMatrix new_intrinsics
    if distortion_model = "radtan" then
      pts_in.map (cv.undistortPoints K distortion_coeffs rectification_matrix K_new)
    else if distortion_model = "equidistant" then
      pts_in.map (cv.fisheye_undistortPoints K distortion_coeffs rectification_matrix K_new)
    else
      pts_in.map (cv.undistortPoints K distortion_coeffs rectification_matrix K_new)

/-- Modelled from the spec: the default value of `new_intrinsics` in the declaration of
`undistortPoints` (image_processor.h is not among the sources); the spec gives
`K_new = I`, that is `(fx, fy, cx, cy) = (1, 1, 0, 0)`. -/
def defaultNewIntrinsics : Vec4 := ⟨1, 1, 0, 0⟩

/-- The function `ImageProcessor::distortPoints`. -/
def distortPoints (cv : OpenCV) (pts_in : List Point2f) (intrinsics : Vec4)
    (distortion_model : String) (distortion_coeffs : Vec4) : List Point2f :=
  let K := intrinsicMatrix intrinsics
  if distortion_model = "radtan" then
    pts_in.map (cv.projectPoints K distortion_coeffs)
  else if distortion_model = "equidistant" then
    pts_in.map (cv.fisheye_distortPoints K distortion_coeffs)
  else
    pts_in.map (cv.projectPoints K distortion_coeffs)

/-! ## Two-point RANSAC -/

/-- The function `ImageProcessor::rescalePoints`: the scaled `pts1`, the scaled `pts2` and
the scaling factor. Both loops run over the indices of `pts1` and read `pts2[i]`, which is
past the end of `pts2` when `pts2` is the shorter vector. -/
def rescalePoints (cv : OpenCV) (pts1 pts2 : List Point2f) :
    Option (List Point2f × List Point2f × ℚ) :=
  if pts2.length < pts1.length then none
  else
    let total := (pts1.zip pts2).foldl
      (fun acc pq => acc + cv.sqrt (pq.1.dot pq.1) + cv.sqrt (pq.2.dot pq.2)) 0
    let scaling_factor := ((pts1.length + pts2.length : Nat) : ℚ) / total * cv.sqrt 2
    some (pts1.map (Point2f.scale scaling_factor),
      (pts2.take pts1.length).map (Point2f.scale scaling_factor) ++ pts2.drop pts1.length,
      scaling_factor)

/-- What `twoPointRansac` hands back: whether `ROS_ERROR` was issued for the sizes, and the
vector `inlier_markers`. -/
structure RansacOutput where
  error_logged : Bool
  inlier_markers : List Int
deriving DecidableEq

/-- The best model seen so far in the RANSAC loop. -/
structure RansacBest where
  best_inlier_set : List Nat
  best_error : ℚ
deriving DecidableEq

/-- A vector read `xs[i]` with an `int` index. -/
def readAt {α : Type} (xs : List α) (i : Int) : Option α :=
  if 0 ≤ i then xs[i.toNat]? else none

/-- The markers after the pre-filter: pair `i` is cleared when its distance exceeds
`50.0*norm_pixel_unit`. -/
def preFilterMarkers (cv : OpenCV) (pts_diff : List Point2f) (norm_pixel_unit : ℚ) :
    List Int :=
  pts_diff.map (fun d => if cv.sqrt (d.dot d) > 50 * norm_pixel_unit then 0 else 1)

/-- The sum accumulated in `mean_pt_distance` by the pre-filter loop. -/
def preFilterDistanceSum (cv : OpenCV) (pts_diff : List Point2f) (norm_pixel_unit : ℚ) : ℚ :=
  pts_diff.foldl (fun acc d =>
    if cv.sqrt (d.dot d) > 50 * norm_pixel_unit then acc else acc + cv.sqrt (d.dot d)) 0

/-- The counter `raw_inlier_cntr` after the pre-filter loop. -/
def rawInlierCntr (cv : OpenCV) (pts_diff : List Point2f) (norm_pixel_unit : ℚ) : Nat :=
  (pts_diff.filter (fun d => ¬ (cv.sqrt (d.dot d) > 50 * norm_pixel_unit))).length

/-- The markers on the degenerate-motion path. -/
def degenerateMarkers (cv : OpenCV) (inlier_markers : List Int) (pts_diff : List Point2f)
    (inlier_error norm_pixel_unit : ℚ) : List Int :=
  List.zipWith (fun m d =>
    if m = 0 then m
    else if cv.sqrt (d.dot d) > inlier_error * norm_pixel_unit then 0 else m)
    inlier_markers pts_diff

/-- Row `i` of `coeff_t`. -/
def coeffRow (p1 p2 : Point2f) : Vec3 :=
  let d := p1.sub p2
  ⟨d.y, -d.x, p1.x * p2.y - p1.y * p2.x⟩

/-- The index `min_element(coeff_l1_norm) - begin`: the first smallest of three values. -/
def minElement3 (n0 n1 n2 : ℚ) : Nat :=
  let s := if n1 < n0 then 1 else 0
  let v := if n1 < n0 then n1 else n0
  if n2 < v then 2 else s

/-- The product `A.inverse() * rhs` for the 2x2 matrix `A` with columns `c1` and `c2`. -/
def solve2 (c1 c2 rhs : ℚ × ℚ) : ℚ × ℚ :=
  let det := c1.1 * c2.2 - c2.1 * c1.2
  let i00 := c2.2 / det
  let i01 := -c2.1 / det
  let i10 := -c1.2 / det
  let i11 := c1.1 / det
  (i00 * rhs.1 + i01 * rhs.2, i10 * rhs.1 + i11 * rhs.2)

/-- The two-point model for the pivot `base_indicator`, from the two sampled rows. -/
def twoPointModel (base_indicator : Nat) (row1 row2 : Vec3) : Vec3 :=
  let coeff_tx : ℚ × ℚ := (row1.x, row2.x)
  let coeff_ty : ℚ × ℚ := (row1.y, row2.y)
  let coeff_tz : ℚ × ℚ := (row1.z, row2.z)
  if base_indicator = 0 then
    let solution := solve2 coeff_ty coeff_tz (-coeff_tx.1, -coeff_tx.2)
    ⟨1, solution.1, solution.2⟩
  else if base_indicator = 1 then
    let solution := solve2 coeff_tx coeff_tz (-coeff_ty.1, -coeff_ty.2)
    ⟨solution.1, 1, solution.2⟩
  else
    let solution := solve2 coeff_tx coeff_ty (-coeff_tz.1, -coeff_tz.2)
    ⟨solution.1, solution.2, 1⟩

/-- Scalar product of two coefficient columns. -/
def dotList (a b : List ℚ) : ℚ := (List.zipWith (fun u v => u * v) a b).sum

/-- The product `(A.transpose() * A).inverse() * A.transpose() * rhs` for the matrix `A`
with the two columns `c1` and `c2`. -/
def leastSquares2 (c1 c2 rhs : List ℚ) : ℚ × ℚ :=
  let det := dotList c1 c1 * dotList c2 c2 - dotList c1 c2 * dotList c2 c1
  let i00 := dotList c2 c2 / det
  let i01 := -dotList c1 c2 / det
  let i10 := -dotList c2 c1 / det
  let i11 := dotList c1 c1 / det
  let m0 := List.zipWith (fun u v => i00 * u + i01 * v) c1 c2
  let m1 := List.zipWith (fun u v => i10 * u + i11 * v) c1 c2
  (dotList m0 rhs, dotList m1 rhs)

/-- The refitted model `model_better` for the pivot `base_indicator`. -/
def refitModel (base_indicator : Nat) (rows : List Vec3) : Vec3 :=
  let coeff_tx_better := rows.map (fun r => r.x)
  let coeff_ty_better := rows.map (fun r => r.y)
  let coeff_tz_better := rows.map (fun r => r.z)
  if base_indicator = 0 then
    let solution := leastSquares2 coeff_ty_better coeff_tz_better
      (coeff_tx_better.map (fun v => -v))
    ⟨1, solution.1, solution.2⟩
  else if base_indicator = 1 then
    let solution := leastSquares2 coeff_tx_better coeff_tz_better
      (coeff_ty_better.map (fun v => -v))
    ⟨solution.1, 1, solution.2⟩
  else
    let solution := leastSquares2 coeff_tx_better coeff_ty_better
      (coeff_tz_better.map (fun v => -v))
    ⟨solution.1, solution.2, 1⟩

/-- The inlier set of one iteration: the indices whose marker is set and whose residual is
below `inlier_error*norm_pixel_unit`, in increasing order. -/
def inlierSet (coeff_t : List Vec3) (inlier_markers : List Int) (model : Vec3)
    (inlier_error norm_pixel_unit : ℚ) : List Nat :=
  let error := coeff_t.map (fun r => r.dot model)
  (List.range error.length).filter (fun i =>
    inlier_markers.getD i 0 ≠ 0 ∧ |error.getD i 0| < inlier_error * norm_pixel_unit)

/-- One pass of the body of the RANSAC loop. `random` is the stream of raw values of the
generator of this call of `twoPointRansac`: iteration `iter_idx` makes its calls number
`2*iter_idx` and `2*iter_idx+1`. -/
def ransacIteration (random : Nat → Nat) (coeff_t : List Vec3) (inlier_markers : List Int)
    (raw_inlier_idx : List Nat) (inlier_error norm_pixel_unit : ℚ) (n_pts : Nat)
    (iter_idx : Nat) (best : RansacBest) : Option RansacBest :=
  let m : Int := raw_inlier_idx.length
  match readAt raw_inlier_idx (uniformInteger (random (2 * iter_idx)) 0 (m - 1)) with
  | none => none
  | some idx1 =>
    let pair_idx1 : Int := idx1
    let idx_diff := uniformInteger (random (2 * iter_idx + 1)) 1 (m - 1)
    let pair_idx2 : Int :=
      if pair_idx1 + idx_diff < m then pair_idx1 + idx_diff else pair_idx1 + idx_diff - m
    match readAt coeff_t pair_idx1, readAt coeff_t pair_idx2 with
    | some row1, some row2 =>
      let base_indicator := minElement3 (|row1.x| + |row2.x|) (|row1.y| + |row2.y|)
        (|row1.z| + |row2.z|)
      let model := twoPointModel base_indicator row1 row2
      let inlier_set := inlierSet coeff_t inlier_markers model inlier_error norm_pixel_unit
      if (inlier_set.length : ℚ) < 0.2 * (n_pts : ℚ) then some best
      else
        let model_better := refitModel base_indicator
          (inlier_set.map (fun i => coeff_t.getD i ⟨0, 0, 0⟩))
        let new_error := coeff_t.map (fun r => r.dot model_better)
        let this_error :=
          (inlier_set.foldl (fun acc i => acc + |new_error.getD i 0|) 0) / (inlier_set.length : ℚ)
        if inlier_set.length > best.best_inlier_set.length then
          some ⟨inlier_set, this_error⟩
        else some best
    | _, _ => none

/-- The RANSAC loop `for (iter_idx = 0; iter_idx < iter_num; ++iter_idx)`: `remaining`
passes starting at `iter_idx`. -/
def ransacLoop (random : Nat → Nat) (coeff_t : List Vec3) (inlier_markers : List Int)
    (raw_inlier_idx : List Nat) (inlier_error norm_pixel_unit : ℚ) (n_pts : Nat) :
    Nat → Nat → RansacBest → Option RansacBest
  | 0, _, best => some best
  | remaining + 1, iter_idx, best =>
    match ransacIteration random coeff_t inlier_markers raw_inlier_idx inlier_error
        norm_pixel_unit n_pts iter_idx best with
    | none => none
    | some best1 =>
      ransacLoop random coeff_t inlier_markers raw_inlier_idx inlier_error norm_pixel_unit
        n_pts remaining (iter_idx + 1) best1

/-- The final markers: `resize(pts1.size(), 0)` and a `1` at every index of the best set. -/
def fillMarkers (n : Nat) (best_inlier_set : List Nat) : List Int :=
  best_inlier_set.foldl (fun markers inlier_idx => markers.set inlier_idx 1)
    (List.replicate n 0)

/-- The function `ImageProcessor::twoPointRansac`. -/
def twoPointRansac (cv : OpenCV) (random : Nat → Nat) (pts1 pts2 : List Point2f)
    (R_p_c : Matx33) (intrinsics : Vec4) (distortion_model : String)
    (distortion_coeffs : Vec4) (inlier_error success_probability : ℚ) :
    Option RansacOutput :=
  let error_logged := decide (pts1.length ≠ pts2.length)
  let iter_num : Int := truncToInt
    ((Int.ceil (cv.log (1 - success_probability) / cv.log (1 - 0.7 * 0.7)) : Int) : ℚ)
  let pts1_undistorted := undistortPoints cv pts1 intrinsics distortion_model
    distortion_coeffs (List.replicate pts1.length ⟨0, 0⟩) Matx33.eye defaultNewIntrinsics
  let pts2_undistorted := undistortPoints cv pts2 intrinsics distortion_model
    distortion_coeffs (List.replicate pts2.length ⟨0, 0⟩) Matx33.eye defaultNewIntrinsics
  let pts1_compensated := pts1_undistorted.map (fun pt =>
    let pt_hc := R_p_c.mulVec ⟨pt.x, pt.y, 1⟩
    (⟨pt_hc.x, pt_hc.y⟩ : Point2f))
  match rescalePoints cv pts1_compensated pts2_undistorted with
  | none => none
  | some (pts1_scaled, pts2_scaled, scaling_factor) =>
    let norm_pixel_unit := 2 / (intrinsics.v0 + intrinsics.v1) * scaling_factor
    let pts_diff := List.zipWith Point2f.sub pts1_scaled pts2_scaled
    let inlier_markers := preFilterMarkers cv pts_diff norm_pixel_unit
    let raw_inlier_cntr := rawInlierCntr cv pts_diff norm_pixel_unit
    let mean_pt_distance :=
      preFilterDistanceSum cv pts_diff norm_pixel_unit / (raw_inlier_cntr : ℚ)
    if raw_inlier_cntr < 3 then
      some ⟨error_logged, inlier_markers.map (fun _ => 0)⟩
    else if mean_pt_distance < norm_pixel_unit then
      some ⟨error_logged,
        degenerateMarkers cv inlier_markers pts_diff inlier_error norm_pixel_unit⟩
    else
      let coeff_t := List.zipWith coeffRow pts1_scaled pts2_scaled
      let raw_inlier_idx := (List.range inlier_markers.length).filter
        (fun i => inlier_markers.getD i 0 ≠ 0)
      match ransacLoop random coeff_t inlier_markers raw_inlier_idx inlier_error
          norm_pixel_unit pts1_scaled.length iter_num.toNat 0 ⟨[], 10000000000⟩ with
      | none => none
      | some best => some ⟨error_logged, fillMarkers pts1.length best.best_inlier_set⟩

/-! ## Grid feature store -/

/-- The type `cv::KeyPoint`, as far as the processor reads it. -/
structure KeyPoint where
  pt : Point2f
  response : ℚ
deriving DecidableEq

/-- The record `FeatureMetaData`. Modelled from the spec: `FeatureIDType` is declared in
image_processor.h, which is not among the sources; the spec calls it a monotonically
increasing unsigned integer, here a natural number. -/
structure FeatureMetaData where
  id : Nat
  response : ℚ
  lifetime : Int
  cam0_point : Point2f
  cam1_point : Point2f
deriving DecidableEq

/-- The type `GridFeatures`, a `std::map` from the cell code to the features of the cell:
the entries in increasing order of the code. -/
structure GridFeatures where
  cells : List (Int × List FeatureMetaData)
deriving DecidableEq

/-- Lookup of a code in the entries; a missing code reads as the empty vector that
`operator[]` would create. -/
def lookupCell : List (Int × List FeatureMetaData) → Int → List FeatureMetaData
  | [], _ => []
  | (k, cell) :: rest, code => if k = code then cell else lookupCell rest code

/-- Whether the entries hold the key `code`. -/
def hasCell (cells : List (Int × List FeatureMetaData)) (code : Int) : Bool :=
  cells.any (fun item => decide (item.1 = code))

/-- The entries after `g` was applied to the vector of the entry with key `code`. -/
def updateCell : List (Int × List FeatureMetaData) → Int →
    (List FeatureMetaData → List FeatureMetaData) → List (Int × List FeatureMetaData)
  | [], _, _ => []
  | (k, cell) :: rest, code, g =>
    if k = code then (k, g cell) :: rest else (k, cell) :: updateCell rest code g

/-- The entries after a new entry was inserted at its place in the order of the codes. -/
def insertCell : List (Int × List FeatureMetaData) → Int → List FeatureMetaData →
    List (Int × List FeatureMetaData)
  | [], code, v => [(code, v)]
  | (k, cell) :: rest, code, v =>
    if code < k then (code, v) :: (k, cell) :: rest else (k, cell) :: insertCell rest code v

/-- Change of the vector behind the reference `m[code]`: `operator[]` finds the entry of
`code`, or creates it with an empty vector when the map has none, and `g` is applied to
the vector. -/
def modifyCell (cells : List (Int × List FeatureMetaData)) (code : Int)
    (g : List FeatureMetaData → List FeatureMetaData) : List (Int × List FeatureMetaData) :=
  if hasCell cells code then updateCell cells code g else insertCell cells code (g [])

/-- The vector `m[code]`. -/
def GridFeatures.get (m : GridFeatures) (code : Int) : List FeatureMetaData :=
  lookupCell m.cells code

/-- The map after `g` was applied to the vector `m[code]`. -/
def GridFeatures.modify (m : GridFeatures) (code : Int)
    (g : List FeatureMetaData → List FeatureMetaData) : GridFeatures :=
  ⟨modifyCell m.cells code g⟩

/-- All features of the map, cell after cell in the order of the codes: the order of the
loops `for item : map` / `for feature : item.second`. -/
def GridFeatures.flatten (m : GridFeatures) : List FeatureMetaData :=
  m.cells.flatMap (fun item => item.2)

/-- The map made by `m[code] = vector<FeatureMetaData>(0)` for `code = 0 .. n-1`. -/
def GridFeatures.empty (n : Int) : GridFeatures :=
  ⟨(List.range n.toNat).map (fun code => ((code : Int), []))⟩

/-- Modelled from the spec: `featureCompareByResponse` is declared in image_processor.h,
which is not among the sources; the spec's `SortByResponse` sorts a cell by descending
response. This is the order `std::sort` establishes with it. -/
def sortByResponse (cell : List FeatureMetaData) : List FeatureMetaData :=
  cell.insertionSort (fun f1 f2 => f2.response ≤ f1.response)

/-- Modelled from the spec: `featureCompareByLifetime` is declared in image_processor.h,
which is not among the sources; the spec's `SortByLifetime` sorts a cell by descending
lifetime. This is the order `std::sort` establishes with it. -/
def sortByLifetime (cell : List FeatureMetaData) : List FeatureMetaData :=
  cell.insertionSort (fun f1 f2 => f2.lifetime ≤ f1.lifetime)

/-- Modelled from the spec: `keyPointCompareByResponse` is declared in image_processor.h,
which is not among the sources; detections are capped per cell "by response", the
strongest first. -/
def sortKeyPointsByResponse (item : List KeyPoint) : List KeyPoint :=
  item.insertionSort (fun k1 k2 => k2.response ≤ k1.response)

/-- Modelled from the spec: the template `removeUnmarkedElements` is declared in a header
that is not among the sources; it copies the elements whose marker is not 0, in order
(the spec's "survivors" of a rejection stage). -/
def removeUnmarkedElements {α : Type} (raw_vec : List α) (markers : List Nat) : List α :=
  (raw_vec.zip markers).filterMap (fun vm => if vm.2 = 0 then none else some vm.1)

/-- Conversion of an `int` to `size_t`, as in a comparison of a vector size with an `int`. -/
def toSizeT (v : Int) : Nat := (v % 18446744073709551616).toNat

/-- Conversion of an integer to `int`: the low 32 bits, signed. -/
def toInt32 (v : Int) : Int := (v + 2147483648) % 4294967296 - 2147483648

/-! ## Configuration, frames and processor state -/

/-- The members of `processor_config` that the processor itself reads (the others are only
handed to OpenCV). All are `int` or `double` parameters. -/
structure ProcessorConfig where
  grid_row : Int
  grid_col : Int
  grid_min_feature_num : Int
  grid_max_feature_num : Int
  ransac_threshold : ℚ
  stereo_threshold : ℚ

/-- The calibration members set by `loadParameters`. -/
structure Calibration where
  cam0_intrinsics : Vec4
  cam0_distortion_model : String
  cam0_distortion_coeffs : Vec4
  cam1_intrinsics : Vec4
  cam1_distortion_model : String
  cam1_distortion_coeffs : Vec4
  R_cam0_imu : Matx33
  t_cam0_imu : Vec3
  R_cam1_imu : Matx33
  t_cam1_imu : Vec3

/-- An IMU message, as far as the processor reads it. -/
structure ImuMsg where
  stamp : ℚ
  angular_velocity : Vec3
deriving DecidableEq

/-- One stereo pair with everything the libraries compute from its images.

* `stamp`: `cam0_curr_img_ptr->header.stamp` in seconds.
* `cam0_rows` .. `cam1_cols`: the image sizes.
* `detect mask`: the key points of `detector_ptr->detect` on the cam0 image under `mask`
  (a function of row and column).
* `trackLK p guess`: `calcOpticalFlowPyrLK` from the previous to the current cam0 pyramid
  for the point `p` with initial position `guess`: the new position and the status byte.
* `stereoLK p guess`: the same from the current cam0 to the current cam1 pyramid.
* `random_cam0`, `random_cam1`: the raw values of the random generators that the two
  calls of `twoPointRansac` create. -/
structure StereoFrame where
  stamp : ℚ
  cam0_rows : Int
  cam0_cols : Int
  cam1_rows : Int
  cam1_cols : Int
  detect : (Int → Int → Nat) → List KeyPoint
  trackLK : Point2f → Point2f → Point2f × Nat
  stereoLK : Point2f → Point2f → Point2f × Nat
  random_cam0 : Nat → Nat
  random_cam1 : Nat → Nat

/-- The members of `ImageProcessor` that the frame pipeline reads and writes.

* `prev_stamp` is `cam0_prev_img_ptr->header.stamp`.
* `track_grid` and `add_grid` are the function-local statics `grid_height`, `grid_width`
  of `trackFeatures` and `addNewFeatures`: `none` until the function has run once.
* `allocated` is a ghost member: every value that `next_feature_id++` has handed out, the
  oldest first. -/
structure ImageProcessor where
  is_first_img : Bool
  next_feature_id : Nat
  before_tracking : Int
  after_tracking : Int
  after_matching : Int
  after_ransac : Int
  imu_msg_buffer : List ImuMsg
  prev_features : GridFeatures
  curr_features : GridFeatures
  prev_stamp : ℚ
  track_grid : Option (Int × Int)
  add_grid : Option (Int × Int)
  allocated : List Nat
deriving DecidableEq

/-- The processor as the constructor leaves it. The constructor sets `is_first_img` and the
two (empty) maps; the id counter and the four counters are not initialized by it, so their
first values are arbitrary. -/
def ImageProcessor.construct (next_feature_id : Nat)
    (before_tracking after_tracking after_matching after_ransac : Int) : ImageProcessor :=
  { is_first_img := true
    next_feature_id := next_feature_id
    before_tracking := before_tracking
    after_tracking := after_tracking
    after_matching := after_matching
    after_ransac := after_ransac
    imu_msg_buffer := []
    prev_features := ⟨[]⟩
    curr_features := ⟨[]⟩
    prev_stamp := 0
    track_grid := none
    add_grid := none
    allocated := [] }

/-- The sizes `grid_height = rows / grid_row` and `grid_width = cols / grid_col` (integer
division; a zero divisor is undefined). -/
def gridSize (cfg : ProcessorConfig) (f : StereoFrame) : Option (Int × Int) :=
  if cfg.grid_row = 0 ∨ cfg.grid_col = 0 then none
  else some (Int.tdiv f.cam0_rows cfg.grid_row, Int.tdiv f.cam0_cols cfg.grid_col)

/-- A function-local `static int grid_height, grid_width`: computed at the first call and
kept afterwards. -/
def staticGridSize (cached : Option (Int × Int)) (cfg : ProcessorConfig) (f : StereoFrame) :
    Option (Int × Int) :=
  match cached with
  | some g => some g
  | none => gridSize cfg f

/-- The cell code `row*grid_col + col` of a point, `row = int(y / grid_height)` and
`col = int(x / grid_width)`. -/
def cellCode (grid_height grid_width grid_col : Int) (p : Point2f) : Int :=
  truncToInt (p.y / (grid_height : ℚ)) * grid_col + truncToInt (p.x / (grid_width : ℚ))

/-- Whether the cell codes of `n` points can be computed: the division by a zero grid
size gives an infinite value, whose cast to `int` is undefined. -/
def codesDefined (grid_height grid_width : Int) (n : Nat) : Bool :=
  decide (n = 0 ∨ (grid_height ≠ 0 ∧ grid_width ≠ 0))

/-! ## Stereo matching, IMU integration, prediction -/

/-- Whether a point lies outside an image of the given size (the test of the two
"out of the image region" loops). -/
def outOfImage (rows cols : Int) (p : Point2f) : Bool :=
  decide (p.y < 0 ∨ p.y > ((rows - 1 : Int) : ℚ) ∨ p.x < 0 ∨ p.x > ((cols - 1 : Int) : ℚ))

/-- The epipolar error of a pair of undistorted points for the essential matrix `E`. -/
def epipolarError (cv : OpenCV) (E : Matx33) (p0 p1 : Point2f) : ℚ :=
  let pt0 : Vec3 := ⟨p0.x, p0.y, 1⟩
  let pt1 : Vec3 := ⟨p1.x, p1.y, 1⟩
  let epipolar_line := E.mulVec pt0
  |pt1.dot epipolar_line| /
    cv.sqrt (epipolar_line.x * epipolar_line.x + epipolar_line.y * epipolar_line.y)

/-- The essential matrix of the stereo pair, `[t]x R`. -/
def essentialMatrix (cal : Calibration) : Matx33 :=
  let R_cam0_cam1 := cal.R_cam1_imu.t.mul cal.R_cam0_imu
  let t_cam0_cam1 := cal.R_cam1_imu.t.mulVec (cal.t_cam0_imu.sub cal.t_cam1_imu)
  let t_cam0_cam1_hat : Matx33 :=
    ⟨⟨0, -t_cam0_cam1.z, t_cam0_cam1.y⟩,
     ⟨t_cam0_cam1.z, 0, -t_cam0_cam1.x⟩,
     ⟨-t_cam0_cam1.y, t_cam0_cam1.x, 0⟩⟩
  t_cam0_cam1_hat.mul R_cam0_cam1

/-- The function `ImageProcessor::stereoMatch`: the vectors `cam1_points` and
`inlier_markers` as it leaves them. -/
def stereoMatch (cv : OpenCV) (cfg : ProcessorConfig) (cal : Calibration) (f : StereoFrame)
    (cam0_points cam1_points : List Point2f) (inlier_markers : List Nat) :
    List Point2f × List Nat :=
  if cam0_points.length = 0 then (cam1_points, inlier_markers)
  else
    let R_cam0_cam1 := cal.R_cam1_imu.t.mul cal.R_cam0_imu
    let cam1_guess :=
      if cam1_points.length = 0 then
        distortPoints cv
          (undistortPoints cv cam0_points cal.cam0_intrinsics cal.cam0_distortion_model
            cal.cam0_distortion_coeffs [] R_cam0_cam1 defaultNewIntrinsics)
          cal.cam1_intrinsics cal.cam1_distortion_model cal.cam1_distortion_coeffs
      else cam1_points
    let flow := List.zipWith f.stereoLK cam0_points cam1_guess
    let cam1_tracked := flow.map Prod.fst
    let in_image := List.zipWith
      (fun (m : Nat) p => if m = 0 then m else if outOfImage f.cam1_rows f.cam1_cols p then 0 else m)
      (flow.map Prod.snd) cam1_tracked
    let E := essentialMatrix cal
    let cam0_points_undistorted := undistortPoints cv cam0_points cal.cam0_intrinsics
      cal.cam0_distortion_model cal.cam0_distortion_coeffs [] Matx33.eye defaultNewIntrinsics
    let cam1_points_undistorted := undistortPoints cv cam1_tracked cal.cam1_intrinsics
      cal.cam1_distortion_model cal.cam1_distortion_coeffs [] Matx33.eye defaultNewIntrinsics
    let norm_pixel_unit := 4 / (cal.cam0_intrinsics.v0 + cal.cam0_intrinsics.v1 +
      cal.cam1_intrinsics.v0 + cal.cam1_intrinsics.v1)
    let markers := List.zipWith
      (fun (m : Nat) (pq : Point2f × Point2f) =>
        if m = 0 then m
        else if epipolarError cv E pq.1 pq.2 > cfg.stereo_threshold * norm_pixel_unit then 0
        else m)
      in_image (cam0_points_undistorted.zip cam1_points_undistorted)
    (cam1_tracked, markers)

/-- The function `ImageProcessor::integrateImuData`: the two rotations and the buffer after
the `erase`. `prev_stamp` and `curr_stamp` are the stamps of the previous and the current
cam0 image. -/
def integrateImuData (cv : OpenCV) (cal : Calibration) (imu_msg_buffer : List ImuMsg)
    (prev_stamp curr_stamp : ℚ) : Matx33 × Matx33 × List ImuMsg :=
  let from_begin := imu_msg_buffer.dropWhile (fun msg => msg.stamp - prev_stamp < -0.01)
  let window := from_begin.takeWhile (fun msg => msg.stamp - curr_stamp < 0.005)
  let total := window.foldl (fun acc msg => acc.add msg.angular_velocity) (⟨0, 0, 0⟩ : Vec3)
  let mean_ang_vel :=
    if window.length > 0 then total.smul (1 / (window.length : ℚ)) else total
  let cam0_mean_ang_vel := cal.R_cam0_imu.t.mulVec mean_ang_vel
  let cam1_mean_ang_vel := cal.R_cam1_imu.t.mulVec mean_ang_vel
  let dtime := curr_stamp - prev_stamp
  ((cv.Rodrigues (cam0_mean_ang_vel.smul dtime)).t,
   (cv.Rodrigues (cam1_mean_ang_vel.smul dtime)).t,
   from_begin.dropWhile (fun msg => msg.stamp - curr_stamp < 0.005))

/-- The function `ImageProcessor::predictFeatureTracking`. -/
def predictFeatureTracking (cv : OpenCV) (input_pts : List Point2f) (R_p_c : Matx33)
    (intrinsics : Vec4) : List Point2f :=
  if input_pts.length = 0 then []
  else
    let K := intrinsicMatrix intrinsics
    let H := (K.mul R_p_c).mul (cv.inv K)
    input_pts.map (fun p =>
      let p2 := H.mulVec ⟨p.x, p.y, 1⟩
      (⟨p2.x / p2.z, p2.y / p2.z⟩ : Point2f))

/-- The function `ImageProcessor::imuCallback`. -/
def imuCallback (s : ImageProcessor) (msg : ImuMsg) : ImageProcessor :=
  if s.is_first_img then s
  else { s with imu_msg_buffer := s.imu_msg_buffer ++ [msg] }

/-! ## Admission of new features -/

/-- The stereo inliers of a detection: one feature for every index whose marker is not 0.
The members `id` and `lifetime` are not set at this point (written 0 here); they are set
when the feature is admitted. -/
def collectInliers (new_features : List KeyPoint) (cam1_points : List Point2f)
    (inlier_markers : List Nat) : List FeatureMetaData :=
  ((new_features.zip cam1_points).zip inlier_markers).filterMap (fun e =>
    if e.2 = 0 then none
    else some
      { id := 0, response := e.1.1.response, lifetime := 0,
        cam0_point := e.1.1.pt, cam1_point := e.1.2 })

/-- The map `grid_new_features` after the grouping loop: every feature is appended to the
cell of its cam0 point. -/
def groupIntoGrids (grid_height grid_width : Int) (cfg : ProcessorConfig)
    (features : List FeatureMetaData) : GridFeatures :=
  features.foldl
    (fun m feature =>
      m.modify (cellCode grid_height grid_width cfg.grid_col feature.cam0_point)
        (fun cell => cell ++ [feature]))
    (GridFeatures.empty (cfg.grid_row * cfg.grid_col))

/-- The map after every cell was sorted by response. -/
def sortGrids (m : GridFeatures) : GridFeatures :=
  ⟨m.cells.map (fun item => (item.1, sortByResponse item.2))⟩

/-- The ids and lifetimes written in an admission loop: the features get the ids
`next_feature_id`, `next_feature_id + 1`, ... in order, and lifetime 1. -/
def assignIds (next_feature_id : Nat) : List FeatureMetaData → List FeatureMetaData
  | [] => []
  | feature :: rest =>
    { feature with id := next_feature_id, lifetime := 1 } ::
      assignIds (next_feature_id + 1) rest

/-- The inner admission loop for one cell: the features `chosen` are pushed to
`curr_features[code]`, each with `id = next_feature_id++` and `lifetime = 1`. -/
def admitInto (s : ImageProcessor) (code : Int) (chosen : List FeatureMetaData) :
    ImageProcessor :=
  { s with
    curr_features :=
      s.curr_features.modify code (fun cell => cell ++ assignIds s.next_feature_id chosen)
    next_feature_id := s.next_feature_id + chosen.length
    allocated := s.allocated ++ List.range' s.next_feature_id chosen.length }

/-- The stereo-verified candidates of the first frame. -/
def firstFrameCandidates (cv : OpenCV) (cfg : ProcessorConfig) (cal : Calibration)
    (f : StereoFrame) : List FeatureMetaData :=
  let new_features := f.detect (fun _ _ => 1)
  let cam0_points := new_features.map (fun k => k.pt)
  let matched := stereoMatch cv cfg cal f cam0_points [] []
  collectInliers new_features matched.1 matched.2

/-- The function `ImageProcessor::initializeFirstFrame`. -/
def initializeFirstFrame (cv : OpenCV) (cfg : ProcessorConfig) (cal : Calibration)
    (s : ImageProcessor) (f : StereoFrame) : Option ImageProcessor :=
  match gridSize cfg f with
  | none => none
  | some (grid_height, grid_width) =>
    let inliers := firstFrameCandidates cv cfg cal f
    if codesDefined grid_height grid_width inliers.length then
      let grid_new_features := sortGrids (groupIntoGrids grid_height grid_width cfg inliers)
      some ((List.range (cfg.grid_row * cfg.grid_col).toNat).foldl
        (fun st (code : Nat) =>
          admitInto st (code : Int)
            ((grid_new_features.get (code : Int)).take cfg.grid_min_feature_num.toNat))
        s)
    else none

/-! ## Tracking -/

/-- One index of the parallel vectors `prev_tracked_ids`, `prev_tracked_lifetime`,
`prev_tracked_cam0_points`, `prev_tracked_cam1_points` (the members of `prev`) and
`curr_tracked_cam0_points`. -/
structure TrackedFeature where
  prev : FeatureMetaData
  curr_cam0_point : Point2f
deriving DecidableEq

/-- One index of the parallel vectors `prev_matched_*` (the members of `prev`),
`curr_matched_cam0_points` and `curr_matched_cam1_points`. -/
structure MatchedFeature where
  prev : FeatureMetaData
  curr_cam0_point : Point2f
  curr_cam1_point : Point2f
deriving DecidableEq

/-- The temporal tracking of `trackFeatures`: prediction, optical flow from the previous
to the current cam0 image, the image-region test, and `removeUnmarkedElements` with
`track_inliers`. `prev` is the previous store, flattened. -/
def temporalTrack (cv : OpenCV) (cal : Calibration) (f : StereoFrame) (cam0_R_p_c : Matx33)
    (prev : List FeatureMetaData) : List TrackedFeature :=
  let prev_cam0_points := prev.map (fun feature => feature.cam0_point)
  let predicted := predictFeatureTracking cv prev_cam0_points cam0_R_p_c cal.cam0_intrinsics
  let flow := List.zipWith f.trackLK prev_cam0_points predicted
  let curr_cam0_points := flow.map Prod.fst
  let track_inliers := List.zipWith
    (fun (m : Nat) p => if m = 0 then m else if outOfImage f.cam0_rows f.cam0_cols p then 0 else m)
    (flow.map Prod.snd) curr_cam0_points
  removeUnmarkedElements (List.zipWith TrackedFeature.mk prev curr_cam0_points) track_inliers

/-- Step 1 of the outlier removal of `trackFeatures`: stereo matching of the tracked
points and `removeUnmarkedElements` with `match_inliers`. -/
def stereoRematch (cv : OpenCV) (cfg : ProcessorConfig) (cal : Calibration) (f : StereoFrame)
    (tracked : List TrackedFeature) : List MatchedFeature :=
  let matched := stereoMatch cv cfg cal f (tracked.map (fun t => t.curr_cam0_point)) [] []
  removeUnmarkedElements
    (List.zipWith (fun (t : TrackedFeature) p => MatchedFeature.mk t.prev t.curr_cam0_point p)
      tracked matched.1)
    matched.2

/-- The vectors of `trackFeatures` at the point where the two RANSAC calls have returned. -/
structure TrackStage where
  tracked : List TrackedFeature
  matched : List MatchedFeature
  cam0_ransac_inliers : List Int
  cam1_ransac_inliers : List Int

/-- The part of `trackFeatures` from the optical flow to the two calls of
`twoPointRansac`, for the flattened previous store `prev`. -/
def trackStage (cv : OpenCV) (cfg : ProcessorConfig) (cal : Calibration) (f : StereoFrame)
    (cam0_R_p_c cam1_R_p_c : Matx33) (prev : List FeatureMetaData) : Option TrackStage :=
  let tracked := temporalTrack cv cal f cam0_R_p_c prev
  let matched := stereoRematch cv cfg cal f tracked
  match
    twoPointRansac cv f.random_cam0
      (matched.map (fun e => e.prev.cam0_point)) (matched.map (fun e => e.curr_cam0_point))
      cam0_R_p_c cal.cam0_intrinsics cal.cam0_distortion_model cal.cam0_distortion_coeffs
      cfg.ransac_threshold 0.99,
    twoPointRansac cv f.random_cam1
      (matched.map (fun e => e.prev.cam1_point)) (matched.map (fun e => e.curr_cam1_point))
      cam1_R_p_c cal.cam1_intrinsics cal.cam1_distortion_model cal.cam1_distortion_coeffs
      cfg.ransac_threshold 0.99 with
  | some out0, some out1 =>
    some ⟨tracked, matched, out0.inlier_markers, out1.inlier_markers⟩
  | _, _ => none

/-- The indices that the last loop of `trackFeatures` does not skip: those with both
RANSAC markers different from 0. -/
def ransacSurvivors (matched : List MatchedFeature)
    (cam0_ransac_inliers cam1_ransac_inliers : List Int) : List MatchedFeature :=
  ((matched.zip (cam0_ransac_inliers.zip cam1_ransac_inliers)).filter
    (fun e => ¬ (e.2.1 = 0 ∨ e.2.2 = 0))).map Prod.fst

/-- The feature that the last loop of `trackFeatures` pushes for a survivor: a
value-initialized `FeatureMetaData` with the id of the previous frame, the lifetime
incremented, and the current points. -/
def carriedFeature (e : MatchedFeature) : FeatureMetaData :=
  { id := e.prev.id, response := 0, lifetime := e.prev.lifetime + 1,
    cam0_point := e.curr_cam0_point, cam1_point := e.curr_cam1_point }

/-- The current store after the survivors were pushed to the cells of their current cam0
points. -/
def pushSurvivors (grid_height grid_width : Int) (cfg : ProcessorConfig)
    (curr_features : GridFeatures) (survivors : List MatchedFeature) : GridFeatures :=
  survivors.foldl
    (fun m e =>
      m.modify (cellCode grid_height grid_width cfg.grid_col e.curr_cam0_point)
        (fun cell => cell ++ [carriedFeature e]))
    curr_features

/-- The function `ImageProcessor::trackFeatures`. It is undefined when the increment of a
lifetime overflows `int`. -/
def trackFeatures (cv : OpenCV) (cfg : ProcessorConfig) (cal : Calibration)
    (s : ImageProcessor) (f : StereoFrame) : Option ImageProcessor :=
  match staticGridSize s.track_grid cfg f with
  | none => none
  | some (grid_height, grid_width) =>
    let imu := integrateImuData cv cal s.imu_msg_buffer s.prev_stamp f.stamp
    let prev := s.prev_features.flatten
    let s1 : ImageProcessor :=
      { s with
        track_grid := some (grid_height, grid_width)
        imu_msg_buffer := imu.2.2
        before_tracking := (prev.length : Int) }
    if prev.length = 0 then some s1
    else
      match trackStage cv cfg cal f imu.1 imu.2.1 prev with
      | none => none
      | some stage =>
        let survivors :=
          ransacSurvivors stage.matched stage.cam0_ransac_inliers stage.cam1_ransac_inliers
        if codesDefined grid_height grid_width survivors.length ∧
            ∀ e ∈ survivors, e.prev.lifetime < 2147483647 then
          some
            { s1 with
              after_tracking := (stage.tracked.length : Int)
              after_matching := (stage.matched.length : Int)
              after_ransac := (survivors.length : Int)
              curr_features :=
                pushSurvivors grid_height grid_width cfg s1.curr_features survivors }
        else none

/-! ## Replenishing and pruning -/

/-- The mask of `addNewFeatures` at row `r` and column `c` of the image: 0 in the clipped
5x5 neighbourhood of every feature of the current store, 1 elsewhere. -/
def detectionMask (rows cols : Int) (features : List FeatureMetaData) (r c : Int) : Nat :=
  if features.any (fun feature =>
      let y := truncToInt feature.cam0_point.y
      let x := truncToInt feature.cam0_point.x
      let up_lim := if y - 2 < 0 then 0 else y - 2
      let bottom_lim := if y + 3 > rows then rows else y + 3
      let left_lim := if x - 2 < 0 then 0 else x - 2
      let right_lim := if x + 3 > cols then cols else x + 3
      decide (up_lim ≤ r ∧ r < bottom_lim ∧ left_lim ≤ c ∧ c < right_lim))
  then 0 else 1

/-- The vector `new_feature_sieve`: entry `code` holds the detections of cell `code`, in
the order of detection. -/
def newFeatureSieve (grid_height grid_width : Int) (cfg : ProcessorConfig)
    (new_features : List KeyPoint) : List (List KeyPoint) :=
  (List.range (cfg.grid_row * cfg.grid_col).toNat).map (fun code =>
    new_features.filter (fun feature =>
      cellCode grid_height grid_width cfg.grid_col feature.pt = (code : Int)))

/-- The cap of one sieve entry: more than `grid_max_feature_num` detections are sorted by
response and cut to the first `grid_max_feature_num`. -/
def capSieveItem (cfg : ProcessorConfig) (item : List KeyPoint) : List KeyPoint :=
  if toSizeT cfg.grid_max_feature_num < item.length then
    (sortKeyPointsByResponse item).take cfg.grid_max_feature_num.toNat
  else item

/-- The detections that `addNewFeatures` hands to the stereo matcher, `none` when
`new_feature_sieve` cannot be built (negative size) or a detection is written outside
it. -/
def sievedDetections (grid_height grid_width : Int) (cfg : ProcessorConfig)
    (detected : List KeyPoint) : Option (List KeyPoint) :=
  if codesDefined grid_height grid_width detected.length ∧
      0 ≤ cfg.grid_row * cfg.grid_col ∧
      ∀ feature ∈ detected,
        0 ≤ cellCode grid_height grid_width cfg.grid_col feature.pt ∧
        cellCode grid_height grid_width cfg.grid_col feature.pt <
          ((cfg.grid_row * cfg.grid_col).toNat : Int) then
    some (((newFeatureSieve grid_height grid_width cfg detected).map
      (capSieveItem cfg)).flatMap (fun item => item))
  else none

/-- The stereo-verified candidates of `addNewFeatures` (the vectors `cam0_inliers`,
`cam1_inliers`, `response_inliers`), for the detections that passed the sieve. -/
def newCandidates (cv : OpenCV) (cfg : ProcessorConfig) (cal : Calibration)
    (f : StereoFrame) (new_features : List KeyPoint) : List FeatureMetaData :=
  let cam0_points := new_features.map (fun k => k.pt)
  let matched := stereoMatch cv cfg cal f cam0_points [] []
  collectInliers new_features matched.1 matched.2

/-- The body of the admission loop of `addNewFeatures` for the cell `code`. -/
def replenishCell (cfg : ProcessorConfig) (grid_new_features : GridFeatures)
    (st : ImageProcessor) (code : Nat) : ImageProcessor :=
  let features_this_grid := st.curr_features.get code
  if toSizeT cfg.grid_min_feature_num ≤ features_this_grid.length then
    admitInto st code []
  else
    let vacancy_num := toInt32 (cfg.grid_min_feature_num - (features_this_grid.length : Int))
    admitInto st code ((grid_new_features.get code).take vacancy_num.toNat)

/-- The function `ImageProcessor::addNewFeatures`. -/
def addNewFeatures (cv : OpenCV) (cfg : ProcessorConfig) (cal : Calibration)
    (s : ImageProcessor) (f : StereoFrame) : Option ImageProcessor :=
  match staticGridSize s.add_grid cfg f with
  | none => none
  | some (grid_height, grid_width) =>
    let detected :=
      f.detect (detectionMask f.cam0_rows f.cam0_cols s.curr_features.flatten)
    match sievedDetections grid_height grid_width cfg detected with
    | none => none
    | some new_features =>
      let inliers := newCandidates cv cfg cal f new_features
      let grid_new_features := sortGrids (groupIntoGrids grid_height grid_width cfg inliers)
      some ((List.range (cfg.grid_row * cfg.grid_col).toNat).foldl
        (replenishCell cfg grid_new_features)
        { s with add_grid := some (grid_height, grid_width) })

/-- The treatment of one cell by `pruneGridFeatures`. (The `erase` from
`begin() + grid_max_feature_num` is reached with a negative `grid_max_feature_num` only by
a cell of more than `2^64 - 2^31` features.) -/
def pruneCell (cfg : ProcessorConfig) (grid_features : List FeatureMetaData) :
    List FeatureMetaData :=
  if grid_features.length ≤ toSizeT cfg.grid_max_feature_num then grid_features
  else (sortByLifetime grid_features).take cfg.grid_max_feature_num.toNat

/-- The function `ImageProcessor::pruneGridFeatures`. -/
def pruneGridFeatures (cfg : ProcessorConfig) (s : ImageProcessor) : ImageProcessor :=
  { s with
    curr_features := ⟨s.curr_features.cells.map (fun item => (item.1, pruneCell cfg item.2))⟩ }

/-! ## Publishing and the stereo callback -/

/-- The message type `FeatureMeasurement`. -/
structure FeatureMeasurement where
  id : Nat
  u0 : ℚ
  v0 : ℚ
  u1 : ℚ
  v1 : ℚ
deriving DecidableEq

/-- The message type `TrackingInfo`. -/
structure TrackingInfo where
  stamp : ℚ
  before_tracking : Int
  after_tracking : Int
  after_matching : Int
  after_ransac : Int
deriving DecidableEq

/-- The two messages that `publish` sends. -/
structure Published where
  stamp : ℚ
  features : List FeatureMeasurement
  tracking_info : TrackingInfo
deriving DecidableEq

/-- The function `ImageProcessor::publish`. -/
def publish (cv : OpenCV) (cal : Calibration) (s : ImageProcessor) (f : StereoFrame) :
    Published :=
  let curr := s.curr_features.flatten
  let curr_cam0_points_undistorted :=
    undistortPoints cv (curr.map (fun feature => feature.cam0_point)) cal.cam0_intrinsics
      cal.cam0_distortion_model cal.cam0_distortion_coeffs [] Matx33.eye defaultNewIntrinsics
  let curr_cam1_points_undistorted :=
    undistortPoints cv (curr.map (fun feature => feature.cam1_point)) cal.cam1_intrinsics
      cal.cam1_distortion_model cal.cam1_distortion_coeffs [] Matx33.eye defaultNewIntrinsics
  { stamp := f.stamp
    features :=
      List.zipWith
        (fun (feature : FeatureMetaData) (pq : Point2f × Point2f) =>
          FeatureMeasurement.mk feature.id pq.1.x pq.1.y pq.2.x pq.2.y)
        curr (curr_cam0_points_undistorted.zip curr_cam1_points_undistorted)
    tracking_info :=
      { stamp := f.stamp
        before_tracking := s.before_tracking
        after_tracking := s.after_tracking
        after_matching := s.after_matching
        after_ransac := s.after_ransac } }

/-- The processing of a frame up to the call of `publish`: the first frame is initialized,
every other frame is tracked, replenished and pruned. -/
def processFrame (cv : OpenCV) (cfg : ProcessorConfig) (cal : Calibration)
    (s : ImageProcessor) (f : StereoFrame) : Option ImageProcessor :=
  if s.is_first_img then
    match initializeFirstFrame cv cfg cal s f with
    | none => none
    | some s1 => some { s1 with is_first_img := false }
  else
    match trackFeatures cv cfg cal s f with
    | none => none
    | some s1 =>
      match addNewFeatures cv cfg cal s1 f with
      | none => none
      | some s2 => some (pruneGridFeatures cfg s2)

/-- The function `ImageProcessor::stereoCallback`: the processor after the frame and the
messages published for it. The store that was published is `prev_features` of the new
state. -/
def stereoCallback (cv : OpenCV) (cfg : ProcessorConfig) (cal : Calibration)
    (s : ImageProcessor) (f : StereoFrame) : Option (ImageProcessor × Published) :=
  match processFrame cv cfg cal s f with
  | none => none
  | some s1 =>
    some
      ({ s1 with
          prev_features := s1.curr_features
          prev_stamp := f.stamp
          curr_features := GridFeatures.empty (cfg.grid_row * cfg.grid_col) },
        publish cv cal s1 f)

/-! ## Runs of the processor -/

/-- The runs of the processor: `Run cv cfg cal s history` says that the processor can be in
the state `s` after its construction followed by IMU messages and stereo frames, and
`history` lists the stores published so far, the latest first. -/
inductive Run (cv : OpenCV) (cfg : ProcessorConfig) (cal : Calibration) :
    ImageProcessor → List GridFeatures → Prop
  | construct (id0 : Nat) (c0 c1 c2 c3 : Int) :
    Run cv cfg cal (ImageProcessor.construct id0 c0 c1 c2 c3) []
  | imu {s : ImageProcessor} {history : List GridFeatures} (msg : ImuMsg) :
    Run cv cfg cal s history → Run cv cfg cal (imuCallback s msg) history
  | frame {s : ImageProcessor} {history : List GridFeatures} (f : StereoFrame)
    (s' : ImageProcessor) (out : Published) :
    Run cv cfg cal s history → stereoCallback cv cfg cal s f = some (s', out) →
    Run cv cfg cal s' (s'.prev_features :: history)

/-- The ids of the features of a store, in the order of `flatten`. -/
def GridFeatures.ids (m : GridFeatures) : List Nat :=
  m.flatten.map (fun feature => feature.id)

/-- The number of consecutive frames, counted back from the latest, whose published store
holds the id. -/
def consecutiveFrames (id : Nat) (history : List GridFeatures) : Nat :=
  (history.takeWhile (fun m => decide (id ∈ m.ids))).length

/-! ## Concrete inputs -/

/-- A library for the examples: a camera without distortion and with unit intrinsics (the
point functions return the point), no rotation, and stand-ins for `sqrt` and `log` (the
theorems hold for every library). -/
def exampleLibrary : OpenCV :=
  { undistortPoints := fun _ _ _ _ p => p
    fisheye_undistortPoints := fun _ _ _ _ p => p
    projectPoints := fun _ _ p => p
    fisheye_distortPoints := fun _ _ p => p
    Rodrigues := fun _ => Matx33.eye
    inv := fun m => m
    sqrt := fun q => q
    log := fun q => q }

/-- A calibration for the examples: unit intrinsics, both cameras at the IMU. -/
def exampleCalibration : Calibration :=
  { cam0_intrinsics := ⟨1, 1, 0, 0⟩
    cam0_distortion_model := "radtan"
    cam0_distortion_coeffs := ⟨0, 0, 0, 0⟩
    cam1_intrinsics := ⟨1, 1, 0, 0⟩
    cam1_distortion_model := "radtan"
    cam1_distortion_coeffs := ⟨0, 0, 0, 0⟩
    R_cam0_imu := Matx33.eye
    t_cam0_imu := ⟨0, 0, 0⟩
    R_cam1_imu := Matx33.eye
    t_cam1_imu := ⟨0, 0, 0⟩ }

/-- A 2x2 grid with `grid_min_feature_num = 2` and `grid_max_feature_num = 3`. -/
def exampleConfig : ProcessorConfig :=
  { grid_row := 2, grid_col := 2, grid_min_feature_num := 2, grid_max_feature_num := 3,
    ransac_threshold := 3, stereo_threshold := 3 }

/-- A 2x2 grid with `grid_min_feature_num = 2` above `grid_max_feature_num = 1`. -/
def capOneConfig : ProcessorConfig :=
  { grid_row := 2, grid_col := 2, grid_min_feature_num := 2, grid_max_feature_num := 1,
    ransac_threshold := 3, stereo_threshold := 3 }

/-- A 10x10 stereo pair with the given stamp and detections, on which every point is
tracked and stereo-matched at its own position. -/
def stillFrame (stamp : ℚ) (detected : List KeyPoint) : StereoFrame :=
  { stamp := stamp, cam0_rows := 10, cam0_cols := 10, cam1_rows := 10, cam1_cols := 10
    detect := fun _ => detected
    trackLK := fun p _ => (p, 1)
    stereoLK := fun p _ => (p, 1)
    random_cam0 := fun n => n
    random_cam1 := fun n => n }

/-- A 10x10 stereo pair without detections on which the stereo matcher loses every point. -/
def lostFrame (stamp : ℚ) : StereoFrame :=
  { stamp := stamp, cam0_rows := 10, cam0_cols := 10, cam1_rows := 10, cam1_cols := 10
    detect := fun _ => []
    trackLK := fun p _ => (p, 1)
    stereoLK := fun p _ => (p, 0)
    random_cam0 := fun n => n
    random_cam1 := fun n => n }

/-- Three corners of the upper left cell and one of the lower right cell. -/
def fourCorners : List KeyPoint :=
  [⟨⟨1, 1⟩, 5⟩, ⟨⟨2, 1⟩, 7⟩, ⟨⟨3, 1⟩, 6⟩, ⟨⟨8, 8⟩, 1⟩]

/-- The processor right after its construction, with all counters 0. -/
def freshProcessor : ImageProcessor := ImageProcessor.construct 0 0 0 0 0

/-- The outcome of a call of `stereoCallback`, with a default for a failed call. -/
def outcome (r : Option (ImageProcessor × Published)) : ImageProcessor × Published :=
  r.getD (freshProcessor, ⟨0, [], ⟨0, 0, 0, 0, 0⟩⟩)

/-- The processor after the first frame `stillFrame 1 fourCorners` under `exampleConfig`. -/
def afterFirstFrame : ImageProcessor × Published :=
  outcome (stereoCallback exampleLibrary exampleConfig exampleCalibration freshProcessor
    (stillFrame 1 fourCorners))

/-- The processor after a second frame `stillFrame 2 fourCorners`. -/
def afterSecondFrame : ImageProcessor × Published :=
  outcome (stereoCallback exampleLibrary exampleConfig exampleCalibration afterFirstFrame.1
    (stillFrame 2 fourCorners))

/-- A processor whose current store has a cell of four features, of lifetimes 1, 5, 2, 3,
and a cell of one feature. -/
def crowdedProcessor : ImageProcessor :=
  { freshProcessor with
    curr_features :=
      ⟨[(0, [⟨0, 0, 1, ⟨1, 1⟩, ⟨1, 1⟩⟩, ⟨1, 0, 5, ⟨2, 1⟩, ⟨2, 1⟩⟩, ⟨2, 0, 2, ⟨3, 1⟩, ⟨3, 1⟩⟩,
          ⟨3, 0, 3, ⟨4, 1⟩, ⟨4, 1⟩⟩]),
        (3, [⟨4, 0, 7, ⟨8, 8⟩, ⟨8, 8⟩⟩])]⟩ }

/-- What `pruneGridFeatures` is claimed to do with the entry `item`, giving `item'`: the
code is kept; a cell within the cap is untouched; a larger cell is cut to exactly
`grid_max_feature_num` features of the cell, none of them younger than an evicted one. -/
def PrunedCell (cfg : ProcessorConfig) (item item' : Int × List FeatureMetaData) : Prop :=
  item'.1 = item.1 ∧
  ((item.2.length : Int) ≤ cfg.grid_max_feature_num → item'.2 = item.2) ∧
  (cfg.grid_max_feature_num < (item.2.length : Int) →
    (item'.2.length : Int) = cfg.grid_max_feature_num ∧
    ∃ evicted, (item'.2 ++ evicted).Perm item.2 ∧
      ∀ r ∈ item'.2, ∀ e ∈ evicted, e.lifetime ≤ r.lifetime)

/-- The processor after a first frame `stillFrame 1 []` under `exampleConfig`. -/
def afterEmptyFirstFrame : ImageProcessor × Published :=
  outcome (stereoCallback exampleLibrary exampleConfig exampleCalibration freshProcessor
    (stillFrame 1 []))

/-- Four previous points of the examples. -/
def examplePts1 : List Point2f := [⟨1, 1⟩, ⟨1, 2⟩, ⟨3, 1⟩, ⟨4, 1⟩]

/-- Four current points of the examples. -/
def examplePts2 : List Point2f := [⟨1, 2⟩, ⟨2, 2⟩, ⟨3, 5⟩, ⟨7, 7⟩]

/-- The indices of the stereo-matched features that both RANSAC masks mark as inlier. -/
def bothInlierIndices (stage : TrackStage) : List Nat :=
  (List.range stage.matched.length).filter (fun i =>
    decide (stage.cam0_ransac_inliers.getD i 0 ≠ 0 ∧ stage.cam1_ransac_inliers.getD i 0 ≠ 0))

/-- The processor after `trackFeatures` on the second frame of the example run. -/
def trackedSecondFrame : ImageProcessor :=
  (trackFeatures exampleLibrary exampleConfig exampleCalibration afterFirstFrame.1
    (stillFrame 2 fourCorners)).getD freshProcessor

/-- The effect of an admission loop that started in `s` and ended in `st`: the features
`added` were pushed to the current store with the ids `next_feature_id`,
`next_feature_id + 1`, ... and lifetime 1, the counter and the log of handed-out ids moved
on accordingly, and the previous store was not touched. -/
def Admitted (s st : ImageProcessor) (added : List FeatureMetaData) : Prop :=
  st.curr_features.flatten.Perm (s.curr_features.flatten ++ added) ∧
  added.map (fun feature => feature.id) = List.range' s.next_feature_id added.length ∧
  (∀ feature ∈ added, feature.lifetime = 1) ∧
  st.next_feature_id = s.next_feature_id + added.length ∧
  st.allocated = s.allocated ++ List.range' s.next_feature_id added.length ∧
  st.prev_features = s.prev_features

/-- The effect of the processing of one frame that started in `s` (with an empty current
store) and ended in `s1`: the store at `publish` holds, up to the features `dropped` by
the pruning, the features carried over from entries `carried` of the previous store and
the features `added` by the admission loop. -/
def FrameEffect (s s1 : ImageProcessor) (carried : List MatchedFeature)
    (added dropped : List FeatureMetaData) : Prop :=
  (carried.map (fun e => e.prev)).Sublist s.prev_features.flatten ∧
  (s1.curr_features.flatten ++ dropped).Perm (carried.map carriedFeature ++ added) ∧
  added.map (fun feature => feature.id) = List.range' s.next_feature_id added.length ∧
  (∀ feature ∈ added, feature.lifetime = 1) ∧
  s1.next_feature_id = s.next_feature_id + added.length ∧
  s1.allocated = s.allocated ++ List.range' s.next_feature_id added.length

/-- The facts that hold of every state `s` of a run with the published stores `history`. -/
def RunInvariant (s : ImageProcessor) (history : List GridFeatures) : Prop :=
  s.curr_features.flatten = [] ∧
  s.allocated.Pairwise (fun a b => a < b) ∧
  (∀ a ∈ s.allocated, a < s.next_feature_id) ∧
  (∀ m ∈ history, ∀ id ∈ m.ids, id < s.next_feature_id) ∧
  s.prev_features.ids.Nodup ∧
  (∀ id ∈ s.prev_features.ids, id < s.next_feature_id) ∧
  (history = [] → s.prev_features.flatten = []) ∧
  (∀ m rest, history = m :: rest → m = s.prev_features) ∧
  (∀ feature ∈ s.prev_features.flatten,
    feature.lifetime = (consecutiveFrames feature.id history : Int))

/-- The number of newly detected, stereo-verified candidates that `addNewFeatures`, called
in state `s` on frame `f`, buckets into the cell `code`. -/
def availableNew (cv : OpenCV) (cfg : ProcessorConfig) (cal : Calibration)
    (s : ImageProcessor) (f : StereoFrame) (code : Int) : Nat :=
  match staticGridSize s.add_grid cfg f with
  | none => 0
  | some (grid_height, grid_width) =>
    match sievedDetections grid_height grid_width cfg
        (f.detect (detectionMask f.cam0_rows f.cam0_cols s.curr_features.flatten)) with
    | none => 0
    | some new_features =>
      ((newCandidates cv cfg cal f new_features).filter (fun feature =>
        decide (cellCode grid_height grid_width cfg.grid_col feature.cam0_point = code))).length

/-- What `addNewFeatures` is claimed to do with a cell that held `before` and for which
`available` candidates were found: a cell below `grid_min_feature_num` keeps its features
and gains `min (grid_min_feature_num - |before|) available` new ones; a cell with at least
`grid_min_feature_num` features is unchanged. -/
def ReplenishedCell (cfg : ProcessorConfig) (available : Nat)
    (before after : List FeatureMetaData) : Prop :=
  ((before.length : Int) < cfg.grid_min_feature_num →
    ∃ newly, after = before ++ newly ∧
      (newly.length : Int) =
        min (cfg.grid_min_feature_num - (before.length : Int)) (available : Int)) ∧
  (cfg.grid_min_feature_num ≤ (before.length : Int) → after = before)

/-- The processor after `addNewFeatures` on the second frame of the example run. -/
def replenishedSecondFrame : ImageProcessor :=
  (addNewFeatures exampleLibrary exampleConfig exampleCalibration trackedSecondFrame
    (stillFrame 2 fourCorners)).getD freshProcessor

/-- The order of `sortByLifetime` is total. -/
instance lifetimeOrderTotal :
    IsTotal FeatureMetaData (fun f1 f2 => f2.lifetime ≤ f1.lifetime) :=
  ⟨fun a b => le_total b.lifetime a.lifetime⟩

/-- The order of `sortByLifetime` is transitive. -/
instance lifetimeOrderTrans :
    IsTrans FeatureMetaData (fun f1 f2 => f2.lifetime ≤ f1.lifetime) :=
  ⟨fun _ _ _ h1 h2 => le_trans h2 h1⟩

/-! ## The IMU window -/

/-- The samples at the front of the buffer that `integrateImuData` steps over with
`++begin_iter`: those stamped more than 0.01 before the previous image. -/
def imuSkipped (imu_msg_buffer : List ImuMsg) (prev_stamp : ℚ) : List ImuMsg :=
  imu_msg_buffer.takeWhile (fun msg => msg.stamp - prev_stamp < -0.01)

/-- The range `[begin_iter, end_iter)` of `integrateImuData`: the samples whose angular
velocities are summed. -/
def imuWindow (imu_msg_buffer : List ImuMsg) (prev_stamp curr_stamp : ℚ) : List ImuMsg :=
  (imu_msg_buffer.dropWhile (fun msg => msg.stamp - prev_stamp < -0.01)).takeWhile
    (fun msg => msg.stamp - curr_stamp < 0.005)

/-- The vector `mean_ang_vel` of `integrateImuData` for a window: the sum of the angular
velocities, scaled by `1 / (end_iter - begin_iter)` when the window is not empty. -/
def meanAngVel (window : List ImuMsg) : Vec3 :=
  let total := window.foldl (fun acc msg => acc.add msg.angular_velocity) (⟨0, 0, 0⟩ : Vec3)
  if window.length > 0 then total.smul (1 / (window.length : ℚ)) else total

/-- A buffer whose only sample is stamped after the current image. -/
def lateSample : List ImuMsg := [⟨5, ⟨1, 2, 3⟩⟩]

/-- A buffer with one sample before the previous image, two inside the frame interval
`[0, 1]` and one after it. -/
def fourSamples : List ImuMsg :=
  [⟨-1, ⟨9, 9, 9⟩⟩, ⟨1 / 4, ⟨1, 0, 0⟩⟩, ⟨3 / 4, ⟨0, 1, 0⟩⟩, ⟨2, ⟨0, 0, 1⟩⟩]

/-! ## Quantities inside twoPointRansac -/

/-- The value of `iter_num` in `twoPointRansac`. -/
def ransacIterNum (cv : OpenCV) (success_probability : ℚ) : Int :=
  truncToInt
    ((Int.ceil (cv.log (1 - success_probability) / cv.log (1 - 0.7 * 0.7)) : Int) : ℚ)

/-- The vectors `pts1_undistorted` and `pts2_undistorted` of `twoPointRansac` after the
rotation compensation and `rescalePoints`, and `scaling_factor`. -/
def ransacPoints (cv : OpenCV) (pts1 pts2 : List Point2f) (R_p_c : Matx33)
    (intrinsics : Vec4) (distortion_model : String) (distortion_coeffs : Vec4) :
    Option (List Point2f × List Point2f × ℚ) :=
  let pts1_undistorted := undistortPoints cv pts1 intrinsics distortion_model
    distortion_coeffs (List.replicate pts1.length ⟨0, 0⟩) Matx33.eye defaultNewIntrinsics
  let pts2_undistorted := undistortPoints cv pts2 intrinsics distortion_model
    distortion_coeffs (List.replicate pts2.length ⟨0, 0⟩) Matx33.eye defaultNewIntrinsics
  let pts1_compensated := pts1_undistorted.map (fun pt =>
    let pt_hc := R_p_c.mulVec ⟨pt.x, pt.y, 1⟩
    (⟨pt_hc.x, pt_hc.y⟩ : Point2f))
  rescalePoints cv pts1_compensated pts2_undistorted

/-- The value of `norm_pixel_unit` in `twoPointRansac` after `rescalePoints`. -/
def ransacPixelUnit (intrinsics : Vec4) (scaling_factor : ℚ) : ℚ :=
  2 / (intrinsics.v0 + intrinsics.v1) * scaling_factor

/-- The value `sqrt(pts_diff[i].dot(pts_diff[i]))` for pair `i` of `twoPointRansac`. -/
def pairDistance (cv : OpenCV) (pts1_scaled pts2_scaled : List Point2f) (i : Nat) : ℚ :=
  let d := (pts1_scaled.getD i ⟨0, 0⟩).sub (pts2_scaled.getD i ⟨0, 0⟩)
  cv.sqrt (d.dot d)

/-- The vector `raw_inlier_idx` of `twoPointRansac`: the indices whose marker is not 0
after the pre-filter, in increasing order. -/
def rawInlierIdx (inlier_markers : List Int) : List Nat :=
  (List.range inlier_markers.length).filter (fun i => inlier_markers.getD i 0 ≠ 0)

/-- The indices `pair_idx1` and `pair_idx2` of one pass of the RANSAC loop, for the value
`r` of `uniformInteger(0, raw_inlier_idx.size()-1)` and the value `idx_diff` of
`uniformInteger(1, raw_inlier_idx.size()-1)`. -/
def pairIndices (raw_inlier_idx : List Nat) (r idx_diff : Int) : Option (Int × Int) :=
  let m : Int := raw_inlier_idx.length
  match readAt raw_inlier_idx r with
  | none => none
  | some idx1 =>
    let pair_idx1 : Int := idx1
    let pair_idx2 : Int :=
      if pair_idx1 + idx_diff < m then pair_idx1 + idx_diff else pair_idx1 + idx_diff - m
    some (pair_idx1, pair_idx2)

/-- The value of `base_indicator` for the two sampled rows of `coeff_t`. -/
def baseIndicator (row1 row2 : Vec3) : Nat :=
  minElement3 (|row1.x| + |row2.x|) (|row1.y| + |row2.y|) (|row1.z| + |row2.z|)

/-- Entry `k` of a row of `coeff_t` or of a model. -/
def Vec3.component (v : Vec3) (k : Nat) : ℚ :=
  if k = 0 then v.x else if k = 1 then v.y else v.z

/-- The determinant of the matrix `A` that `twoPointRansac` inverts for the pivot
`base_indicator`: the two columns of the sampled rows other than the pivot. -/
def pivotDet (base_indicator : Nat) (row1 row2 : Vec3) : ℚ :=
  if base_indicator = 0 then row1.y * row2.z - row1.z * row2.y
  else if base_indicator = 1 then row1.x * row2.z - row1.z * row2.x
  else row1.x * row2.y - row1.y * row2.x

/-! ## A distortion-free library for the examples -/

/-- Newton iteration for the integer square root: `fuel` steps from the estimate `x`. -/
def natSqrtIter : Nat → Nat → Nat → Nat
  | 0, _, x => x
  | fuel + 1, n, x =>
    let y := (x + n / x) / 2
    if y < x then natSqrtIter fuel n y else x

/-- The integer square root of `n` (for `n` below `2^200`). -/
def natSqrt (n : Nat) : Nat := if n = 0 then 0 else natSqrtIter 200 n n

/-- A square root on the rationals: exact on the squares of rationals, and rounded down
to seven decimal places of the root of numerator times denominator elsewhere. -/
def roundedSqrt (q : ℚ) : ℚ :=
  let a := q.num.toNat
  let b := q.den
  if natSqrt a * natSqrt a = a ∧ natSqrt b * natSqrt b = b then
    (natSqrt a : ℚ) / (natSqrt b : ℚ)
  else (natSqrt (a * b * 100000000000000) : ℚ) / ((b : ℚ) * 10000000)

/-- The inverse of a 3x3 matrix by its adjugate. -/
def inverse3 (m : Matx33) : Matx33 :=
  let det := m.r0.x * (m.r1.y * m.r2.z - m.r1.z * m.r2.y) -
    m.r0.y * (m.r1.x * m.r2.z - m.r1.z * m.r2.x) +
    m.r0.z * (m.r1.x * m.r2.y - m.r1.y * m.r2.x)
  ⟨⟨(m.r1.y * m.r2.z - m.r1.z * m.r2.y) / det, (m.r0.z * m.r2.y - m.r0.y * m.r2.z) / det,
      (m.r0.y * m.r1.z - m.r0.z * m.r1.y) / det⟩,
    ⟨(m.r1.z * m.r2.x - m.r1.x * m.r2.z) / det, (m.r0.x * m.r2.z - m.r0.z * m.r2.x) / det,
      (m.r0.z * m.r1.x - m.r0.x * m.r1.z) / det⟩,
    ⟨(m.r1.x * m.r2.y - m.r1.y * m.r2.x) / det, (m.r0.y * m.r2.x - m.r0.x * m.r2.y) / det,
      (m.r0.x * m.r1.y - m.r0.y * m.r1.x) / det⟩⟩

/-- The undistortion of a lens without distortion: back-projection by `K`, the rotation
`R`, projection by `P`. -/
def pinholeUndistort (K : Matx33) (R P : Matx33) (p : Point2f) : Point2f :=
  let ray := R.mulVec ⟨(p.x - K.r0.z) / K.r0.x, (p.y - K.r1.z) / K.r1.y, 1⟩
  ⟨P.r0.x * (ray.x / ray.z) + P.r0.z, P.r1.y * (ray.y / ray.z) + P.r1.z⟩

/-- The projection of a normalised point by `K` for a lens without distortion. -/
def pinholeProject (K : Matx33) (p : Point2f) : Point2f :=
  ⟨K.r0.x * p.x + K.r0.z, K.r1.y * p.y + K.r1.z⟩

/-- A library for lenses without distortion: exact pinhole undistortion and projection,
the matrix inverse, `roundedSqrt`, the first-order rotation `I + [v]x` for `Rodrigues`
(the identity at the zero vector), and a logarithm given at `1/100` and `51/100` to five
decimal places. -/
def pinholeLibrary : OpenCV :=
  { undistortPoints := fun K _ R P p => pinholeUndistort K R P p
    fisheye_undistortPoints := fun K _ R P p => pinholeUndistort K R P p
    projectPoints := fun K _ p => pinholeProject K p
    fisheye_distortPoints := fun K _ p => pinholeProject K p
    Rodrigues := fun v => ⟨⟨1, -v.z, v.y⟩, ⟨v.z, 1, -v.x⟩, ⟨-v.y, v.x, 1⟩⟩
    inv := inverse3
    sqrt := roundedSqrt
    log := fun q =>
      if q = 1 / 100 then -460517 / 100000
      else if q = 51 / 100 then -67334 / 100000
      else 0 }

/-- Intrinsics of the examples: focal lengths of 100 pixels, principal point at the
origin. -/
def pinholeIntrinsics : Vec4 := ⟨100, 100, 0, 0⟩

/-- Four previous points at the corners of a square of 100 pixels. -/
def squarePts : List Point2f := [⟨0, 0⟩, ⟨100, 0⟩, ⟨0, 100⟩, ⟨100, 100⟩]

/-- The points of `squarePts` in the next image of a camera at rest, the last of them
mistracked by `(36, 48)` pixels. -/
def restingPts : List Point2f := [⟨0, 0⟩, ⟨100, 0⟩, ⟨0, 100⟩, ⟨136, 148⟩]

/-- The points of `squarePts` moved by `(3, 4)` pixels, the second of them mistracked by
`(300, 400)` pixels. -/
def shiftedPts : List Point2f := [⟨3, 4⟩, ⟨400, 400⟩, ⟨3, 104⟩, ⟨103, 104⟩]

/-- The scaled points and the scaling factor of `twoPointRansac` for `squarePts` and
`restingPts`. -/
def restingScaled : List Point2f × List Point2f × ℚ :=
  (ransacPoints pinholeLibrary squarePts restingPts Matx33.eye pinholeIntrinsics "radtan"
    ⟨0, 0, 0, 0⟩).getD ([], [], 0)

/-- The scaled points and the scaling factor of `twoPointRansac` for `squarePts` and
`shiftedPts`. -/
def shiftedScaled : List Point2f × List Point2f × ℚ :=
  (ransacPoints pinholeLibrary squarePts shiftedPts Matx33.eye pinholeIntrinsics "radtan"
    ⟨0, 0, 0, 0⟩).getD ([], [], 0)

/-- A 7x4 grid with the default feature numbers and thresholds. -/
def sevenRowConfig : ProcessorConfig :=
  { grid_row := 7, grid_col := 4, grid_min_feature_num := 2, grid_max_feature_num := 4,
    ransac_threshold := 3, stereo_threshold := 3 }

/-- A stereo pair of 480 rows and 752 columns with the given stamp and detections, on which
every point is tracked and stereo-matched at its own position. -/
def wideFrame (stamp : ℚ) (detected : List KeyPoint) : StereoFrame :=
  { stamp := stamp, cam0_rows := 480, cam0_cols := 752, cam1_rows := 480, cam1_cols := 752
    detect := fun _ => detected
    trackLK := fun p _ => (p, 1)
    stereoLK := fun p _ => (p, 1)
    random_cam0 := fun n => n
    random_cam1 := fun n => n }

/-- The processor after a first frame `wideFrame 0 []` under `sevenRowConfig`. -/
def afterWideFirstFrame : ImageProcessor :=
  (outcome (stereoCallback exampleLibrary sevenRowConfig exampleCalibration freshProcessor
    (wideFrame 0 []))).1

/-! ## The passes of the RANSAC loop -/

/-- The two rows of `coeff_t` read by pass `iter_idx` of the RANSAC loop, `none` when a
read is outside a vector. -/
def sampledRows (random : Nat → Nat) (coeff_t : List Vec3) (raw_inlier_idx : List Nat)
    (iter_idx : Nat) : Option (Vec3 × Vec3) :=
  match pairIndices raw_inlier_idx
      (uniformInteger (random (2 * iter_idx)) 0 ((raw_inlier_idx.length : Int) - 1))
      (uniformInteger (random (2 * iter_idx + 1)) 1 ((raw_inlier_idx.length : Int) - 1)) with
  | none => none
  | some (pair_idx1, pair_idx2) =>
    match readAt coeff_t pair_idx1, readAt coeff_t pair_idx2 with
    | some row1, some row2 => some (row1, row2)
    | _, _ => none

/-- The vector `inlier_set` of pass `iter_idx` of the RANSAC loop. -/
def iterationInliers (random : Nat → Nat) (coeff_t : List Vec3) (inlier_markers : List Int)
    (raw_inlier_idx : List Nat) (inlier_error norm_pixel_unit : ℚ) (iter_idx : Nat) :
    Option (List Nat) :=
  (sampledRows random coeff_t raw_inlier_idx iter_idx).map (fun rows =>
    inlierSet coeff_t inlier_markers
      (twoPointModel (baseIndicator rows.1 rows.2) rows.1 rows.2) inlier_error
      norm_pixel_unit)

/-- The test that lets a pass go on past `if (inlier_set.size() <
0.2*pts1_undistorted.size()) continue;`. -/
def passesInlierTest (n_pts : Nat) (inlier_set : List Nat) : Bool :=
  decide (¬ ((inlier_set.length : ℚ) < 0.2 * (n_pts : ℚ)))

/-- The value of `best_inlier_set` after a pass with the inlier set `inlier_set`. -/
def updateBestSet (n_pts : Nat) (best_inlier_set inlier_set : List Nat) : List Nat :=
  if passesInlierTest n_pts inlier_set = true ∧ inlier_set.length > best_inlier_set.length
  then inlier_set else best_inlier_set

/-- The determinant of the matrix `A.transpose() * A` that the refit of a pass inverts, for
the pivot `base_indicator` and the rows of `coeff_t` of the inlier set. -/
def refitDet (base_indicator : Nat) (rows : List Vec3) : ℚ :=
  let coeff_tx_better := rows.map (fun r => r.x)
  let coeff_ty_better := rows.map (fun r => r.y)
  let coeff_tz_better := rows.map (fun r => r.z)
  if base_indicator = 0 then
    dotList coeff_ty_better coeff_ty_better * dotList coeff_tz_better coeff_tz_better -
      dotList coeff_ty_better coeff_tz_better * dotList coeff_tz_better coeff_ty_better
  else if base_indicator = 1 then
    dotList coeff_tx_better coeff_tx_better * dotList coeff_tz_better coeff_tz_better -
      dotList coeff_tx_better coeff_tz_better * dotList coeff_tz_better coeff_tx_better
  else
    dotList coeff_tx_better coeff_tx_better * dotList coeff_ty_better coeff_ty_better -
      dotList coeff_tx_better coeff_ty_better * dotList coeff_ty_better coeff_tx_better

/-- The determinant of the refit matrix of pass `iter_idx`. -/
def iterationRefitDet (random : Nat → Nat) (coeff_t : List Vec3) (inlier_markers : List Int)
    (raw_inlier_idx : List Nat) (inlier_error norm_pixel_unit : ℚ) (iter_idx : Nat) :
    Option ℚ :=
  (sampledRows random coeff_t raw_inlier_idx iter_idx).map (fun rows =>
    refitDet (baseIndicator rows.1 rows.2)
      ((inlierSet coeff_t inlier_markers
        (twoPointModel (baseIndicator rows.1 rows.2) rows.1 rows.2) inlier_error
        norm_pixel_unit).map (fun i => coeff_t.getD i ⟨0, 0, 0⟩)))

/-! ## The RANSAC loop without the refit -/

/-- The body of the RANSAC loop with the refit step (`model_better`, `new_error`,
`this_error`, `best_error`) removed: sampling, model, inlier set, the 20% test and the
update of `best_inlier_set`. -/
def ransacIterationNoRefit (random : Nat → Nat) (coeff_t : List Vec3)
    (inlier_markers : List Int) (raw_inlier_idx : List Nat)
    (inlier_error norm_pixel_unit : ℚ) (n_pts : Nat) (iter_idx : Nat)
    (best_inlier_set : List Nat) : Option (List Nat) :=
  let m : Int := raw_inlier_idx.length
  match readAt raw_inlier_idx (uniformInteger (random (2 * iter_idx)) 0 (m - 1)) with
  | none => none
  | some idx1 =>
    let pair_idx1 : Int := idx1
    let idx_diff := uniformInteger (random (2 * iter_idx + 1)) 1 (m - 1)
    let pair_idx2 : Int :=
      if pair_idx1 + idx_diff < m then pair_idx1 + idx_diff else pair_idx1 + idx_diff - m
    match readAt coeff_t pair_idx1, readAt coeff_t pair_idx2 with
    | some row1, some row2 =>
      let base_indicator := minElement3 (|row1.x| + |row2.x|) (|row1.y| + |row2.y|)
        (|row1.z| + |row2.z|)
      let model := twoPointModel base_indicator row1 row2
      let inlier_set := inlierSet coeff_t inlier_markers model inlier_error norm_pixel_unit
      if (inlier_set.length : ℚ) < 0.2 * (n_pts : ℚ) then some best_inlier_set
      else if inlier_set.length > best_inlier_set.length then some inlier_set
      else some best_inlier_set
    | _, _ => none

/-- The RANSAC loop over `ransacIterationNoRefit`. -/
def ransacLoopNoRefit (random : Nat → Nat) (coeff_t : List Vec3) (inlier_markers : List Int)
    (raw_inlier_idx : List Nat) (inlier_error norm_pixel_unit : ℚ) (n_pts : Nat) :
    Nat → Nat → List Nat → Option (List Nat)
  | 0, _, best_inlier_set => some best_inlier_set
  | remaining + 1, iter_idx, best_inlier_set =>
    match ransacIterationNoRefit random coeff_t inlier_markers raw_inlier_idx inlier_error
        norm_pixel_unit n_pts iter_idx best_inlier_set with
    | none => none
    | some best1 =>
      ransacLoopNoRefit random coeff_t inlier_markers raw_inlier_idx inlier_error
        norm_pixel_unit n_pts remaining (iter_idx + 1) best1

/-- The procedure of `twoPointRansac` with the refit step removed from the loop. -/
def twoPointRansacNoRefit (cv : OpenCV) (random : Nat → Nat) (pts1 pts2 : List Point2f)
    (R_p_c : Matx33) (intrinsics : Vec4) (distortion_model : String)
    (distortion_coeffs : Vec4) (inlier_error success_probability : ℚ) :
    Option RansacOutput :=
  let error_logged := decide (pts1.length ≠ pts2.length)
  let iter_num : Int := truncToInt
    ((Int.ceil (cv.log (1 - success_probability) / cv.log (1 - 0.7 * 0.7)) : Int) : ℚ)
  let pts1_undistorted := undistortPoints cv pts1 intrinsics distortion_model
    distortion_coeffs (List.replicate pts1.length ⟨0, 0⟩) Matx33.eye defaultNewIntrinsics
  let pts2_undistorted := undistortPoints cv pts2 intrinsics distortion_model
    distortion_coeffs (List.replicate pts2.length ⟨0, 0⟩) Matx33.eye defaultNewIntrinsics
  let pts1_compensated := pts1_undistorted.map (fun pt =>
    let pt_hc := R_p_c.mulVec ⟨pt.x, pt.y, 1⟩
    (⟨pt_hc.x, pt_hc.y⟩ : Point2f))
  match rescalePoints cv pts1_compensated pts2_undistorted with
  | none => none
  | some (pts1_scaled, pts2_scaled, scaling_factor) =>
    let norm_pixel_unit := 2 / (intrinsics.v0 + intrinsics.v1) * scaling_factor
    let pts_diff := List.zipWith Point2f.sub pts1_scaled pts2_scaled
    let inlier_markers := preFilterMarkers cv pts_diff norm_pixel_unit
    let raw_inlier_cntr := rawInlierCntr cv pts_diff norm_pixel_unit
    let mean_pt_distance :=
      preFilterDistanceSum cv pts_diff norm_pixel_unit / (raw_inlier_cntr : ℚ)
    if raw_inlier_cntr < 3 then
      some ⟨error_logged, inlier_markers.map (fun _ => 0)⟩
    else if mean_pt_distance < norm_pixel_unit then
      some ⟨error_logged,
        degenerateMarkers cv inlier_markers pts_diff inlier_error norm_pixel_unit⟩
    else
      let coeff_t := List.zipWith coeffRow pts1_scaled pts2_scaled
      let raw_inlier_idx := (List.range inlier_markers.length).filter
        (fun i => inlier_markers.getD i 0 ≠ 0)
      match ransacLoopNoRefit random coeff_t inlier_markers raw_inlier_idx inlier_error
          norm_pixel_unit pts1_scaled.length iter_num.toNat 0 [] with
      | none => none
      | some best_inlier_set =>
        some ⟨error_logged, fillMarkers pts1.length best_inlier_set⟩

/-! ## Inputs of the examples for the RANSAC loop -/

/-- The matrix `coeff_t` of `twoPointRansac` for scaled points. -/
def ransacCoeff (scaled : List Point2f × List Point2f × ℚ) : List Vec3 :=
  List.zipWith coeffRow scaled.1 scaled.2.1

/-- The vector `inlier_markers` of `twoPointRansac` after the pre-filter, for scaled
points. -/
def ransacMarkers (cv : OpenCV) (intrinsics : Vec4)
    (scaled : List Point2f × List Point2f × ℚ) : List Int :=
  preFilterMarkers cv (List.zipWith Point2f.sub scaled.1 scaled.2.1)
    (ransacPixelUnit intrinsics scaled.2.2)

/-- The first `N` passes of a loop with the inlier sets `sets` leave `best` in
`best_inlier_set`: `best` is the inlier set of the earliest pass whose set passes the 20%
test and is largest among the sets that pass it, and `best` is empty when no set passes. -/
def EarliestLargest (sets : Nat → Option (List Nat)) (n_pts N : Nat) (best : List Nat) :
    Prop :=
  (best = [] ∧ ∀ k, k < N → ∀ s, sets k = some s → passesInlierTest n_pts s = false) ∨
  (∃ j, j < N ∧ sets j = some best ∧ passesInlierTest n_pts best = true ∧
    (∀ k, k < N → ∀ s, sets k = some s → passesInlierTest n_pts s = true →
      s.length ≤ best.length) ∧
    (∀ k, k < j → ∀ s, sets k = some s → passesInlierTest n_pts s = true →
      s.length < best.length))

/-- Ten previous points. -/
def tenPts1 : List Point2f :=
  [⟨0, 0⟩, ⟨100, 100⟩, ⟨0, 100⟩, ⟨100, 0⟩, ⟨50, 50⟩, ⟨20, 70⟩, ⟨70, 20⟩, ⟨30, 30⟩,
    ⟨80, 80⟩, ⟨10, 90⟩]

/-- The points of `tenPts1` in the next image: the first two moved by `(10, 0)` pixels, the
other eight by `(0, 10)` pixels. -/
def tenPts2 : List Point2f :=
  [⟨10, 0⟩, ⟨110, 100⟩, ⟨0, 110⟩, ⟨100, 10⟩, ⟨50, 60⟩, ⟨20, 80⟩, ⟨70, 30⟩, ⟨30, 40⟩,
    ⟨80, 90⟩, ⟨10, 100⟩]

/-- The scaled points and the scaling factor of `twoPointRansac` for `tenPts1` and
`tenPts2`. -/
def tenScaled : List Point2f × List Point2f × ℚ :=
  (ransacPoints pinholeLibrary tenPts1 tenPts2 Matx33.eye pinholeIntrinsics "radtan"
    ⟨0, 0, 0, 0⟩).getD ([], [], 0)

/-- The points of `squarePts` in the next image: the first moved by `(3, 4)` pixels, the
second mistracked by `(300, 400)` pixels, the last two moved by 30 pixels each way in
different directions. -/
def scatteredPts : List Point2f := [⟨3, 4⟩, ⟨400, 400⟩, ⟨30, 70⟩, ⟨70, 130⟩]

/-- The scaled points and the scaling factor of `twoPointRansac` for `squarePts` and
`scatteredPts`. -/
def scatteredScaled : List Point2f × List Point2f × ℚ :=
  (ransacPoints pinholeLibrary squarePts scatteredPts Matx33.eye pinholeIntrinsics "radtan"
    ⟨0, 0, 0, 0⟩).getD ([], [], 0)

/-! ## The steps of stereoMatch -/

/-- The output of `calcOpticalFlowPyrLK` in `stereoMatch`: for every point of
`cam0_points` the tracked point in cam1 and its status. -/
def stereoFlow (cv : OpenCV) (cal : Calibration) (f : StereoFrame)
    (cam0_points cam1_points : List Point2f) : List (Point2f × Nat) :=
  let R_cam0_cam1 := cal.R_cam1_imu.t.mul cal.R_cam0_imu
  let cam1_guess :=
    if cam1_points.length = 0 then
      distortPoints cv
        (undistortPoints cv cam0_points cal.cam0_intrinsics cal.cam0_distortion_model
          cal.cam0_distortion_coeffs [] R_cam0_cam1 defaultNewIntrinsics)
        cal.cam1_intrinsics cal.cam1_distortion_model cal.cam1_distortion_coeffs
    else cam1_points
  List.zipWith f.stereoLK cam0_points cam1_guess

/-- The vector `inlier_markers` of `stereoMatch` after the test against the borders of the
cam1 image. -/
def stereoInImage (f : StereoFrame) (flow : List (Point2f × Nat)) : List Nat :=
  List.zipWith
    (fun (m : Nat) p => if m = 0 then m else if outOfImage f.cam1_rows f.cam1_cols p then 0 else m)
    (flow.map Prod.snd) (flow.map Prod.fst)

/-- The value of `norm_pixel_unit` in `stereoMatch`. -/
def stereoPixelUnit (cal : Calibration) : ℚ :=
  4 / (cal.cam0_intrinsics.v0 + cal.cam0_intrinsics.v1 +
    cal.cam1_intrinsics.v0 + cal.cam1_intrinsics.v1)

/-- The undistorted points of pair `i` in the epipolar test of `stereoMatch`. -/
def stereoUndistorted (cv : OpenCV) (cal : Calibration) (cam0_points : List Point2f)
    (flow : List (Point2f × Nat)) (i : Nat) : Point2f × Point2f :=
  ((undistortPoints cv cam0_points cal.cam0_intrinsics cal.cam0_distortion_model
      cal.cam0_distortion_coeffs [] Matx33.eye defaultNewIntrinsics).getD i ⟨0, 0⟩,
    (undistortPoints cv (flow.map Prod.fst) cal.cam1_intrinsics cal.cam1_distortion_model
      cal.cam1_distortion_coeffs [] Matx33.eye defaultNewIntrinsics).getD i ⟨0, 0⟩)

/-- The matrix `t_cam0_cam1_hat` of a translation. -/
def hatMatrix (t : Vec3) : Matx33 :=
  ⟨⟨0, -t.z, t.y⟩, ⟨t.z, 0, -t.x⟩, ⟨-t.y, t.x, 0⟩⟩

/-- The rotation `R_cam0_cam1` of `stereoMatch`. -/
def stereoRotation (cal : Calibration) : Matx33 := cal.R_cam1_imu.t.mul cal.R_cam0_imu

/-- The translation `t_cam0_cam1` of `stereoMatch`. -/
def stereoTranslation (cal : Calibration) : Vec3 :=
  cal.R_cam1_imu.t.mulVec (cal.t_cam0_imu.sub cal.t_cam1_imu)

/-- A stereo rig for the examples: unit intrinsics, cam0 at the IMU, cam1 rotated by a
quarter turn about the optical axis and displaced. -/
def rigCalibration : Calibration :=
  { cam0_intrinsics := ⟨1, 1, 0, 0⟩
    cam0_distortion_model := "radtan"
    cam0_distortion_coeffs := ⟨0, 0, 0, 0⟩
    cam1_intrinsics := ⟨1, 1, 0, 0⟩
    cam1_distortion_model := "radtan"
    cam1_distortion_coeffs := ⟨0, 0, 0, 0⟩
    R_cam0_imu := Matx33.eye
    t_cam0_imu := ⟨0, 0, 0⟩
    R_cam1_imu := ⟨⟨0, -1, 0⟩, ⟨1, 0, 0⟩, ⟨0, 0, 1⟩⟩
    t_cam1_imu := ⟨1, 2, 1⟩ }

/-- Two cam0 points for the examples of `stereoMatch`. -/
def rigPoints : List Point2f := [⟨1, 1⟩, ⟨2, 3⟩]

/-- The optical flow of `stereoMatch` for `rigPoints` on a still frame. -/
def rigFlow : List (Point2f × Nat) :=
  stereoFlow exampleLibrary rigCalibration (stillFrame 1 []) rigPoints []

/-! ## Runs that reach trackFeatures with an empty previous store -/

/-- A processor right after its construction whose four counters hold the values 9, 8, 7
and 5. -/
def unsetProcessor : ImageProcessor := ImageProcessor.construct 0 9 8 7 5

/-- The processor `unsetProcessor` after a first frame without detections. -/
def afterBlankFirstFrame : ImageProcessor :=
  (outcome (stereoCallback exampleLibrary exampleConfig exampleCalibration unsetProcessor
    (stillFrame 1 []))).1

/-- A 2x2 grid with `grid_min_feature_num = 2` and `grid_max_feature_num = 0`. -/
def capZeroConfig : ProcessorConfig :=
  { grid_row := 2, grid_col := 2, grid_min_feature_num := 2, grid_max_feature_num := 0,
    ransac_threshold := 3, stereo_threshold := 3 }

/-- The processor under `capZeroConfig` after the first frame `stillFrame 1 fourCorners`. -/
def capZeroFirst : ImageProcessor :=
  (outcome (stereoCallback exampleLibrary capZeroConfig exampleCalibration freshProcessor
    (stillFrame 1 fourCorners))).1

/-- The processor under `capZeroConfig` after the second frame `stillFrame 2 []`. -/
def capZeroSecond : ImageProcessor :=
  (outcome (stereoCallback exampleLibrary capZeroConfig exampleCalibration capZeroFirst
    (stillFrame 2 []))).1

/-! ## Lemmas on the feature store -/

theorem lookupCell_eq_nil_of_not_hasCell (cells : List (Int × List FeatureMetaData))
    (code : Int) (h : hasCell cells code = false) : lookupCell cells code = [] := by
  induction cells with
  | nil => rfl
  | cons hd rest ih =>
    obtain ⟨k, cell⟩ := hd
    simp only [hasCell, List.any_cons, Bool.or_eq_false_iff, decide_eq_false_iff_not] at h
    simp only [lookupCell, h.1, if_false]
    exact ih h.2

theorem lookupCell_updateCell (cells : List (Int × List FeatureMetaData)) (code : Int)
    (g : List FeatureMetaData → List FeatureMetaData) (c : Int)
    (h : hasCell cells code = true) :
    lookupCell (updateCell cells code g) c =
      if c = code then g (lookupCell cells code) else lookupCell cells c := by
  induction cells with
  | nil => simp [hasCell] at h
  | cons hd rest ih =>
    obtain ⟨k, cell⟩ := hd
    by_cases hk : k = code
    · subst hk
      by_cases hc : c = k
      · subst hc; simp [updateCell, lookupCell]
      · have hc' : ¬ k = c := fun e => hc e.symm
        simp [updateCell, lookupCell, hc, hc']
    · have hrest : hasCell rest code = true := by
        simpa [hasCell, hk] using h
      by_cases hc : c = code
      · subst hc
        simp [updateCell, lookupCell, hk, ih hrest]
      · by_cases hkc : k = c
        · simp [updateCell, lookupCell, hk, hkc, hc]
        · simp [updateCell, lookupCell, hk, hkc, hc, ih hrest]

theorem lookupCell_insertCell (cells : List (Int × List FeatureMetaData)) (code : Int)
    (v : List FeatureMetaData) (c : Int) (h : hasCell cells code = false) :
    lookupCell (insertCell cells code v) c = if c = code then v else lookupCell cells c := by
  induction cells with
  | nil =>
    by_cases hc : c = code
    · subst hc; simp [insertCell, lookupCell]
    · have hc' : ¬ code = c := fun e => hc e.symm
      simp [insertCell, lookupCell, hc, hc']
  | cons hd rest ih =>
    obtain ⟨k, cell⟩ := hd
    simp only [hasCell, List.any_cons, Bool.or_eq_false_iff, decide_eq_false_iff_not] at h
    have hk : ¬ k = code := h.1
    have hrest : hasCell rest code = false := h.2
    by_cases h1 : code < k
    · by_cases hc : c = code
      · subst hc; simp [insertCell, lookupCell, h1]
      · have hc' : ¬ code = c := fun e => hc e.symm
        simp [insertCell, lookupCell, h1, hc, hc']
    · by_cases hc : c = code
      · subst hc
        simp [insertCell, lookupCell, h1, hk, ih hrest]
      · by_cases hkc : k = c
        · subst hkc
          simp [insertCell, lookupCell, h1, hc]
        · simp [insertCell, lookupCell, h1, hkc, hc, ih hrest]

theorem lookupCell_modifyCell (cells : List (Int × List FeatureMetaData)) (code : Int)
    (g : List FeatureMetaData → List FeatureMetaData) (c : Int) :
    lookupCell (modifyCell cells code g) c =
      if c = code then g (lookupCell cells code) else lookupCell cells c := by
  unfold modifyCell
  by_cases h : hasCell cells code = true
  · rw [if_pos h]; exact lookupCell_updateCell cells code g c h
  · have h' : hasCell cells code = false := by simpa using h
    rw [if_neg h, lookupCell_insertCell cells code _ c h',
      lookupCell_eq_nil_of_not_hasCell cells code h']

theorem mem_updateCell (cells : List (Int × List FeatureMetaData)) (code : Int)
    (g : List FeatureMetaData → List FeatureMetaData) (item : Int × List FeatureMetaData)
    (h : item ∈ updateCell cells code g) :
    item ∈ cells ∨ (item.1 = code ∧ ∃ cell, (code, cell) ∈ cells ∧ item.2 = g cell) := by
  induction cells with
  | nil => simp [updateCell] at h
  | cons hd rest ih =>
    obtain ⟨k, cell⟩ := hd
    by_cases hk : k = code
    · subst hk
      simp only [updateCell, if_true, List.mem_cons] at h
      rcases h with h | h
      · subst h
        exact Or.inr ⟨rfl, cell, List.mem_cons_self _ _, rfl⟩
      · exact Or.inl (List.mem_cons_of_mem _ h)
    · simp only [updateCell, hk, if_false, List.mem_cons] at h
      rcases h with h | h
      · subst h; exact Or.inl (List.mem_cons_self _ _)
      · rcases ih h with h' | ⟨e, cell', hc, he⟩
        · exact Or.inl (List.mem_cons_of_mem _ h')
        · exact Or.inr ⟨e, cell', List.mem_cons_of_mem _ hc, he⟩

theorem mem_insertCell (cells : List (Int × List FeatureMetaData)) (code : Int)
    (v : List FeatureMetaData) (item : Int × List FeatureMetaData)
    (h : item ∈ insertCell cells code v) : item ∈ cells ∨ item = (code, v) := by
  induction cells with
  | nil => simp only [insertCell, List.mem_singleton] at h; exact Or.inr h
  | cons hd rest ih =>
    obtain ⟨k, cell⟩ := hd
    by_cases h1 : code < k
    · simp only [insertCell, h1, if_true, List.mem_cons] at h
      rcases h with h | h | h
      · exact Or.inr h
      · subst h; exact Or.inl (List.mem_cons_self _ _)
      · exact Or.inl (List.mem_cons_of_mem _ h)
    · simp only [insertCell, h1, if_false, List.mem_cons] at h
      rcases h with h | h
      · subst h; exact Or.inl (List.mem_cons_self _ _)
      · rcases ih h with h' | h'
        · exact Or.inl (List.mem_cons_of_mem _ h')
        · exact Or.inr h'

theorem mem_modifyCell (cells : List (Int × List FeatureMetaData)) (code : Int)
    (g : List FeatureMetaData → List FeatureMetaData) (item : Int × List FeatureMetaData)
    (h : item ∈ modifyCell cells code g) :
    item ∈ cells ∨
      (item.1 = code ∧ (item.2 = g [] ∨ ∃ cell, (code, cell) ∈ cells ∧ item.2 = g cell)) := by
  unfold modifyCell at h
  by_cases hc : hasCell cells code = true
  · rw [if_pos hc] at h
    rcases mem_updateCell cells code g item h with h' | ⟨e, cell, h1, h2⟩
    · exact Or.inl h'
    · exact Or.inr ⟨e, Or.inr ⟨cell, h1, h2⟩⟩
  · rw [if_neg hc] at h
    rcases mem_insertCell cells code _ item h with h' | h'
    · exact Or.inl h'
    · subst h'; exact Or.inr ⟨rfl, Or.inl rfl⟩

theorem flatMap_updateCell_perm (cells : List (Int × List FeatureMetaData)) (code : Int)
    (extra : List FeatureMetaData) (h : hasCell cells code = true) :
    ((updateCell cells code (fun cell => cell ++ extra)).flatMap (fun item => item.2)).Perm
      (cells.flatMap (fun item => item.2) ++ extra) := by
  induction cells with
  | nil => simp [hasCell] at h
  | cons hd rest ih =>
    obtain ⟨k, cell⟩ := hd
    by_cases hk : k = code
    · simp only [updateCell, hk, if_true, List.flatMap_cons, List.append_assoc]
      exact List.Perm.append_left _ List.perm_append_comm
    · have hrest : hasCell rest code = true := by
        simpa [hasCell, hk] using h
      simp only [updateCell, hk, if_false, List.flatMap_cons, List.append_assoc]
      exact List.Perm.append_left _ (ih hrest)

theorem flatMap_insertCell_perm (cells : List (Int × List FeatureMetaData)) (code : Int)
    (v : List FeatureMetaData) :
    ((insertCell cells code v).flatMap (fun item => item.2)).Perm
      (cells.flatMap (fun item => item.2) ++ v) := by
  induction cells with
  | nil => simp [insertCell]
  | cons hd rest ih =>
    obtain ⟨k, cell⟩ := hd
    by_cases h1 : code < k
    · simp only [insertCell, h1, if_true, List.flatMap_cons]
      exact List.perm_append_comm
    · simp only [insertCell, h1, if_false, List.flatMap_cons, List.append_assoc]
      exact List.Perm.append_left _ ih

theorem flatMap_modifyCell_perm (cells : List (Int × List FeatureMetaData)) (code : Int)
    (extra : List FeatureMetaData) :
    ((modifyCell cells code (fun cell => cell ++ extra)).flatMap (fun item => item.2)).Perm
      (cells.flatMap (fun item => item.2) ++ extra) := by
  unfold modifyCell
  by_cases hc : hasCell cells code = true
  · rw [if_pos hc]; exact flatMap_updateCell_perm cells code extra hc
  · rw [if_neg hc]; simpa using flatMap_insertCell_perm cells code extra

/-! ## Pruning (C7) -/

theorem toSizeT_of_nonneg (v : Int) (h0 : 0 ≤ v) (h1 : v < 2147483648) :
    toSizeT v = v.toNat := by
  unfold toSizeT
  rw [Int.emod_eq_of_lt h0 (by omega)]

theorem toInt32_of_range (v : Int) (h0 : -2147483648 ≤ v) (h1 : v < 2147483648) :
    toInt32 v = v := by
  unfold toInt32
  rw [Int.emod_eq_of_lt (by omega) (by omega)]
  omega

theorem sortByLifetime_perm (cell : List FeatureMetaData) :
    (sortByLifetime cell).Perm cell :=
  List.perm_insertionSort _ cell

theorem sortByLifetime_sorted (cell : List FeatureMetaData) :
    (sortByLifetime cell).Sorted (fun f1 f2 => f2.lifetime ≤ f1.lifetime) :=
  List.sorted_insertionSort _ cell

theorem sortByResponse_perm (cell : List FeatureMetaData) :
    (sortByResponse cell).Perm cell :=
  List.perm_insertionSort _ cell

theorem pruneCell_small (cfg : ProcessorConfig) (cell : List FeatureMetaData)
    (h0 : 0 ≤ cfg.grid_max_feature_num) (h1 : cfg.grid_max_feature_num < 2147483648)
    (h : (cell.length : Int) ≤ cfg.grid_max_feature_num) : pruneCell cfg cell = cell := by
  unfold pruneCell
  rw [toSizeT_of_nonneg _ h0 h1, if_pos (by omega)]

theorem pruneCell_large (cfg : ProcessorConfig) (cell : List FeatureMetaData)
    (h0 : 0 ≤ cfg.grid_max_feature_num) (h1 : cfg.grid_max_feature_num < 2147483648)
    (h : cfg.grid_max_feature_num < (cell.length : Int)) :
    ((pruneCell cfg cell).length : Int) = cfg.grid_max_feature_num ∧
      ∃ evicted, (pruneCell cfg cell ++ evicted).Perm cell ∧
        ∀ r ∈ pruneCell cfg cell, ∀ e ∈ evicted, e.lifetime ≤ r.lifetime := by
  have hlen : (sortByLifetime cell).length = cell.length := (sortByLifetime_perm cell).length_eq
  have hp : pruneCell cfg cell =
      (sortByLifetime cell).take cfg.grid_max_feature_num.toNat := by
    unfold pruneCell
    rw [toSizeT_of_nonneg _ h0 h1, if_neg (by omega)]
  rw [hp]
  refine ⟨?_, (sortByLifetime cell).drop cfg.grid_max_feature_num.toNat, ?_, ?_⟩
  · rw [List.length_take, hlen]
    omega
  · rw [List.take_append_drop]
    exact sortByLifetime_perm cell
  · have hs := sortByLifetime_sorted cell
    rw [← List.take_append_drop cfg.grid_max_feature_num.toNat (sortByLifetime cell)] at hs
    exact fun r hr e he => (List.pairwise_append.1 hs).2.2 r hr e he

theorem pruneCell_length_le (cfg : ProcessorConfig) (cell : List FeatureMetaData)
    (h0 : 0 ≤ cfg.grid_max_feature_num) (h1 : cfg.grid_max_feature_num < 2147483648) :
    ((pruneCell cfg cell).length : Int) ≤ cfg.grid_max_feature_num := by
  by_cases h : (cell.length : Int) ≤ cfg.grid_max_feature_num
  · rw [pruneCell_small cfg cell h0 h1 h]; exact h
  · exact le_of_eq (pruneCell_large cfg cell h0 h1 (by omega)).1

/-- C7. `pruneGridFeatures` treats every cell as `PrunedCell` says: a cell with at most
`grid_max_feature_num` features is left untouched, and a larger cell is reduced to exactly
`grid_max_feature_num` of its own features, each with a lifetime greater than or equal to
that of every evicted feature of the cell (for a non-negative `int` cap). -/
theorem pruneGridFeatures_keeps_oldest (cfg : ProcessorConfig) (s : ImageProcessor)
    (h0 : 0 ≤ cfg.grid_max_feature_num) (h1 : cfg.grid_max_feature_num < 2147483648) :
    List.Forall₂ (PrunedCell cfg)
      s.curr_features.cells (pruneGridFeatures cfg s).curr_features.cells := by
  unfold pruneGridFeatures
  simp only [List.forall₂_map_right_iff]
  refine List.forall₂_same.2 (fun item _ => ⟨rfl, ?_, ?_⟩)
  · exact fun h => pruneCell_small cfg item.2 h0 h1 h
  · exact fun h => pruneCell_large cfg item.2 h0 h1 h

/-- C7, witness: a cell of four features under the cap 3. -/
theorem pruneGridFeatures_keeps_oldest_witness :
    (0 ≤ exampleConfig.grid_max_feature_num ∧
      exampleConfig.grid_max_feature_num < 2147483648) ∧
    List.Forall₂ (PrunedCell exampleConfig)
      crowdedProcessor.curr_features.cells
      (pruneGridFeatures exampleConfig crowdedProcessor).curr_features.cells :=
  ⟨⟨by decide, by decide⟩,
    pruneGridFeatures_keeps_oldest exampleConfig crowdedProcessor (by decide) (by decide)⟩

/-! ## The cap of the published store (C1) -/

theorem foldl_range_invariant {σ : Type} (P : Nat → σ → Prop) (step : σ → Nat → σ)
    (init : σ) (h0 : P 0 init) (hstep : ∀ k st, P k st → P (k + 1) (step st k)) (n : Nat) :
    P n ((List.range n).foldl step init) := by
  induction n with
  | zero => simpa using h0
  | succ n ih =>
    rw [List.range_succ, List.foldl_append]
    exact hstep n _ ih

theorem assignIds_length (next : Nat) (chosen : List FeatureMetaData) :
    (assignIds next chosen).length = chosen.length := by
  induction chosen generalizing next with
  | nil => rfl
  | cons hd tl ih => simp [assignIds, ih]

theorem run_curr_cells_empty {cv : OpenCV} {cfg : ProcessorConfig} {cal : Calibration}
    {s : ImageProcessor} {history : List GridFeatures} (hrun : Run cv cfg cal s history) :
    ∀ item ∈ s.curr_features.cells, item.2 = [] := by
  induction hrun with
  | construct id0 c0 c1 c2 c3 => simp [ImageProcessor.construct]
  | imu msg _ ih =>
    unfold imuCallback
    split
    · exact ih
    · exact ih
  | frame f s' out _ h _ =>
    unfold stereoCallback at h
    split at h
    · simp at h
    · simp only [Option.some.injEq, Prod.mk.injEq] at h
      rw [← h.1]
      simp [GridFeatures.empty]

theorem firstFrame_fold_cells (cfg : ProcessorConfig) (grid_new_features : GridFeatures)
    (s : ImageProcessor) (hs : ∀ item ∈ s.curr_features.cells, item.2 = []) (n : Nat) :
    ∀ item ∈ ((List.range n).foldl
        (fun st (code : Nat) =>
          admitInto st code
            ((grid_new_features.get code).take cfg.grid_min_feature_num.toNat)) s).curr_features.cells,
      item.2.length ≤ cfg.grid_min_feature_num.toNat := by
  have key := foldl_range_invariant
    (fun (k : Nat) (st : ImageProcessor) => ∀ item ∈ st.curr_features.cells,
      (item.1 < (k : Int) → item.2.length ≤ cfg.grid_min_feature_num.toNat) ∧
      ((k : Int) ≤ item.1 → item.2 = []))
    (fun st (code : Nat) =>
      admitInto st code ((grid_new_features.get code).take cfg.grid_min_feature_num.toNat))
    s ?_ ?_ n
  · intro item hitem
    by_cases hlt : item.1 < (n : Int)
    · exact (key item hitem).1 hlt
    · rw [(key item hitem).2 (by omega)]; simp
  · intro item hitem
    exact ⟨fun _ => by rw [hs item hitem]; simp, fun _ => hs item hitem⟩
  · intro k st ih item hitem
    simp only [admitInto, GridFeatures.modify] at hitem
    have hlen : (assignIds st.next_feature_id
        ((grid_new_features.get k).take cfg.grid_min_feature_num.toNat)).length ≤
        cfg.grid_min_feature_num.toNat := by
      rw [assignIds_length, List.length_take]; omega
    rcases mem_modifyCell _ _ _ item hitem with hold | ⟨hcode, hnew | ⟨cell, hcell, hnew⟩⟩
    · constructor
      · intro hlt
        by_cases hk : item.1 < (k : Int)
        · exact (ih item hold).1 hk
        · rw [(ih item hold).2 (by omega)]; simp
      · intro hle
        exact (ih item hold).2 (by omega)
    · constructor
      · intro _; rw [hnew]; simpa using hlen
      · intro hle; omega
    · constructor
      · intro _
        have hc : cell = [] := (ih (↑k, cell) hcell).2 (le_refl _)
        rw [hnew, hc]; simpa using hlen
      · intro hle; omega

theorem stereoCallback_prev_features {cv : OpenCV} {cfg : ProcessorConfig}
    {cal : Calibration} {s s' : ImageProcessor} {f : StereoFrame} {out : Published}
    (h : stereoCallback cv cfg cal s f = some (s', out)) :
    ∃ s1, processFrame cv cfg cal s f = some s1 ∧ s'.prev_features = s1.curr_features ∧
      s'.is_first_img = s1.is_first_img ∧ s'.next_feature_id = s1.next_feature_id ∧
      s'.allocated = s1.allocated ∧ out = publish cv cal s1 f ∧
      s'.curr_features = GridFeatures.empty (cfg.grid_row * cfg.grid_col) := by
  unfold stereoCallback at h
  split at h
  · simp at h
  · rename_i s1 hs1
    simp only [Option.some.injEq, Prod.mk.injEq] at h
    refine ⟨s1, hs1, ?_⟩
    rw [← h.1, ← h.2]
    simp

/-- C1 (amended). The store published for a frame: after every frame that is not the first,
each cell holds at most `grid_max_feature_num` features; the first frame admits up to
`grid_min_feature_num` features per cell, so its cells are within the cap when
`grid_min_feature_num ≤ grid_max_feature_num` (the cap being a non-negative `int`). -/
theorem published_cells_within_cap (cv : OpenCV) (cfg : ProcessorConfig) (cal : Calibration)
    (s : ImageProcessor) (history : List GridFeatures) (f : StereoFrame)
    (s' : ImageProcessor) (out : Published)
    (hrun : Run cv cfg cal s history)
    (h : stereoCallback cv cfg cal s f = some (s', out))
    (h0 : 0 ≤ cfg.grid_max_feature_num) (h1 : cfg.grid_max_feature_num < 2147483648)
    (hfirst : s.is_first_img = true →
      cfg.grid_min_feature_num ≤ cfg.grid_max_feature_num) :
    ∀ item ∈ s'.prev_features.cells, (item.2.length : Int) ≤ cfg.grid_max_feature_num := by
  obtain ⟨s1, hs1, hprev, -⟩ := stereoCallback_prev_features h
  rw [hprev]
  unfold processFrame at hs1
  by_cases hf : s.is_first_img = true
  · rw [if_pos hf] at hs1
    split at hs1
    · simp at hs1
    · rename_i s2 hs2
      simp only [Option.some.injEq] at hs1
      rw [← hs1]
      unfold initializeFirstFrame at hs2
      split at hs2
      · simp at hs2
      · dsimp only at hs2
        split at hs2
        · simp only [Option.some.injEq] at hs2
          intro item hitem
          have hb := firstFrame_fold_cells cfg _ s (run_curr_cells_empty hrun) _ item
            (by rw [hs2]; exact hitem)
          have := hfirst hf
          omega
        · simp at hs2
  · rw [if_neg hf] at hs1
    split at hs1
    · simp at hs1
    · split at hs1
      · simp at hs1
      · simp only [Option.some.injEq] at hs1
        rw [← hs1]
        intro item hitem
        simp only [pruneGridFeatures, List.mem_map] at hitem
        obtain ⟨item0, _, rfl⟩ := hitem
        exact pruneCell_length_le cfg item0.2 h0 h1

theorem afterFirstFrame_eq :
    stereoCallback exampleLibrary exampleConfig exampleCalibration freshProcessor
      (stillFrame 1 fourCorners) = some afterFirstFrame := by decide!

theorem afterSecondFrame_eq :
    stereoCallback exampleLibrary exampleConfig exampleCalibration afterFirstFrame.1
      (stillFrame 2 fourCorners) = some afterSecondFrame := by decide!

theorem run_afterFirstFrame :
    Run exampleLibrary exampleConfig exampleCalibration afterFirstFrame.1
      [afterFirstFrame.1.prev_features] :=
  Run.frame (stillFrame 1 fourCorners) afterFirstFrame.1 afterFirstFrame.2
    (Run.construct 0 0 0 0 0) afterFirstFrame_eq

/-- C1, witness: the second frame of the example run. -/
theorem published_cells_within_cap_witness :
    stereoCallback exampleLibrary exampleConfig exampleCalibration afterFirstFrame.1
      (stillFrame 2 fourCorners) = some afterSecondFrame ∧
    ∀ item ∈ afterSecondFrame.1.prev_features.cells,
      (item.2.length : Int) ≤ exampleConfig.grid_max_feature_num :=
  ⟨afterSecondFrame_eq,
    published_cells_within_cap exampleLibrary exampleConfig exampleCalibration
      afterFirstFrame.1 [afterFirstFrame.1.prev_features] (stillFrame 2 fourCorners)
      afterSecondFrame.1 afterSecondFrame.2 run_afterFirstFrame afterSecondFrame_eq
      (by decide) (by decide) (by decide!)⟩

/-- C1, counterexample: with `grid_min_feature_num = 2` and `grid_max_feature_num = 1` the
first frame publishes a store whose cell 0 holds two features. -/
theorem first_frame_exceeds_cap :
    ∃ s' out,
      stereoCallback exampleLibrary capOneConfig exampleCalibration freshProcessor
        (stillFrame 1 fourCorners) = some (s', out) ∧
      ∃ item ∈ s'.prev_features.cells,
        capOneConfig.grid_max_feature_num < (item.2.length : Int) := by
  have hsome : (stereoCallback exampleLibrary capOneConfig exampleCalibration freshProcessor
      (stillFrame 1 fourCorners)).map (fun r => r.1.prev_features) =
      some ⟨[(0, [⟨0, 7, 1, ⟨2, 1⟩, ⟨2, 1⟩⟩, ⟨1, 6, 1, ⟨3, 1⟩, ⟨3, 1⟩⟩]), (1, []), (2, []),
        (3, [⟨2, 1, 1, ⟨8, 8⟩, ⟨8, 8⟩⟩])]⟩ := by decide!
  cases hr : stereoCallback exampleLibrary capOneConfig exampleCalibration freshProcessor
      (stillFrame 1 fourCorners) with
  | none => rw [hr] at hsome; simp at hsome
  | some r =>
    rw [hr] at hsome
    simp only [Option.map_some', Option.some.injEq] at hsome
    refine ⟨r.1, r.2, rfl, ?_⟩
    rw [hsome]
    exact ⟨_, List.mem_cons_self _ _, by decide⟩

/-! ## The first-frame state (C10) and the tracking counters (C2) -/

theorem admitInto_fold_is_first_img (step : ImageProcessor → Nat → ImageProcessor)
    (hstep : ∀ st k, (step st k).is_first_img = st.is_first_img) (s : ImageProcessor)
    (codes : List Nat) : (codes.foldl step s).is_first_img = s.is_first_img := by
  induction codes generalizing s with
  | nil => rfl
  | cons k rest ih => rw [List.foldl_cons, ih, hstep]

theorem replenishCell_is_first_img (cfg : ProcessorConfig) (g : GridFeatures)
    (st : ImageProcessor) (k : Nat) :
    (replenishCell cfg g st k).is_first_img = st.is_first_img := by
  unfold replenishCell
  dsimp only
  split <;> rfl

theorem trackFeatures_is_first_img {cv : OpenCV} {cfg : ProcessorConfig} {cal : Calibration}
    {s s' : ImageProcessor} {f : StereoFrame} (h : trackFeatures cv cfg cal s f = some s') :
    s'.is_first_img = s.is_first_img := by
  unfold trackFeatures at h
  split at h
  · simp at h
  · dsimp only at h
    split at h
    · simp only [Option.some.injEq] at h; rw [← h]
    · split at h
      · simp at h
      · split at h
        · simp only [Option.some.injEq] at h; rw [← h]
        · simp at h

theorem addNewFeatures_is_first_img {cv : OpenCV} {cfg : ProcessorConfig}
    {cal : Calibration} {s s' : ImageProcessor} {f : StereoFrame}
    (h : addNewFeatures cv cfg cal s f = some s') : s'.is_first_img = s.is_first_img := by
  unfold addNewFeatures at h
  split at h
  · simp at h
  · dsimp only at h
    split at h
    · simp at h
    · simp only [Option.some.injEq] at h
      rw [← h, admitInto_fold_is_first_img _ (replenishCell_is_first_img cfg _)]

theorem processFrame_is_first_img {cv : OpenCV} {cfg : ProcessorConfig} {cal : Calibration}
    {s s1 : ImageProcessor} {f : StereoFrame} (h : processFrame cv cfg cal s f = some s1) :
    s1.is_first_img = false := by
  unfold processFrame at h
  by_cases hf : s.is_first_img = true
  · rw [if_pos hf] at h
    split at h
    · simp at h
    · simp only [Option.some.injEq] at h; rw [← h]
  · rw [if_neg hf] at h
    split at h
    · simp at h
    · rename_i s2 hs2
      split at h
      · simp at h
      · rename_i s3 hs3
        simp only [Option.some.injEq] at h
        rw [← h]
        simp only [pruneGridFeatures]
        rw [addNewFeatures_is_first_img hs3, trackFeatures_is_first_img hs2]
        simpa using hf

/-- C10 (amended). Every processed stereo frame leaves the processor out of the first-frame
state, whether or not it admitted a feature: `is_first_img` is false afterwards, so every
later frame is handled by `trackFeatures`, `addNewFeatures` and `pruneGridFeatures`. -/
theorem first_frame_state_left (cv : OpenCV) (cfg : ProcessorConfig) (cal : Calibration)
    (s : ImageProcessor) (f : StereoFrame) (s' : ImageProcessor) (out : Published)
    (h : stereoCallback cv cfg cal s f = some (s', out)) :
    s'.is_first_img = false ∧
    ∀ f2, processFrame cv cfg cal s' f2 =
      (trackFeatures cv cfg cal s' f2).bind (fun s1 =>
        (addNewFeatures cv cfg cal s1 f2).map (pruneGridFeatures cfg)) := by
  obtain ⟨s1, hs1, -, hfirst, -⟩ := stereoCallback_prev_features h
  have hfalse : s'.is_first_img = false := by rw [hfirst]; exact processFrame_is_first_img hs1
  refine ⟨hfalse, fun f2 => ?_⟩
  unfold processFrame
  rw [hfalse]
  simp only [Bool.false_eq_true, if_false]
  cases trackFeatures cv cfg cal s' f2 with
  | none => rfl
  | some s2 =>
    simp only [Option.some_bind]
    cases addNewFeatures cv cfg cal s2 f2 <;> rfl

/-- The processor after a first frame `stillFrame 1 []` that detects nothing. -/
theorem afterEmptyFirstFrame_eq :
    stereoCallback exampleLibrary exampleConfig exampleCalibration freshProcessor
      (stillFrame 1 []) = some afterEmptyFirstFrame := by decide!

/-- C10, witness: a first frame without any detection. -/
theorem first_frame_state_left_witness :
    stereoCallback exampleLibrary exampleConfig exampleCalibration freshProcessor
      (stillFrame 1 []) = some afterEmptyFirstFrame ∧
    (afterEmptyFirstFrame.1.is_first_img = false ∧
    ∀ f2, processFrame exampleLibrary exampleConfig exampleCalibration
        afterEmptyFirstFrame.1 f2 =
      (trackFeatures exampleLibrary exampleConfig exampleCalibration
        afterEmptyFirstFrame.1 f2).bind (fun s1 =>
        (addNewFeatures exampleLibrary exampleConfig exampleCalibration s1 f2).map
          (pruneGridFeatures exampleConfig))) :=
  ⟨afterEmptyFirstFrame_eq,
    first_frame_state_left exampleLibrary exampleConfig exampleCalibration freshProcessor
      (stillFrame 1 []) afterEmptyFirstFrame.1 afterEmptyFirstFrame.2
      afterEmptyFirstFrame_eq⟩

/-- C10, counterexample: a first frame that admits no feature (the published store is
empty) still clears `is_first_img`. -/
theorem empty_first_frame_not_retried :
    ∃ s' out,
      stereoCallback exampleLibrary exampleConfig exampleCalibration freshProcessor
        (stillFrame 1 []) = some (s', out) ∧
      freshProcessor.is_first_img = true ∧ s'.prev_features.flatten = [] ∧
      s'.is_first_img = false := by
  have hsome : (stereoCallback exampleLibrary exampleConfig exampleCalibration freshProcessor
      (stillFrame 1 [])).map (fun r => (r.1.prev_features.flatten, r.1.is_first_img)) =
      some ([], false) := by decide!
  cases hr : stereoCallback exampleLibrary exampleConfig exampleCalibration freshProcessor
      (stillFrame 1 []) with
  | none => rw [hr] at hsome; simp at hsome
  | some r =>
    rw [hr] at hsome
    simp only [Option.map_some', Option.some.injEq, Prod.mk.injEq] at hsome
    exact ⟨r.1, r.2, rfl, rfl, hsome.1, hsome.2⟩

/-- C2, the failing run: three corners are admitted in the first frame; in the second
frame all three are tracked and the stereo matcher loses them, so the store is empty; the
third frame returns from `trackFeatures` right after setting `before_tracking = 0` and
publishes the `after_tracking = 3` of the second frame. -/
theorem stale_tracking_counters :
    ((stereoCallback exampleLibrary exampleConfig exampleCalibration freshProcessor
        (stillFrame 1 fourCorners)).bind (fun r1 =>
      (stereoCallback exampleLibrary exampleConfig exampleCalibration r1.1
        (lostFrame 2)).bind (fun r2 =>
      (stereoCallback exampleLibrary exampleConfig exampleCalibration r2.1
        (stillFrame 3 [])).map (fun r3 => (r2.2.tracking_info, r3.2.tracking_info))))) =
      some (⟨2, 3, 3, 0, 0⟩, ⟨3, 0, 3, 0, 0⟩) := by decide!

/-! ## The mask of `twoPointRansac` (C8, C9) -/

theorem undistortPoints_length (cv : OpenCV) (pts : List Point2f) (intrinsics : Vec4)
    (model : String) (coeffs : Vec4) (pts_out : List Point2f) (R : Matx33) (k_new : Vec4)
    (hout : pts = [] → pts_out.length = 0) :
    (undistortPoints cv pts intrinsics model coeffs pts_out R k_new).length = pts.length := by
  unfold undistortPoints
  by_cases h : pts.length = 0
  · rw [if_pos h, h]
    exact hout (List.length_eq_zero.1 h)
  · rw [if_neg h]
    dsimp only
    split
    · simp
    · split <;> simp

theorem rescalePoints_some (cv : OpenCV) (pts1 pts2 : List Point2f)
    (h : pts1.length ≤ pts2.length) :
    ∃ p1 p2 sf, rescalePoints cv pts1 pts2 = some (p1, p2, sf) ∧
      p1.length = pts1.length ∧ p2.length = pts2.length := by
  unfold rescalePoints
  rw [if_neg (by omega)]
  refine ⟨_, _, _, rfl, ?_, ?_⟩
  · simp
  · simp only [List.length_append, List.length_map, List.length_take, List.length_drop]
    omega

theorem range_filter_getD_length {α : Type} (l : List α) (d : α) (p : α → Bool) :
    ((List.range l.length).filter (fun i => p (l.getD i d))).length = (l.filter p).length := by
  induction l with
  | nil => rfl
  | cons a t ih =>
    rw [List.length_cons, List.range_succ_eq_map, List.filter_cons, List.filter_cons,
      List.filter_map]
    have hfun : ((fun i => p ((a :: t).getD i d)) ∘ Nat.succ) = fun i => p (t.getD i d) := by
      funext i; simp
    rw [hfun]
    have h0 : (a :: t).getD 0 d = a := rfl
    rw [h0]
    by_cases hp : p a = true
    · simp only [hp, if_true, List.length_cons, List.length_map, ih]
    · simp only [hp, if_false, List.length_map, ih, Bool.false_eq_true]

theorem preFilterMarkers_values (cv : OpenCV) (pts_diff : List Point2f) (u : ℚ) :
    ∀ m ∈ preFilterMarkers cv pts_diff u, m = 0 ∨ m = 1 := by
  intro m hm
  simp only [preFilterMarkers, List.mem_map] at hm
  obtain ⟨d, _, rfl⟩ := hm
  split
  · exact Or.inl rfl
  · exact Or.inr rfl

theorem rawInlierIdx_length (cv : OpenCV) (pts_diff : List Point2f) (u : ℚ) :
    ((List.range (preFilterMarkers cv pts_diff u).length).filter
      (fun i => decide ((preFilterMarkers cv pts_diff u).getD i 0 ≠ 0))).length =
      rawInlierCntr cv pts_diff u := by
  rw [range_filter_getD_length (preFilterMarkers cv pts_diff u) 0 (fun m => decide (m ≠ 0))]
  unfold preFilterMarkers rawInlierCntr
  rw [List.filter_map, List.length_map]
  congr 1
  apply List.filter_congr
  intro d _
  by_cases hfar : cv.sqrt (d.dot d) > 50 * u
  · simp [hfar]
  · simp [hfar]

theorem degenerateMarkers_length (cv : OpenCV) (markers : List Int) (pts_diff : List Point2f)
    (e u : ℚ) (h : markers.length = pts_diff.length) :
    (degenerateMarkers cv markers pts_diff e u).length = markers.length := by
  simp [degenerateMarkers, h]

theorem degenerateMarkers_values (cv : OpenCV) (markers : List Int)
    (pts_diff : List Point2f) (e u : ℚ) (h : ∀ m ∈ markers, m = 0 ∨ m = 1) :
    ∀ m ∈ degenerateMarkers cv markers pts_diff e u, m = 0 ∨ m = 1 := by
  intro m hm
  simp only [degenerateMarkers, List.mem_iff_get, List.length_zipWith, List.get_eq_getElem,
    List.getElem_zipWith] at hm
  obtain ⟨i, rfl⟩ := hm
  split
  · rename_i h0; exact Or.inl h0
  · split
    · exact Or.inl rfl
    · exact h _ (List.getElem_mem _)

theorem fillMarkers_length (n : Nat) (best : List Nat) : (fillMarkers n best).length = n := by
  unfold fillMarkers
  have key : ∀ (init : List Int),
      (best.foldl (fun markers inlier_idx => markers.set inlier_idx 1) init).length =
        init.length := by
    induction best with
    | nil => intro init; rfl
    | cons b rest ih => intro init; rw [List.foldl_cons, ih, List.length_set]
  rw [key, List.length_replicate]

theorem fillMarkers_values (n : Nat) (best : List Nat) :
    ∀ m ∈ fillMarkers n best, m = 0 ∨ m = 1 := by
  unfold fillMarkers
  have key : ∀ (init : List Int), (∀ m ∈ init, m = 0 ∨ m = 1) →
      ∀ m ∈ best.foldl (fun markers inlier_idx => markers.set inlier_idx 1) init,
        m = 0 ∨ m = 1 := by
    induction best with
    | nil => intro init h; exact h
    | cons b rest ih =>
      intro init h
      rw [List.foldl_cons]
      apply ih
      intro m hm
      rcases List.mem_or_eq_of_mem_set hm with h' | h'
      · exact h m h'
      · exact Or.inr h'
  apply key
  intro m hm
  exact Or.inl (List.eq_of_mem_replicate hm)

theorem readAt_some_of_lt {α : Type} (xs : List α) (i : Int) (h0 : 0 ≤ i)
    (h1 : i < (xs.length : Int)) : ∃ v, readAt xs i = some v ∧ v ∈ xs := by
  have hlt : i.toNat < xs.length := by omega
  refine ⟨xs[i.toNat], ?_, List.getElem_mem _⟩
  unfold readAt
  rw [if_pos h0, List.getElem?_eq_getElem hlt]

theorem uniformInteger_range (raw : Nat) (lo hi : Int) (h : lo ≤ hi) :
    lo ≤ uniformInteger raw lo hi ∧ uniformInteger raw lo hi ≤ hi := by
  unfold uniformInteger
  have hpos : 0 < hi - lo + 1 := by omega
  have h1 := Int.emod_nonneg (raw : Int) (ne_of_gt hpos)
  have h2 := Int.emod_lt_of_pos (raw : Int) hpos
  constructor <;> omega

theorem ransacIteration_isSome (random : Nat → Nat) (coeff_t : List Vec3)
    (inlier_markers : List Int) (raw_inlier_idx : List Nat) (e u : ℚ) (n_pts iter_idx : Nat)
    (best : RansacBest) (hm : 2 ≤ raw_inlier_idx.length)
    (hmn : raw_inlier_idx.length ≤ coeff_t.length)
    (helem : ∀ i ∈ raw_inlier_idx, i < coeff_t.length) :
    ∃ b, ransacIteration random coeff_t inlier_markers raw_inlier_idx e u n_pts iter_idx
      best = some b := by
  have hr := uniformInteger_range (random (2 * iter_idx)) 0
    ((raw_inlier_idx.length : Int) - 1) (by omega)
  have hd := uniformInteger_range (random (2 * iter_idx + 1)) 1
    ((raw_inlier_idx.length : Int) - 1) (by omega)
  obtain ⟨idx1, hidx1, hmem1⟩ := readAt_some_of_lt raw_inlier_idx _ hr.1 (by omega)
  have hlt1 := helem idx1 hmem1
  obtain ⟨row1, hrow1, -⟩ := readAt_some_of_lt coeff_t (idx1 : Int) (by omega) (by omega)
  obtain ⟨row2, hrow2, -⟩ := readAt_some_of_lt coeff_t
    (if (idx1 : Int) + uniformInteger (random (2 * iter_idx + 1)) 1
          ((raw_inlier_idx.length : Int) - 1) < (raw_inlier_idx.length : Int)
      then (idx1 : Int) + uniformInteger (random (2 * iter_idx + 1)) 1
          ((raw_inlier_idx.length : Int) - 1)
      else (idx1 : Int) + uniformInteger (random (2 * iter_idx + 1)) 1
          ((raw_inlier_idx.length : Int) - 1) - (raw_inlier_idx.length : Int))
    (by split <;> omega) (by split <;> omega)
  unfold ransacIteration
  simp only [hidx1, hrow1, hrow2]
  split
  · exact ⟨_, rfl⟩
  · split <;> exact ⟨_, rfl⟩

theorem ransacLoop_isSome (random : Nat → Nat) (coeff_t : List Vec3)
    (inlier_markers : List Int) (raw_inlier_idx : List Nat) (e u : ℚ) (n_pts : Nat)
    (hm : 2 ≤ raw_inlier_idx.length) (hmn : raw_inlier_idx.length ≤ coeff_t.length)
    (helem : ∀ i ∈ raw_inlier_idx, i < coeff_t.length) (remaining iter_idx : Nat)
    (best : RansacBest) :
    ∃ b, ransacLoop random coeff_t inlier_markers raw_inlier_idx e u n_pts remaining
      iter_idx best = some b := by
  induction remaining generalizing iter_idx best with
  | zero => exact ⟨best, rfl⟩
  | succ k ih =>
    obtain ⟨b1, hb1⟩ := ransacIteration_isSome random coeff_t inlier_markers raw_inlier_idx
      e u n_pts iter_idx best hm hmn helem
    unfold ransacLoop
    rw [hb1]
    exact ih (iter_idx + 1) b1

theorem twoPointRansac_mask (cv : OpenCV) (random : Nat → Nat) (pts1 pts2 : List Point2f)
    (R_p_c : Matx33) (intrinsics : Vec4) (distortion_model : String)
    (distortion_coeffs : Vec4) (inlier_error success_probability : ℚ)
    (h : pts1.length ≤ pts2.length) :
    ∃ out, twoPointRansac cv random pts1 pts2 R_p_c intrinsics distortion_model
        distortion_coeffs inlier_error success_probability = some out ∧
      out.error_logged = decide (pts1.length ≠ pts2.length) ∧
      out.inlier_markers.length = pts1.length ∧
      ∀ m ∈ out.inlier_markers, m = 0 ∨ m = 1 := by
  have hu1 := undistortPoints_length cv pts1 intrinsics distortion_model distortion_coeffs
    (List.replicate pts1.length ⟨0, 0⟩) Matx33.eye defaultNewIntrinsics
    (fun hnil => by simp [hnil])
  have hu2 := undistortPoints_length cv pts2 intrinsics distortion_model distortion_coeffs
    (List.replicate pts2.length ⟨0, 0⟩) Matx33.eye defaultNewIntrinsics
    (fun hnil => by simp [hnil])
  obtain ⟨p1, p2, sf, hres, hp1, hp2⟩ := rescalePoints_some cv
    ((undistortPoints cv pts1 intrinsics distortion_model distortion_coeffs
      (List.replicate pts1.length ⟨0, 0⟩) Matx33.eye defaultNewIntrinsics).map (fun pt =>
        (⟨(R_p_c.mulVec ⟨pt.x, pt.y, 1⟩).x, (R_p_c.mulVec ⟨pt.x, pt.y, 1⟩).y⟩ : Point2f)))
    (undistortPoints cv pts2 intrinsics distortion_model distortion_coeffs
      (List.replicate pts2.length ⟨0, 0⟩) Matx33.eye defaultNewIntrinsics)
    (by rw [List.length_map, hu1, hu2]; exact h)
  rw [List.length_map, hu1] at hp1
  rw [hu2] at hp2
  have hdiff : (List.zipWith Point2f.sub p1 p2).length = pts1.length := by
    rw [List.length_zipWith, hp1, hp2]; omega
  have hcoeff : (List.zipWith coeffRow p1 p2).length = pts1.length := by
    rw [List.length_zipWith, hp1, hp2]; omega
  have hmark : ∀ u, (preFilterMarkers cv (List.zipWith Point2f.sub p1 p2) u).length =
      pts1.length := by
    intro u; simp only [preFilterMarkers, List.length_map]; exact hdiff
  unfold twoPointRansac
  dsimp only
  rw [hres]
  dsimp only
  split
  · refine ⟨_, rfl, rfl, ?_, ?_⟩
    · simp only [List.length_map]; exact hmark _
    · intro m hmem
      simp only [List.mem_map] at hmem
      obtain ⟨_, _, rfl⟩ := hmem
      exact Or.inl rfl
  · rename_i hcnt
    split
    · refine ⟨_, rfl, rfl, ?_, ?_⟩
      · rw [degenerateMarkers_length _ _ _ _ _ (by rw [hmark, hdiff]), hmark]
      · exact degenerateMarkers_values _ _ _ _ _ (preFilterMarkers_values _ _ _)
    · obtain ⟨b, hb⟩ := ransacLoop_isSome random (List.zipWith coeffRow p1 p2)
        (preFilterMarkers cv (List.zipWith Point2f.sub p1 p2)
          (2 / (intrinsics.v0 + intrinsics.v1) * sf))
        ((List.range (preFilterMarkers cv (List.zipWith Point2f.sub p1 p2)
          (2 / (intrinsics.v0 + intrinsics.v1) * sf)).length).filter
          (fun i => decide ((preFilterMarkers cv (List.zipWith Point2f.sub p1 p2)
            (2 / (intrinsics.v0 + intrinsics.v1) * sf)).getD i 0 ≠ 0)))
        inlier_error (2 / (intrinsics.v0 + intrinsics.v1) * sf) p1.length
        (by rw [rawInlierIdx_length]; omega)
        (by
          rw [hcoeff]
          refine le_trans (List.length_filter_le _ _) ?_
          rw [List.length_range, hmark])
        (by
          intro i hi
          rw [List.mem_filter, List.mem_range, hmark] at hi
          rw [hcoeff]; exact hi.1)
        (truncToInt ((Int.ceil (cv.log (1 - success_probability) /
          cv.log (1 - 0.7 * 0.7)) : Int) : ℚ)).toNat 0 ⟨[], 10000000000⟩
      rw [hb]
      exact ⟨_, rfl, rfl, fillMarkers_length _ _, fillMarkers_values _ _⟩

/-- C8. For equally sized `pts1` and `pts2`, `twoPointRansac` returns, whichever return
path it takes, and `inlier_markers` then has exactly `|pts1|` entries, each 0 or 1; no
size error is logged, and empty input gives empty output. -/
theorem twoPointRansac_mask_size (cv : OpenCV) (random : Nat → Nat)
    (pts1 pts2 : List Point2f) (R_p_c : Matx33) (intrinsics : Vec4)
    (distortion_model : String) (distortion_coeffs : Vec4)
    (inlier_error success_probability : ℚ) (h : pts1.length = pts2.length) :
    ∃ out, twoPointRansac cv random pts1 pts2 R_p_c intrinsics distortion_model
        distortion_coeffs inlier_error success_probability = some out ∧
      out.error_logged = false ∧
      out.inlier_markers.length = pts1.length ∧
      (∀ m ∈ out.inlier_markers, m = 0 ∨ m = 1) ∧
      (pts1 = [] → out.inlier_markers = []) := by
  obtain ⟨out, hout, hlog, hlen, hval⟩ := twoPointRansac_mask cv random pts1 pts2 R_p_c
    intrinsics distortion_model distortion_coeffs inlier_error success_probability
    (le_of_eq h)
  refine ⟨out, hout, ?_, hlen, hval, ?_⟩
  · rw [hlog]; simp [h]
  · intro hnil
    apply List.length_eq_zero.1
    rw [hlen, hnil]; rfl

/-- C8, witness: four pairs of points. -/
theorem twoPointRansac_mask_size_witness :
    examplePts1.length = examplePts2.length ∧
    ∃ out, twoPointRansac exampleLibrary (fun n => n) examplePts1 examplePts2 Matx33.eye
        ⟨1, 1, 0, 0⟩ "radtan" ⟨0, 0, 0, 0⟩ 3 (99 / 100) = some out ∧
      out.error_logged = false ∧
      out.inlier_markers.length = examplePts1.length ∧
      (∀ m ∈ out.inlier_markers, m = 0 ∨ m = 1) ∧
      (examplePts1 = [] → out.inlier_markers = []) :=
  ⟨rfl, twoPointRansac_mask_size exampleLibrary (fun n => n) examplePts1 examplePts2
    Matx33.eye ⟨1, 1, 0, 0⟩ "radtan" ⟨0, 0, 0, 0⟩ 3 (99 / 100) rfl⟩

/-- C9 (amended). Called with `pts1` and `pts2` of different sizes, `twoPointRansac` logs
the error and goes on: when `pts2` is the longer vector it returns an inlier mask of
`|pts1|` entries, each 0 or 1. -/
theorem twoPointRansac_size_mismatch_continues (cv : OpenCV) (random : Nat → Nat)
    (pts1 pts2 : List Point2f) (R_p_c : Matx33) (intrinsics : Vec4)
    (distortion_model : String) (distortion_coeffs : Vec4)
    (inlier_error success_probability : ℚ) (h : pts1.length < pts2.length) :
    ∃ out, twoPointRansac cv random pts1 pts2 R_p_c intrinsics distortion_model
        distortion_coeffs inlier_error success_probability = some out ∧
      out.error_logged = true ∧
      out.inlier_markers.length = pts1.length ∧
      ∀ m ∈ out.inlier_markers, m = 0 ∨ m = 1 := by
  obtain ⟨out, hout, hlog, hlen, hval⟩ := twoPointRansac_mask cv random pts1 pts2 R_p_c
    intrinsics distortion_model distortion_coeffs inlier_error success_probability
    (le_of_lt h)
  refine ⟨out, hout, ?_, hlen, hval⟩
  rw [hlog]
  exact decide_eq_true (by omega)

/-- C9, witness: three previous points against four current points. -/
theorem twoPointRansac_size_mismatch_continues_witness :
    (examplePts1.take 3).length < examplePts2.length ∧
    ∃ out, twoPointRansac exampleLibrary (fun n => n) (examplePts1.take 3) examplePts2
        Matx33.eye ⟨1, 1, 0, 0⟩ "radtan" ⟨0, 0, 0, 0⟩ 3 (99 / 100) = some out ∧
      out.error_logged = true ∧
      out.inlier_markers.length = (examplePts1.take 3).length ∧
      ∀ m ∈ out.inlier_markers, m = 0 ∨ m = 1 :=
  ⟨by decide, twoPointRansac_size_mismatch_continues exampleLibrary (fun n => n)
    (examplePts1.take 3) examplePts2 Matx33.eye ⟨1, 1, 0, 0⟩ "radtan" ⟨0, 0, 0, 0⟩ 3
    (99 / 100) (by decide)⟩

/-- C9, counterexample: with one previous and two current points the sizes differ, and
`twoPointRansac` still returns a mask (of one entry) after logging the error. -/
theorem size_mismatch_returns_mask :
    ([⟨1, 1⟩] : List Point2f).length ≠ ([⟨1, 1⟩, ⟨2, 2⟩] : List Point2f).length ∧
    twoPointRansac exampleLibrary (fun n => n) [⟨1, 1⟩] [⟨1, 1⟩, ⟨2, 2⟩] Matx33.eye
      ⟨1, 1, 0, 0⟩ "radtan" ⟨0, 0, 0, 0⟩ 3 (99 / 100) = some ⟨true, [0]⟩ :=
  ⟨by decide, by decide!⟩

/-! ## The survivors of `trackFeatures` (C6) -/

theorem survivors_eq_index {α : Type} (xs : List α) (m0 m1 : List Int)
    (h0 : m0.length = xs.length) (h1 : m1.length = xs.length) :
    ((xs.zip (m0.zip m1)).filter (fun e => decide (¬ (e.2.1 = 0 ∨ e.2.2 = 0)))).map Prod.fst =
      ((List.range xs.length).filter (fun i =>
        decide (m0.getD i 0 ≠ 0 ∧ m1.getD i 0 ≠ 0))).filterMap (fun i => xs[i]?) := by
  induction xs generalizing m0 m1 with
  | nil => simp
  | cons a t ih =>
    cases m0 with
    | nil => simp at h0
    | cons b0 t0 =>
      cases m1 with
      | nil => simp at h1
      | cons b1 t1 =>
        simp only [List.length_cons, Nat.add_right_cancel_iff] at h0 h1
        rw [List.length_cons, List.range_succ_eq_map, List.zip_cons_cons,
          List.zip_cons_cons, List.filter_cons, List.filter_cons, List.filter_map]
        have hfun : ((fun i => decide ((b0 :: t0).getD i 0 ≠ 0 ∧ (b1 :: t1).getD i 0 ≠ 0)) ∘
            Nat.succ) = fun i => decide (t0.getD i 0 ≠ 0 ∧ t1.getD i 0 ≠ 0) := by
          funext i; simp
        rw [hfun]
        have hmap : List.filterMap (fun i => (a :: t)[i]?)
            (List.map Nat.succ (List.filter
              (fun i => decide (t0.getD i 0 ≠ 0 ∧ t1.getD i 0 ≠ 0)) (List.range t.length))) =
            List.filterMap (fun i => t[i]?) (List.filter
              (fun i => decide (t0.getD i 0 ≠ 0 ∧ t1.getD i 0 ≠ 0)) (List.range t.length)) := by
          rw [List.filterMap_map]
          congr 1
          funext i
          simp
        by_cases hb : b0 ≠ 0 ∧ b1 ≠ 0
        · have e1 : (fun e : α × Int × Int => decide (¬ (e.2.1 = 0 ∨ e.2.2 = 0)))
              (a, b0, b1) = true := by
            simp only [decide_eq_true_eq]; tauto
          have e2 : (fun i => decide ((b0 :: t0).getD i 0 ≠ 0 ∧ (b1 :: t1).getD i 0 ≠ 0))
              0 = true := by
            simp only [List.getD_cons_zero, decide_eq_true_eq]; exact hb
          have e3 : (a :: t)[0]? = some a := by simp
          rw [if_pos e1, if_pos e2, List.map_cons, List.filterMap_cons_some e3, hmap,
            ih t0 t1 h0 h1]
        · have e1 : ¬ (fun e : α × Int × Int => decide (¬ (e.2.1 = 0 ∨ e.2.2 = 0)))
              (a, b0, b1) = true := by
            simp only [decide_eq_true_eq]; tauto
          have e2 : ¬ (fun i => decide ((b0 :: t0).getD i 0 ≠ 0 ∧ (b1 :: t1).getD i 0 ≠ 0))
              0 = true := by
            simp only [List.getD_cons_zero, decide_eq_true_eq]; exact hb
          rw [if_neg e1, if_neg e2, hmap, ih t0 t1 h0 h1]

theorem filterMap_getElem?_length {α : Type} (xs : List α) (l : List Nat)
    (h : ∀ i ∈ l, i < xs.length) : (l.filterMap (fun i => xs[i]?)).length = l.length := by
  induction l with
  | nil => rfl
  | cons i rest ih =>
    have hi : i < xs.length := h i (List.mem_cons_self _ _)
    rw [List.filterMap_cons_some (List.getElem?_eq_getElem hi), List.length_cons,
      List.length_cons, ih (fun j hj => h j (List.mem_cons_of_mem _ hj))]

theorem pushSurvivors_flatten_perm (grid_height grid_width : Int) (cfg : ProcessorConfig)
    (m : GridFeatures) (survivors : List MatchedFeature) :
    (pushSurvivors grid_height grid_width cfg m survivors).flatten.Perm
      (m.flatten ++ survivors.map carriedFeature) := by
  unfold pushSurvivors
  induction survivors generalizing m with
  | nil => simp
  | cons e rest ih =>
    rw [List.foldl_cons, List.map_cons]
    refine (ih _).trans ?_
    have h1 : (m.modify (cellCode grid_height grid_width cfg.grid_col e.curr_cam0_point)
        (fun cell => cell ++ [carriedFeature e])).flatten.Perm
        (m.flatten ++ [carriedFeature e]) :=
      flatMap_modifyCell_perm m.cells _ [carriedFeature e]
    refine (List.Perm.append_right _ h1).trans ?_
    rw [List.append_assoc]
    rfl

theorem trackStage_lengths {cv : OpenCV} {cfg : ProcessorConfig} {cal : Calibration}
    {f : StereoFrame} {R0 R1 : Matx33} {prev : List FeatureMetaData} {stage : TrackStage}
    (h : trackStage cv cfg cal f R0 R1 prev = some stage) :
    stage.tracked = temporalTrack cv cal f R0 prev ∧
    stage.matched = stereoRematch cv cfg cal f stage.tracked ∧
    stage.cam0_ransac_inliers.length = stage.matched.length ∧
    stage.cam1_ransac_inliers.length = stage.matched.length := by
  unfold trackStage at h
  dsimp only at h
  obtain ⟨out0, h0, -, hl0, -⟩ := twoPointRansac_mask cv f.random_cam0
    ((stereoRematch cv cfg cal f (temporalTrack cv cal f R0 prev)).map
      (fun e => e.prev.cam0_point))
    ((stereoRematch cv cfg cal f (temporalTrack cv cal f R0 prev)).map
      (fun e => e.curr_cam0_point))
    R0 cal.cam0_intrinsics cal.cam0_distortion_model cal.cam0_distortion_coeffs
    cfg.ransac_threshold 0.99 (by simp)
  obtain ⟨out1, h1, -, hl1, -⟩ := twoPointRansac_mask cv f.random_cam1
    ((stereoRematch cv cfg cal f (temporalTrack cv cal f R0 prev)).map
      (fun e => e.prev.cam1_point))
    ((stereoRematch cv cfg cal f (temporalTrack cv cal f R0 prev)).map
      (fun e => e.curr_cam1_point))
    R1 cal.cam1_intrinsics cal.cam1_distortion_model cal.cam1_distortion_coeffs
    cfg.ransac_threshold 0.99 (by simp)
  rw [h0, h1] at h
  simp only [Option.some.injEq] at h
  rw [← h]
  simp only [List.length_map] at hl0 hl1
  exact ⟨rfl, rfl, hl0, hl1⟩

theorem trackFeatures_result {cv : OpenCV} {cfg : ProcessorConfig} {cal : Calibration}
    {s s' : ImageProcessor} {f : StereoFrame} (h : trackFeatures cv cfg cal s f = some s')
    (hprev : s.prev_features.flatten ≠ []) :
    ∃ grid stage,
      staticGridSize s.track_grid cfg f = some grid ∧
      trackStage cv cfg cal f
        (integrateImuData cv cal s.imu_msg_buffer s.prev_stamp f.stamp).1
        (integrateImuData cv cal s.imu_msg_buffer s.prev_stamp f.stamp).2.1
        s.prev_features.flatten = some stage ∧
      (∀ e ∈ ransacSurvivors stage.matched stage.cam0_ransac_inliers
        stage.cam1_ransac_inliers, e.prev.lifetime < 2147483647) ∧
      s' =
        { s with
          track_grid := some grid
          imu_msg_buffer :=
            (integrateImuData cv cal s.imu_msg_buffer s.prev_stamp f.stamp).2.2
          before_tracking := (s.prev_features.flatten.length : Int)
          after_tracking := (stage.tracked.length : Int)
          after_matching := (stage.matched.length : Int)
          after_ransac := ((ransacSurvivors stage.matched stage.cam0_ransac_inliers
            stage.cam1_ransac_inliers).length : Int)
          curr_features := pushSurvivors grid.1 grid.2 cfg s.curr_features
            (ransacSurvivors stage.matched stage.cam0_ransac_inliers
              stage.cam1_ransac_inliers) } := by
  unfold trackFeatures at h
  split at h
  · simp at h
  · rename_i gh gw hgrid
    dsimp only at h
    have hlen : ¬ s.prev_features.flatten.length = 0 := by
      intro h0; exact hprev (List.length_eq_zero.1 h0)
    rw [if_neg hlen] at h
    split at h
    · simp at h
    · rename_i stage hstage
      split at h
      · rename_i hcond
        simp only [Option.some.injEq] at h
        exact ⟨(gh, gw), stage, hgrid, hstage, hcond.2, h.symm⟩
      · simp at h

/-- Past the guard `prev_ids.size() == 0` (previous store not empty) the two RANSAC masks of
`trackFeatures` have one entry per stereo-matched feature, the features pushed to the
current store are exactly those of the indices `i` that both masks mark as inlier (each as
`carriedFeature`), and `after_ransac` is the number of these indices. -/
theorem trackFeatures_keeps_both_inliers (cv : OpenCV) (cfg : ProcessorConfig)
    (cal : Calibration) (s : ImageProcessor) (f : StereoFrame) (s' : ImageProcessor)
    (h : trackFeatures cv cfg cal s f = some s')
    (hprev : s.prev_features.flatten ≠ []) :
    ∃ stage,
      trackStage cv cfg cal f
        (integrateImuData cv cal s.imu_msg_buffer s.prev_stamp f.stamp).1
        (integrateImuData cv cal s.imu_msg_buffer s.prev_stamp f.stamp).2.1
        s.prev_features.flatten = some stage ∧
      stage.cam0_ransac_inliers.length = stage.matched.length ∧
      stage.cam1_ransac_inliers.length = stage.matched.length ∧
      s'.curr_features.flatten.Perm
        (s.curr_features.flatten ++
          (bothInlierIndices stage).filterMap
            (fun i => (stage.matched[i]?).map carriedFeature)) ∧
      s'.after_ransac = ((bothInlierIndices stage).length : Int) := by
  obtain ⟨grid, stage, -, hstage, -, hs'⟩ := trackFeatures_result h hprev
  obtain ⟨-, -, hl0, hl1⟩ := trackStage_lengths hstage
  have hidx : ransacSurvivors stage.matched stage.cam0_ransac_inliers
      stage.cam1_ransac_inliers =
      (bothInlierIndices stage).filterMap (fun i => stage.matched[i]?) := by
    unfold ransacSurvivors bothInlierIndices
    exact survivors_eq_index stage.matched _ _ hl0 hl1
  have hlenidx : (ransacSurvivors stage.matched stage.cam0_ransac_inliers
      stage.cam1_ransac_inliers).length = (bothInlierIndices stage).length := by
    rw [hidx]
    apply filterMap_getElem?_length
    intro i hi
    unfold bothInlierIndices at hi
    rw [List.mem_filter, List.mem_range] at hi
    exact hi.1
  refine ⟨stage, hstage, hl0, hl1, ?_, ?_⟩
  · rw [hs']
    refine (pushSurvivors_flatten_perm _ _ _ _ _).trans ?_
    rw [hidx, List.map_filterMap]
  · rw [hs', ← hlenidx]

theorem trackedSecondFrame_eq :
    trackFeatures exampleLibrary exampleConfig exampleCalibration afterFirstFrame.1
      (stillFrame 2 fourCorners) = some trackedSecondFrame := by decide!

theorem afterFirstFrame_store_ne_nil : afterFirstFrame.1.prev_features.flatten ≠ [] := by
  decide!

/-- An instance past the guard: `trackFeatures` on the second frame of the example run. -/
theorem trackFeatures_keeps_both_inliers_witness :
    (trackFeatures exampleLibrary exampleConfig exampleCalibration afterFirstFrame.1
        (stillFrame 2 fourCorners) = some trackedSecondFrame ∧
      afterFirstFrame.1.prev_features.flatten ≠ []) ∧
    ∃ stage,
      trackStage exampleLibrary exampleConfig exampleCalibration (stillFrame 2 fourCorners)
        (integrateImuData exampleLibrary exampleCalibration
          afterFirstFrame.1.imu_msg_buffer afterFirstFrame.1.prev_stamp
          (stillFrame 2 fourCorners).stamp).1
        (integrateImuData exampleLibrary exampleCalibration
          afterFirstFrame.1.imu_msg_buffer afterFirstFrame.1.prev_stamp
          (stillFrame 2 fourCorners).stamp).2.1
        afterFirstFrame.1.prev_features.flatten = some stage ∧
      stage.cam0_ransac_inliers.length = stage.matched.length ∧
      stage.cam1_ransac_inliers.length = stage.matched.length ∧
      trackedSecondFrame.curr_features.flatten.Perm
        (afterFirstFrame.1.curr_features.flatten ++
          (bothInlierIndices stage).filterMap
            (fun i => (stage.matched[i]?).map carriedFeature)) ∧
      trackedSecondFrame.after_ransac = ((bothInlierIndices stage).length : Int) :=
  ⟨⟨trackedSecondFrame_eq, afterFirstFrame_store_ne_nil⟩,
    trackFeatures_keeps_both_inliers exampleLibrary exampleConfig exampleCalibration
      afterFirstFrame.1 (stillFrame 2 fourCorners) trackedSecondFrame
      trackedSecondFrame_eq afterFirstFrame_store_ne_nil⟩

/-! ## Feature ids and lifetimes along a run (C3, C4) -/

theorem assignIds_ids (next : Nat) (chosen : List FeatureMetaData) :
    (assignIds next chosen).map (fun feature => feature.id) =
      List.range' next chosen.length := by
  induction chosen generalizing next with
  | nil => rfl
  | cons hd tl ih => simp [assignIds, ih, List.range'_succ]

theorem assignIds_lifetime (next : Nat) (chosen : List FeatureMetaData) :
    ∀ feature ∈ assignIds next chosen, feature.lifetime = 1 := by
  induction chosen generalizing next with
  | nil => intro feature h; simp [assignIds] at h
  | cons hd tl ih =>
    intro feature h
    simp only [assignIds, List.mem_cons] at h
    rcases h with h | h
    · rw [h]
    · exact ih _ feature h

theorem admitInto_admitted (s : ImageProcessor) (code : Int)
    (chosen : List FeatureMetaData) :
    Admitted s (admitInto s code chosen) (assignIds s.next_feature_id chosen) := by
  refine ⟨?_, ?_, assignIds_lifetime _ _, ?_, ?_, rfl⟩
  · exact flatMap_modifyCell_perm s.curr_features.cells code _
  · rw [assignIds_ids, assignIds_length]
  · simp [admitInto, assignIds_length]
  · simp [admitInto, assignIds_length]

theorem Admitted.trans {s s2 s3 : ImageProcessor} {a1 a2 : List FeatureMetaData}
    (h1 : Admitted s s2 a1) (h2 : Admitted s2 s3 a2) : Admitted s s3 (a1 ++ a2) := by
  obtain ⟨p1, i1, l1, n1, al1, pr1⟩ := h1
  obtain ⟨p2, i2, l2, n2, al2, pr2⟩ := h2
  refine ⟨?_, ?_, ?_, ?_, ?_, pr2.trans pr1⟩
  · refine p2.trans ?_
    rw [← List.append_assoc]
    exact List.Perm.append_right _ p1
  · rw [List.map_append, i1, i2, n1, List.length_append, List.range'_append_1,
      Nat.add_comm]
  · intro feature hf
    rcases List.mem_append.1 hf with hf | hf
    · exact l1 feature hf
    · exact l2 feature hf
  · rw [n2, n1, List.length_append]; omega
  · rw [al2, al1, n1, List.length_append, List.append_assoc, List.range'_append_1,
      Nat.add_comm]

theorem Admitted.refl (s : ImageProcessor) : Admitted s s [] := by
  refine ⟨by simp, rfl, ?_, rfl, by simp, rfl⟩
  intro feature hf; simp at hf

theorem admitted_fold (step : ImageProcessor → Nat → ImageProcessor)
    (hstep : ∀ st k, ∃ code chosen, step st k = admitInto st code chosen)
    (codes : List Nat) (s : ImageProcessor) :
    ∃ added, Admitted s (codes.foldl step s) added := by
  induction codes generalizing s with
  | nil => exact ⟨[], Admitted.refl s⟩
  | cons k rest ih =>
    obtain ⟨code, chosen, hk⟩ := hstep s k
    obtain ⟨added2, h2⟩ := ih (step s k)
    rw [List.foldl_cons]
    refine ⟨assignIds s.next_feature_id chosen ++ added2, Admitted.trans ?_ h2⟩
    rw [hk]
    exact admitInto_admitted s code chosen

theorem replenishCell_is_admitInto (cfg : ProcessorConfig) (g : GridFeatures)
    (st : ImageProcessor) (k : Nat) :
    ∃ code chosen, replenishCell cfg g st k = admitInto st code chosen := by
  unfold replenishCell
  dsimp only
  split
  · exact ⟨_, _, rfl⟩
  · exact ⟨_, _, rfl⟩

theorem pruneCell_dropped (cfg : ProcessorConfig) (cell : List FeatureMetaData) :
    ∃ dropped, (pruneCell cfg cell ++ dropped).Perm cell := by
  unfold pruneCell
  split
  · exact ⟨[], by simp⟩
  · refine ⟨(sortByLifetime cell).drop cfg.grid_max_feature_num.toNat, ?_⟩
    rw [List.take_append_drop]
    exact sortByLifetime_perm cell

theorem pruneGridFeatures_dropped (cfg : ProcessorConfig) (s : ImageProcessor) :
    ∃ dropped, ((pruneGridFeatures cfg s).curr_features.flatten ++ dropped).Perm
      s.curr_features.flatten := by
  unfold pruneGridFeatures GridFeatures.flatten
  dsimp only
  induction s.curr_features.cells with
  | nil => exact ⟨[], by simp⟩
  | cons item rest ih =>
    obtain ⟨d1, h1⟩ := pruneCell_dropped cfg item.2
    obtain ⟨d2, h2⟩ := ih
    refine ⟨d1 ++ d2, ?_⟩
    simp only [List.map_cons, List.flatMap_cons]
    rw [List.perm_iff_count] at h1 h2 ⊢
    intro a
    have e1 := h1 a
    have e2 := h2 a
    simp only [List.count_append] at e1 e2 ⊢
    omega

theorem publish_ids (cv : OpenCV) (cal : Calibration) (s : ImageProcessor) (f : StereoFrame) :
    (publish cv cal s f).features.map (fun m => m.id) = s.curr_features.ids := by
  unfold publish GridFeatures.ids
  dsimp only
  have hl0 := undistortPoints_length cv
    (s.curr_features.flatten.map (fun feature => feature.cam0_point)) cal.cam0_intrinsics
    cal.cam0_distortion_model cal.cam0_distortion_coeffs [] Matx33.eye defaultNewIntrinsics
    (fun _ => rfl)
  have hl1 := undistortPoints_length cv
    (s.curr_features.flatten.map (fun feature => feature.cam1_point)) cal.cam1_intrinsics
    cal.cam1_distortion_model cal.cam1_distortion_coeffs [] Matx33.eye defaultNewIntrinsics
    (fun _ => rfl)
  rw [List.length_map] at hl0 hl1
  have hz : ((undistortPoints cv
      (s.curr_features.flatten.map (fun feature => feature.cam0_point)) cal.cam0_intrinsics
      cal.cam0_distortion_model cal.cam0_distortion_coeffs [] Matx33.eye
      defaultNewIntrinsics).zip
      (undistortPoints cv
      (s.curr_features.flatten.map (fun feature => feature.cam1_point)) cal.cam1_intrinsics
      cal.cam1_distortion_model cal.cam1_distortion_coeffs [] Matx33.eye
      defaultNewIntrinsics)).length = s.curr_features.flatten.length := by
    rw [List.length_zip, hl0, hl1, Nat.min_self]
  generalize (undistortPoints cv
      (s.curr_features.flatten.map (fun feature => feature.cam0_point)) cal.cam0_intrinsics
      cal.cam0_distortion_model cal.cam0_distortion_coeffs [] Matx33.eye
      defaultNewIntrinsics).zip
      (undistortPoints cv
      (s.curr_features.flatten.map (fun feature => feature.cam1_point)) cal.cam1_intrinsics
      cal.cam1_distortion_model cal.cam1_distortion_coeffs [] Matx33.eye
      defaultNewIntrinsics) = pts at hz
  generalize s.curr_features.flatten = curr at hz
  induction curr generalizing pts with
  | nil => simp
  | cons c rest ih =>
    cases pts with
    | nil => simp at hz
    | cons p ps =>
      simp only [List.length_cons, Nat.add_right_cancel_iff] at hz
      simp only [List.zipWith_cons_cons, List.map_cons, ih ps hz]

theorem zipWith_map_sublist {α β γ δ : Type} (f : α → β → γ) (g : γ → δ) (h : α → δ)
    (hgf : ∀ x y, g (f x y) = h x) (xs : List α) (ys : List β) :
    ((List.zipWith f xs ys).map g).Sublist (xs.map h) := by
  induction xs generalizing ys with
  | nil => simp
  | cons x xs ih =>
    cases ys with
    | nil => simp
    | cons y ys =>
      simp only [List.zipWith_cons_cons, List.map_cons, hgf]
      exact (ih ys).cons₂ _

theorem removeUnmarkedElements_sublist {α : Type} (raw_vec : List α) (markers : List Nat) :
    (removeUnmarkedElements raw_vec markers).Sublist raw_vec := by
  unfold removeUnmarkedElements
  induction raw_vec generalizing markers with
  | nil => simp
  | cons x xs ih =>
    cases markers with
    | nil => simp
    | cons m ms =>
      rw [List.zip_cons_cons, List.filterMap_cons]
      by_cases hm : m = 0
      · simp only [hm, if_true]
        exact (ih ms).cons _
      · simp only [hm, if_false]
        exact (ih ms).cons₂ _

theorem removeUnmarkedElements_length_le {α : Type} (raw_vec : List α) (markers : List Nat) :
    (removeUnmarkedElements raw_vec markers).length ≤ raw_vec.length :=
  (removeUnmarkedElements_sublist raw_vec markers).length_le

theorem temporalTrack_prev_sublist (cv : OpenCV) (cal : Calibration) (f : StereoFrame)
    (R : Matx33) (prev : List FeatureMetaData) :
    ((temporalTrack cv cal f R prev).map (fun t => t.prev)).Sublist prev := by
  unfold temporalTrack
  dsimp only
  refine ((removeUnmarkedElements_sublist _ _).map _).trans ?_
  have h := zipWith_map_sublist TrackedFeature.mk (fun t => t.prev) id (fun _ _ => rfl) prev
    ((List.zipWith f.trackLK (prev.map (fun feature => feature.cam0_point))
      (predictFeatureTracking cv (prev.map (fun feature => feature.cam0_point)) R
        cal.cam0_intrinsics)).map Prod.fst)
  simpa using h

theorem stereoRematch_prev_sublist (cv : OpenCV) (cfg : ProcessorConfig) (cal : Calibration)
    (f : StereoFrame) (tracked : List TrackedFeature) :
    ((stereoRematch cv cfg cal f tracked).map (fun e => e.prev)).Sublist
      (tracked.map (fun t => t.prev)) := by
  unfold stereoRematch
  dsimp only
  refine ((removeUnmarkedElements_sublist _ _).map _).trans ?_
  exact zipWith_map_sublist _ (fun (e : MatchedFeature) => e.prev)
    (fun (t : TrackedFeature) => t.prev) (fun _ _ => rfl) tracked _

theorem ransacSurvivors_sublist (matched : List MatchedFeature) (m0 m1 : List Int) :
    (ransacSurvivors matched m0 m1).Sublist matched := by
  unfold ransacSurvivors
  refine ((List.filter_sublist _).map _).trans ?_
  have h := zipWith_map_sublist (Prod.mk : MatchedFeature → Int × Int → _) Prod.fst id
    (fun _ _ => rfl) matched (m0.zip m1)
  simpa [List.zip] using h

theorem trackFeatures_summary {cv : OpenCV} {cfg : ProcessorConfig} {cal : Calibration}
    {s s1 : ImageProcessor} {f : StereoFrame} (h : trackFeatures cv cfg cal s f = some s1) :
    s1.next_feature_id = s.next_feature_id ∧ s1.allocated = s.allocated ∧
    s1.prev_features = s.prev_features ∧
    ∃ carried : List MatchedFeature,
      (carried.map (fun e => e.prev)).Sublist s.prev_features.flatten ∧
      s1.curr_features.flatten.Perm
        (s.curr_features.flatten ++ carried.map carriedFeature) ∧
      s1.before_tracking = (s.prev_features.flatten.length : Int) ∧
      (s.prev_features.flatten ≠ [] →
        s1.after_ransac = (carried.length : Int) ∧
        s1.after_ransac ≤ s1.after_matching ∧ s1.after_matching ≤ s1.after_tracking ∧
        s1.after_tracking ≤ s1.before_tracking) := by
  by_cases hprev : s.prev_features.flatten = []
  · unfold trackFeatures at h
    split at h
    · simp at h
    · dsimp only at h
      rw [if_pos (by rw [hprev]; rfl)] at h
      simp only [Option.some.injEq] at h
      rw [← h]
      refine ⟨rfl, rfl, rfl, [], by simp, by simp, rfl, fun hne => absurd hprev hne⟩
  · obtain ⟨grid, stage, -, hstage, -, hs1⟩ := trackFeatures_result h hprev
    obtain ⟨htr, hma, -, -⟩ := trackStage_lengths hstage
    have hsub1 := ransacSurvivors_sublist stage.matched stage.cam0_ransac_inliers
      stage.cam1_ransac_inliers
    have hsub2 := stereoRematch_prev_sublist cv cfg cal f stage.tracked
    have hsub3 := temporalTrack_prev_sublist cv cal f
      (integrateImuData cv cal s.imu_msg_buffer s.prev_stamp f.stamp).1
      s.prev_features.flatten
    rw [← hma] at hsub2
    rw [← htr] at hsub3
    rw [hs1]
    refine ⟨rfl, rfl, rfl, ransacSurvivors stage.matched stage.cam0_ransac_inliers
      stage.cam1_ransac_inliers, ?_, pushSurvivors_flatten_perm _ _ _ _ _, rfl, fun _ => ?_⟩
    · exact ((hsub1.map _).trans hsub2).trans hsub3
    · have l1 := hsub1.length_le
      have l2 := hsub2.length_le
      have l3 := hsub3.length_le
      simp only [List.length_map] at l2 l3
      refine ⟨rfl, ?_, ?_, ?_⟩
      · exact Int.ofNat_le.2 l1
      · exact Int.ofNat_le.2 l2
      · exact Int.ofNat_le.2 l3

theorem initializeFirstFrame_admitted {cv : OpenCV} {cfg : ProcessorConfig}
    {cal : Calibration} {s s1 : ImageProcessor} {f : StereoFrame}
    (h : initializeFirstFrame cv cfg cal s f = some s1) : ∃ added, Admitted s s1 added := by
  unfold initializeFirstFrame at h
  split at h
  · simp at h
  · dsimp only at h
    split at h
    · simp only [Option.some.injEq] at h
      rw [← h]
      exact admitted_fold _ (fun st k => ⟨_, _, rfl⟩) _ s
    · simp at h

theorem addNewFeatures_admitted {cv : OpenCV} {cfg : ProcessorConfig}
    {cal : Calibration} {s s2 : ImageProcessor} {f : StereoFrame}
    (h : addNewFeatures cv cfg cal s f = some s2) : ∃ added, Admitted s s2 added := by
  unfold addNewFeatures at h
  split at h
  · simp at h
  · rename_i gh gw _
    dsimp only at h
    split at h
    · simp at h
    · simp only [Option.some.injEq] at h
      rw [← h]
      obtain ⟨added, ha⟩ := admitted_fold _ (replenishCell_is_admitInto cfg _)
        (List.range (cfg.grid_row * cfg.grid_col).toNat)
        { s with add_grid := some (gh, gw) }
      exact ⟨added, ha⟩

theorem processFrame_effect {cv : OpenCV} {cfg : ProcessorConfig} {cal : Calibration}
    {s s1 : ImageProcessor} {f : StereoFrame} (h : processFrame cv cfg cal s f = some s1)
    (hcurr : s.curr_features.flatten = []) :
    ∃ carried added dropped, FrameEffect s s1 carried added dropped := by
  unfold processFrame at h
  by_cases hf : s.is_first_img = true
  · rw [if_pos hf] at h
    split at h
    · simp at h
    · rename_i s2 hs2
      simp only [Option.some.injEq] at h
      obtain ⟨added, hp, hi, hl, hn, ha, -⟩ := initializeFirstFrame_admitted hs2
      rw [hcurr] at hp
      rw [← h]
      exact ⟨[], added, [], by simp, by simpa using hp, hi, hl, hn, ha⟩
  · rw [if_neg hf] at h
    split at h
    · simp at h
    · rename_i s2 hs2
      split at h
      · simp at h
      · rename_i s3 hs3
        simp only [Option.some.injEq] at h
        obtain ⟨hn2, ha2, hp2, carried, hsub, hperm, -⟩ := trackFeatures_summary hs2
        obtain ⟨added, hp, hi, hl, hn, ha, -⟩ := addNewFeatures_admitted hs3
        obtain ⟨dropped, hd⟩ := pruneGridFeatures_dropped cfg s3
        rw [hcurr, List.nil_append] at hperm
        rw [← h]
        refine ⟨carried, added, dropped, hsub, ?_, ?_, hl, ?_, ?_⟩
        · exact hd.trans (hp.trans (List.Perm.append_right _ hperm))
        · rw [hi, hn2]
        · simp only [pruneGridFeatures]; rw [hn, hn2]
        · simp only [pruneGridFeatures]; rw [ha, ha2, hn2]

theorem consecutiveFrames_cons_of_mem (id : Nat) (m : GridFeatures)
    (history : List GridFeatures) (h : id ∈ m.ids) :
    consecutiveFrames id (m :: history) = consecutiveFrames id history + 1 := by
  unfold consecutiveFrames
  rw [List.takeWhile_cons_of_pos (by simpa using h), List.length_cons]

theorem consecutiveFrames_eq_zero (id : Nat) (history : List GridFeatures)
    (h : ∀ m ∈ history, id ∉ m.ids) : consecutiveFrames id history = 0 := by
  unfold consecutiveFrames
  cases history with
  | nil => rfl
  | cons m rest =>
    rw [List.takeWhile_cons_of_neg (by simpa using h m (List.mem_cons_self _ _))]
    rfl

theorem frameEffect_mem {s s1 : ImageProcessor} {carried : List MatchedFeature}
    {added dropped : List FeatureMetaData} (he : FrameEffect s s1 carried added dropped)
    (feature : FeatureMetaData) (hmem : feature ∈ s1.curr_features.flatten) :
    (∃ old ∈ s.prev_features.flatten, feature.id = old.id ∧
      feature.lifetime = old.lifetime + 1) ∨
    (s.next_feature_id ≤ feature.id ∧ feature.id < s1.next_feature_id ∧
      feature.lifetime = 1) := by
  obtain ⟨hsub, hperm, hids, hlife, hnext, -⟩ := he
  have hm : feature ∈ carried.map carriedFeature ++ added :=
    hperm.subset (List.mem_append_left _ hmem)
  rcases List.mem_append.1 hm with hc | ha
  · left
    obtain ⟨e, he, rfl⟩ := List.mem_map.1 hc
    exact ⟨e.prev, hsub.subset (List.mem_map_of_mem _ he), rfl, rfl⟩
  · right
    have hid : feature.id ∈ List.range' s.next_feature_id added.length := by
      rw [← hids]; exact List.mem_map_of_mem _ ha
    rw [List.mem_range'_1] at hid
    exact ⟨hid.1, by omega, hlife feature ha⟩

theorem frameEffect_nodup {s s1 : ImageProcessor} {carried : List MatchedFeature}
    {added dropped : List FeatureMetaData} (he : FrameEffect s s1 carried added dropped)
    (hnd : s.prev_features.ids.Nodup)
    (hlt : ∀ id ∈ s.prev_features.ids, id < s.next_feature_id) :
    s1.curr_features.ids.Nodup := by
  obtain ⟨hsub, hperm, hids, -, -, -⟩ := he
  have h1 : ((carried.map carriedFeature).map (fun feature => feature.id)).Sublist
      s.prev_features.ids := by
    have := hsub.map (fun feature : FeatureMetaData => feature.id)
    simpa [GridFeatures.ids, carriedFeature, Function.comp] using this
  have hall : ((carried.map carriedFeature ++ added).map (fun feature => feature.id)).Nodup := by
    rw [List.map_append, hids]
    refine List.nodup_append.2 ⟨hnd.sublist h1, List.nodup_range' _ _, ?_⟩
    intro id hid1 hid2
    have := hlt id (h1.subset hid1)
    rw [List.mem_range'_1] at hid2
    omega
  have hall2 := ((hperm.map (fun feature => feature.id)).nodup_iff).2 hall
  rw [List.map_append] at hall2
  exact (List.nodup_append.1 hall2).1

theorem frame_preserves_invariant {cv : OpenCV} {cfg : ProcessorConfig} {cal : Calibration}
    {s s' : ImageProcessor} {history : List GridFeatures} {f : StereoFrame}
    {out : Published} (hinv : RunInvariant s history)
    (h : stereoCallback cv cfg cal s f = some (s', out)) :
    RunInvariant s' (s'.prev_features :: history) := by
  obtain ⟨hcurr, hpw, halloc, hhist, hnd, hlt, -, hhead, hlife⟩ := hinv
  obtain ⟨s1, hs1, hprev, -, hnext, hal, -, hcurr'⟩ := stereoCallback_prev_features h
  obtain ⟨carried, added, dropped, he⟩ := processFrame_effect hs1 hcurr
  have hmem := frameEffect_mem he
  have hnd1 := frameEffect_nodup he hnd hlt
  obtain ⟨-, -, -, -, hn1, ha1⟩ := he
  have hidlt : ∀ id ∈ s1.curr_features.ids, id < s1.next_feature_id := by
    intro id hid
    obtain ⟨feature, hfm, rfl⟩ := List.mem_map.1 hid
    rcases hmem feature hfm with ⟨old, hold, hide, -⟩ | ⟨-, hlt', -⟩
    · have := hlt old.id (List.mem_map_of_mem _ hold)
      omega
    · exact hlt'
  refine ⟨?_, ?_, ?_, ?_, ?_, ?_, ?_, ?_, ?_⟩
  · rw [hcurr']
    simp [GridFeatures.flatten, GridFeatures.empty]
  · rw [hal, ha1]
    refine List.pairwise_append.2 ⟨hpw, List.pairwise_lt_range' _ _, ?_⟩
    intro a ha b hb
    have := halloc a ha
    rw [List.mem_range'_1] at hb
    omega
  · rw [hal, ha1, hnext, hn1]
    intro a ha
    rcases List.mem_append.1 ha with ha | ha
    · have := halloc a ha; omega
    · rw [List.mem_range'_1] at ha; omega
  · intro m hm id hid
    rw [hnext]
    rcases List.mem_cons.1 hm with hm | hm
    · rw [hm, hprev] at hid
      exact hidlt id hid
    · have := hhist m hm id hid
      omega
  · rw [hprev]; exact hnd1
  · rw [hprev, hnext]; exact hidlt
  · intro hnil; simp at hnil
  · intro m rest hm
    simp only [List.cons.injEq] at hm
    exact hm.1.symm
  · intro feature hfm
    rw [hprev] at hfm
    have hin : feature.id ∈ s'.prev_features.ids := by
      rw [hprev]; exact List.mem_map_of_mem _ hfm
    rw [consecutiveFrames_cons_of_mem _ _ _ hin]
    rcases hmem feature hfm with ⟨old, hold, hide, hl⟩ | ⟨hge, -, hl⟩
    · rw [hl, hide, hlife old hold]
      push_cast
      ring
    · rw [hl, consecutiveFrames_eq_zero]
      · rfl
      · intro m hm hid
        have := hhist m hm _ hid
        omega

theorem run_invariant {cv : OpenCV} {cfg : ProcessorConfig} {cal : Calibration}
    {s : ImageProcessor} {history : List GridFeatures} (hrun : Run cv cfg cal s history) :
    RunInvariant s history := by
  induction hrun with
  | construct id0 c0 c1 c2 c3 =>
    simp [RunInvariant, ImageProcessor.construct, GridFeatures.flatten, GridFeatures.ids]
  | imu msg _ ih =>
    unfold imuCallback
    split
    · exact ih
    · exact ih
  | frame f s' out _ h ih => exact frame_preserves_invariant ih h

/-- C3. Along every run: the ids handed out so far are strictly increasing in the order
of allocation; a frame appends the ids `next_feature_id, next_feature_id + 1, ...` to
them; the ids of the published store, which are the ids of the published message, are
pairwise distinct; and each of them is either an id of the previous store or a newly
handed-out id, larger than every id handed out before the frame. -/
theorem feature_ids_unique_and_increasing (cv : OpenCV) (cfg : ProcessorConfig)
    (cal : Calibration) (s : ImageProcessor) (history : List GridFeatures)
    (f : StereoFrame) (s' : ImageProcessor) (out : Published)
    (hrun : Run cv cfg cal s history)
    (h : stereoCallback cv cfg cal s f = some (s', out)) :
    s'.allocated.Pairwise (fun a b => a < b) ∧
    (∃ k, s'.allocated = s.allocated ++ List.range' s.next_feature_id k ∧
      s'.next_feature_id = s.next_feature_id + k) ∧
    s'.prev_features.ids.Nodup ∧
    out.features.map (fun m => m.id) = s'.prev_features.ids ∧
    ∀ id ∈ s'.prev_features.ids,
      id ∈ s.prev_features.ids ∨
      (id ∈ s'.allocated ∧ id ∉ s.allocated ∧ ∀ a ∈ s.allocated, a < id) := by
  have hinv := run_invariant hrun
  have hinv' := frame_preserves_invariant hinv h
  obtain ⟨hcurr, -, halloc, -, -, -, -, -, -⟩ := hinv
  obtain ⟨-, hpw', -, -, hnd', -, -, -, -⟩ := hinv'
  obtain ⟨s1, hs1, hprev, -, hnext, hal, hout, -⟩ := stereoCallback_prev_features h
  obtain ⟨carried, added, dropped, he⟩ := processFrame_effect hs1 hcurr
  have hmem := frameEffect_mem he
  obtain ⟨-, -, -, -, hn1, ha1⟩ := he
  refine ⟨hpw', ⟨added.length, by rw [hal, ha1], by rw [hnext, hn1]⟩, hnd', ?_, ?_⟩
  · rw [hout, publish_ids, hprev]
  · intro id hid
    rw [hprev] at hid
    obtain ⟨feature, hfm, rfl⟩ := List.mem_map.1 hid
    rcases hmem feature hfm with ⟨old, hold, hide, -⟩ | ⟨hge, hlt', -⟩
    · left
      rw [hide]
      exact List.mem_map_of_mem _ hold
    · right
      refine ⟨?_, ?_, ?_⟩
      · rw [hal, ha1]
        refine List.mem_append_right _ ?_
        rw [List.mem_range'_1]; omega
      · intro hin
        have := halloc _ hin
        omega
      · intro a ha
        have := halloc a ha
        omega

/-- C4. Along every run: every feature that `trackFeatures` puts into the current store
has the id of a feature of the previous store and a lifetime larger by exactly one; every
feature added by `addNewFeatures` or by `initializeFirstFrame` has lifetime 1; and the
lifetime of every feature of the published store is the number of consecutive frames, up
to this one, whose published store holds its id. -/
theorem lifetime_counts_consecutive_frames (cv : OpenCV) (cfg : ProcessorConfig)
    (cal : Calibration) (s : ImageProcessor) (history : List GridFeatures)
    (f : StereoFrame) (s' : ImageProcessor) (out : Published)
    (hrun : Run cv cfg cal s history)
    (h : stereoCallback cv cfg cal s f = some (s', out)) :
    (∀ s1, trackFeatures cv cfg cal s f = some s1 →
      ∀ feature ∈ s1.curr_features.flatten,
        ∃ old ∈ s.prev_features.flatten,
          feature.id = old.id ∧ feature.lifetime = old.lifetime + 1) ∧
    (∀ s1 s2, addNewFeatures cv cfg cal s1 f = some s2 →
      ∃ added, s2.curr_features.flatten.Perm (s1.curr_features.flatten ++ added) ∧
        ∀ feature ∈ added, feature.lifetime = 1) ∧
    (∀ s1, initializeFirstFrame cv cfg cal s f = some s1 →
      ∀ feature ∈ s1.curr_features.flatten, feature.lifetime = 1) ∧
    (∀ feature ∈ s'.prev_features.flatten,
      (∃ old ∈ s.prev_features.flatten,
        feature.id = old.id ∧ feature.lifetime = old.lifetime + 1) ∨
      (s.next_feature_id ≤ feature.id ∧ feature.lifetime = 1)) ∧
    ∀ feature ∈ s'.prev_features.flatten,
      feature.lifetime =
        (consecutiveFrames feature.id (s'.prev_features :: history) : Int) := by
  have hinv := run_invariant hrun
  have hinv' := frame_preserves_invariant hinv h
  obtain ⟨hcurr, -, -, -, -, -, -, -, -⟩ := hinv
  obtain ⟨-, -, -, -, -, -, -, -, hlife'⟩ := hinv'
  obtain ⟨s1, hs1, hprev, -, -, -, -, -⟩ := stereoCallback_prev_features h
  obtain ⟨carried, added, dropped, he⟩ := processFrame_effect hs1 hcurr
  refine ⟨?_, ?_, ?_, ?_, hlife'⟩
  · intro s2 hs2 feature hfm
    obtain ⟨-, -, -, carried2, hsub, hperm, -⟩ := trackFeatures_summary hs2
    rw [hcurr, List.nil_append] at hperm
    obtain ⟨e, he2, rfl⟩ := List.mem_map.1 (hperm.subset hfm)
    exact ⟨e.prev, hsub.subset (List.mem_map_of_mem _ he2), rfl, rfl⟩
  · intro s2 s3 hs3
    obtain ⟨added3, hp, -, hl, -⟩ := addNewFeatures_admitted hs3
    exact ⟨added3, hp, hl⟩
  · intro s2 hs2 feature hfm
    obtain ⟨added2, hp, -, hl, -⟩ := initializeFirstFrame_admitted hs2
    rw [hcurr, List.nil_append] at hp
    exact hl feature (hp.subset hfm)
  · intro feature hfm
    rw [hprev] at hfm
    rcases frameEffect_mem he feature hfm with hc | ⟨hge, -, hl⟩
    · exact Or.inl hc
    · exact Or.inr ⟨hge, hl⟩

/-- C3, witness: the second frame of the example run. -/
theorem feature_ids_unique_and_increasing_witness :
    (Run exampleLibrary exampleConfig exampleCalibration afterFirstFrame.1
        [afterFirstFrame.1.prev_features] ∧
      stereoCallback exampleLibrary exampleConfig exampleCalibration afterFirstFrame.1
        (stillFrame 2 fourCorners) = some (afterSecondFrame.1, afterSecondFrame.2)) ∧
    (afterSecondFrame.1.allocated.Pairwise (fun a b => a < b) ∧
    (∃ k, afterSecondFrame.1.allocated =
        afterFirstFrame.1.allocated ++ List.range' afterFirstFrame.1.next_feature_id k ∧
      afterSecondFrame.1.next_feature_id = afterFirstFrame.1.next_feature_id + k) ∧
    afterSecondFrame.1.prev_features.ids.Nodup ∧
    afterSecondFrame.2.features.map (fun m => m.id) = afterSecondFrame.1.prev_features.ids ∧
    ∀ id ∈ afterSecondFrame.1.prev_features.ids,
      id ∈ afterFirstFrame.1.prev_features.ids ∨
      (id ∈ afterSecondFrame.1.allocated ∧ id ∉ afterFirstFrame.1.allocated ∧
        ∀ a ∈ afterFirstFrame.1.allocated, a < id)) :=
  ⟨⟨run_afterFirstFrame, afterSecondFrame_eq⟩,
    feature_ids_unique_and_increasing exampleLibrary exampleConfig exampleCalibration
      afterFirstFrame.1 [afterFirstFrame.1.prev_features] (stillFrame 2 fourCorners)
      afterSecondFrame.1 afterSecondFrame.2 run_afterFirstFrame afterSecondFrame_eq⟩

/-- C4, witness: the second frame of the example run. -/
theorem lifetime_counts_consecutive_frames_witness :
    (Run exampleLibrary exampleConfig exampleCalibration afterFirstFrame.1
        [afterFirstFrame.1.prev_features] ∧
      stereoCallback exampleLibrary exampleConfig exampleCalibration afterFirstFrame.1
        (stillFrame 2 fourCorners) = some (afterSecondFrame.1, afterSecondFrame.2)) ∧
    ((∀ s1, trackFeatures exampleLibrary exampleConfig exampleCalibration afterFirstFrame.1
        (stillFrame 2 fourCorners) = some s1 →
      ∀ feature ∈ s1.curr_features.flatten,
        ∃ old ∈ afterFirstFrame.1.prev_features.flatten,
          feature.id = old.id ∧ feature.lifetime = old.lifetime + 1) ∧
    (∀ s1 s2, addNewFeatures exampleLibrary exampleConfig exampleCalibration s1
        (stillFrame 2 fourCorners) = some s2 →
      ∃ added, s2.curr_features.flatten.Perm (s1.curr_features.flatten ++ added) ∧
        ∀ feature ∈ added, feature.lifetime = 1) ∧
    (∀ s1, initializeFirstFrame exampleLibrary exampleConfig exampleCalibration
        afterFirstFrame.1 (stillFrame 2 fourCorners) = some s1 →
      ∀ feature ∈ s1.curr_features.flatten, feature.lifetime = 1) ∧
    (∀ feature ∈ afterSecondFrame.1.prev_features.flatten,
      (∃ old ∈ afterFirstFrame.1.prev_features.flatten,
        feature.id = old.id ∧ feature.lifetime = old.lifetime + 1) ∨
      (afterFirstFrame.1.next_feature_id ≤ feature.id ∧ feature.lifetime = 1)) ∧
    ∀ feature ∈ afterSecondFrame.1.prev_features.flatten,
      feature.lifetime =
        (consecutiveFrames feature.id
          (afterSecondFrame.1.prev_features :: [afterFirstFrame.1.prev_features]) : Int)) :=
  ⟨⟨run_afterFirstFrame, afterSecondFrame_eq⟩,
    lifetime_counts_consecutive_frames exampleLibrary exampleConfig exampleCalibration
      afterFirstFrame.1 [afterFirstFrame.1.prev_features] (stillFrame 2 fourCorners)
      afterSecondFrame.1 afterSecondFrame.2 run_afterFirstFrame afterSecondFrame_eq⟩

/-! ## Replenishing (C5) -/

theorem lookupCell_of_all_nil (cells : List (Int × List FeatureMetaData)) (c : Int)
    (h : ∀ item ∈ cells, item.2 = []) : lookupCell cells c = [] := by
  induction cells with
  | nil => rfl
  | cons hd rest ih =>
    obtain ⟨k, cell⟩ := hd
    unfold lookupCell
    split
    · exact h (k, cell) (List.mem_cons_self _ _)
    · exact ih (fun item hitem => h item (List.mem_cons_of_mem _ hitem))

theorem get_empty (n c : Int) : (GridFeatures.empty n).get c = [] := by
  apply lookupCell_of_all_nil
  intro item hitem
  simp only [GridFeatures.empty, List.mem_map] at hitem
  obtain ⟨_, _, rfl⟩ := hitem
  rfl

theorem get_modify (m : GridFeatures) (code : Int)
    (g : List FeatureMetaData → List FeatureMetaData) (c : Int) :
    (m.modify code g).get c = if c = code then g (m.get code) else m.get c :=
  lookupCell_modifyCell m.cells code g c

theorem get_group_fold (grid_height grid_width : Int) (cfg : ProcessorConfig)
    (features : List FeatureMetaData) (m : GridFeatures) (c : Int) :
    (features.foldl
      (fun m feature =>
        m.modify (cellCode grid_height grid_width cfg.grid_col feature.cam0_point)
          (fun cell => cell ++ [feature])) m).get c =
      m.get c ++ features.filter (fun feature =>
        decide (cellCode grid_height grid_width cfg.grid_col feature.cam0_point = c)) := by
  induction features generalizing m with
  | nil => simp
  | cons hd tl ih =>
    rw [List.foldl_cons, ih, get_modify, List.filter_cons]
    by_cases hc : cellCode grid_height grid_width cfg.grid_col hd.cam0_point = c
    · simp [hc]
    · have hc' : ¬ c = cellCode grid_height grid_width cfg.grid_col hd.cam0_point :=
        fun e => hc e.symm
      simp [hc, hc']

theorem get_groupIntoGrids (grid_height grid_width : Int) (cfg : ProcessorConfig)
    (features : List FeatureMetaData) (c : Int) :
    (groupIntoGrids grid_height grid_width cfg features).get c =
      features.filter (fun feature =>
        decide (cellCode grid_height grid_width cfg.grid_col feature.cam0_point = c)) := by
  unfold groupIntoGrids
  rw [get_group_fold, get_empty, List.nil_append]

theorem get_sortGrids (m : GridFeatures) (c : Int) :
    (sortGrids m).get c = sortByResponse (m.get c) := by
  unfold sortGrids GridFeatures.get
  dsimp only
  induction m.cells with
  | nil => rfl
  | cons hd rest ih =>
    obtain ⟨k, cell⟩ := hd
    simp only [List.map_cons, lookupCell]
    split
    · rfl
    · exact ih

theorem collectInliers_point (new_features : List KeyPoint) (cam1_points : List Point2f)
    (inlier_markers : List Nat) :
    ∀ cand ∈ collectInliers new_features cam1_points inlier_markers,
      ∃ kp ∈ new_features, cand.cam0_point = kp.pt := by
  intro cand hc
  simp only [collectInliers, List.mem_filterMap] at hc
  obtain ⟨e, he, hsome⟩ := hc
  split at hsome
  · simp at hsome
  · simp only [Option.some.injEq] at hsome
    refine ⟨e.1.1, ?_, by rw [← hsome]⟩
    obtain ⟨⟨kp, p⟩, mk⟩ := e
    exact (List.of_mem_zip (List.of_mem_zip he).1).1

theorem capSieveItem_subset (cfg : ProcessorConfig) (item : List KeyPoint) :
    ∀ kp ∈ capSieveItem cfg item, kp ∈ item := by
  intro kp hk
  unfold capSieveItem at hk
  split at hk
  · exact (List.perm_insertionSort _ item).subset (List.mem_of_mem_take hk)
  · exact hk

theorem sievedDetections_code {grid_height grid_width : Int} {cfg : ProcessorConfig}
    {detected new_features : List KeyPoint}
    (h : sievedDetections grid_height grid_width cfg detected = some new_features) :
    ∀ kp ∈ new_features,
      0 ≤ cellCode grid_height grid_width cfg.grid_col kp.pt ∧
      cellCode grid_height grid_width cfg.grid_col kp.pt <
        ((cfg.grid_row * cfg.grid_col).toNat : Int) := by
  unfold sievedDetections at h
  split at h
  · rename_i hcond
    simp only [Option.some.injEq] at h
    intro kp hk
    rw [← h] at hk
    simp only [List.mem_flatMap, List.mem_map] at hk
    obtain ⟨item, ⟨item0, hitem0, rfl⟩, hkp⟩ := hk
    have hin := capSieveItem_subset cfg item0 kp hkp
    simp only [newFeatureSieve, List.mem_map] at hitem0
    obtain ⟨code, _, rfl⟩ := hitem0
    exact hcond.2.2 kp (List.mem_filter.1 hin).1
  · simp at h

theorem availableNew_outside {cv : OpenCV} {cfg : ProcessorConfig} {cal : Calibration}
    {s : ImageProcessor} {f : StereoFrame} (c : Int)
    (hc : ¬ (0 ≤ c ∧ c < ((cfg.grid_row * cfg.grid_col).toNat : Int))) :
    availableNew cv cfg cal s f c = 0 := by
  unfold availableNew
  split
  · rfl
  · split
    · rfl
    · rename_i new_features hs
      rw [List.length_eq_zero, List.filter_eq_nil_iff]
      intro cand hcand
      obtain ⟨kp, hkp, hpt⟩ := collectInliers_point _ _ _ cand hcand
      have := sievedDetections_code hs kp (by simpa using hkp)
      rw [hpt]
      simp only [decide_eq_true_eq]
      intro heq
      rw [heq] at this
      exact hc this

theorem get_admitInto (st : ImageProcessor) (code : Int) (chosen : List FeatureMetaData)
    (c : Int) :
    (admitInto st code chosen).curr_features.get c =
      if c = code then st.curr_features.get code ++ assignIds st.next_feature_id chosen
      else st.curr_features.get c := by
  simp only [admitInto]
  exact get_modify st.curr_features code _ c

theorem replenishCell_get (cfg : ProcessorConfig) (g : GridFeatures) (st : ImageProcessor)
    (k : Nat) (h0 : 0 ≤ cfg.grid_min_feature_num)
    (h1 : cfg.grid_min_feature_num < 2147483648) :
    ReplenishedCell cfg (g.get k).length (st.curr_features.get k)
      ((replenishCell cfg g st k).curr_features.get k) ∧
    ∀ c : Int, c ≠ (k : Int) →
      (replenishCell cfg g st k).curr_features.get c = st.curr_features.get c := by
  unfold replenishCell
  dsimp only
  rw [toSizeT_of_nonneg _ h0 h1]
  split
  · rename_i hle
    refine ⟨⟨fun hlt => by omega, fun _ => ?_⟩, fun c hc => ?_⟩
    · rw [get_admitInto, if_pos rfl]; simp [assignIds]
    · rw [get_admitInto, if_neg hc]
  · rename_i hlt
    have hv : toInt32 (cfg.grid_min_feature_num - ((st.curr_features.get k).length : Int)) =
        cfg.grid_min_feature_num - ((st.curr_features.get k).length : Int) :=
      toInt32_of_range _ (by omega) (by omega)
    rw [hv]
    refine ⟨⟨fun _ => ⟨assignIds st.next_feature_id ((g.get k).take
      (cfg.grid_min_feature_num - ((st.curr_features.get k).length : Int)).toNat), ?_, ?_⟩,
      fun hle => by omega⟩, fun c hc => ?_⟩
    · rw [get_admitInto, if_pos rfl]
    · rw [assignIds_length, List.length_take]
      omega
    · rw [get_admitInto, if_neg hc]

theorem replenish_fold (cfg : ProcessorConfig) (g : GridFeatures) (s0 : ImageProcessor)
    (h0 : 0 ≤ cfg.grid_min_feature_num) (h1 : cfg.grid_min_feature_num < 2147483648)
    (n : Nat) (c : Int) :
    ((0 ≤ c ∧ c < (n : Int)) →
      ReplenishedCell cfg (g.get c).length (s0.curr_features.get c)
        (((List.range n).foldl (replenishCell cfg g) s0).curr_features.get c)) ∧
    (¬ (0 ≤ c ∧ c < (n : Int)) →
      ((List.range n).foldl (replenishCell cfg g) s0).curr_features.get c =
        s0.curr_features.get c) := by
  have key := foldl_range_invariant
    (fun (k : Nat) (st : ImageProcessor) => ∀ c : Int,
      ((0 ≤ c ∧ c < (k : Int)) →
        ReplenishedCell cfg (g.get c).length (s0.curr_features.get c)
          (st.curr_features.get c)) ∧
      (¬ (0 ≤ c ∧ c < (k : Int)) → st.curr_features.get c = s0.curr_features.get c))
    (replenishCell cfg g) s0 ?_ ?_ n
  · exact key c
  · intro c
    exact ⟨fun h => by omega, fun _ => rfl⟩
  · intro k st ih c
    obtain ⟨hk, hother⟩ := replenishCell_get cfg g st k h0 h1
    by_cases hck : c = (k : Int)
    · subst hck
      have hunv := (ih (k : Int)).2 (by omega)
      rw [hunv] at hk
      exact ⟨fun _ => hk, fun h => by omega⟩
    · rw [hother c hck]
      constructor
      · intro h
        exact (ih c).1 (by omega)
      · intro h
        exact (ih c).2 (by omega)

/-- C5. After `addNewFeatures` (for a non-negative `int` `grid_min_feature_num`) every
cell `c` is replenished as `ReplenishedCell` says, with `availableNew c` the number of
new stereo-verified candidates bucketed into `c`: a cell that held `k < grid_min_feature_num`
features keeps them and gains `min (grid_min_feature_num - k) (availableNew c)` new ones, a
cell with `k ≥ grid_min_feature_num` is unchanged; so the cell ends with at least
`min grid_min_feature_num (availableNew c)` features. -/
theorem addNewFeatures_replenishes (cv : OpenCV) (cfg : ProcessorConfig) (cal : Calibration)
    (s : ImageProcessor) (f : StereoFrame) (s' : ImageProcessor)
    (h : addNewFeatures cv cfg cal s f = some s')
    (h0 : 0 ≤ cfg.grid_min_feature_num) (h1 : cfg.grid_min_feature_num < 2147483648)
    (c : Int) :
    ReplenishedCell cfg (availableNew cv cfg cal s f c) (s.curr_features.get c)
      (s'.curr_features.get c) ∧
    min cfg.grid_min_feature_num (availableNew cv cfg cal s f c : Int) ≤
      ((s'.curr_features.get c).length : Int) := by
  have hrep : ReplenishedCell cfg (availableNew cv cfg cal s f c) (s.curr_features.get c)
      (s'.curr_features.get c) := by
    have hout := @availableNew_outside cv cfg cal s f c
    unfold addNewFeatures at h
    split at h
    · simp at h
    · rename_i gh gw hgrid
      dsimp only at h
      split at h
      · simp at h
      · rename_i new_features hs
        have hav : availableNew cv cfg cal s f c =
            ((newCandidates cv cfg cal f new_features).filter (fun feature =>
              decide (cellCode gh gw cfg.grid_col feature.cam0_point = c))).length := by
          unfold availableNew
          rw [hgrid]
          dsimp only
          rw [hs]
        simp only [Option.some.injEq] at h
        rw [← h]
        have hfold := replenish_fold cfg
          (sortGrids (groupIntoGrids gh gw cfg (newCandidates cv cfg cal f new_features)))
          { s with add_grid := some (gh, gw) } h0 h1 (cfg.grid_row * cfg.grid_col).toNat c
        have hlen : ((sortGrids (groupIntoGrids gh gw cfg
            (newCandidates cv cfg cal f new_features))).get c).length =
            availableNew cv cfg cal s f c := by
          rw [get_sortGrids, (sortByResponse_perm _).length_eq, get_groupIntoGrids, hav]
        rw [hlen] at hfold
        by_cases hin : 0 ≤ c ∧ c < ((cfg.grid_row * cfg.grid_col).toNat : Int)
        · exact hfold.1 hin
        · rw [hfold.2 hin, hout hin]
          refine ⟨fun hlt => ⟨[], by simp, ?_⟩, fun _ => rfl⟩
          simp only [List.length_nil, Nat.cast_zero]
          omega
  refine ⟨hrep, ?_⟩
  by_cases hlt : ((s.curr_features.get c).length : Int) < cfg.grid_min_feature_num
  · obtain ⟨newly, hnew, hlen⟩ := hrep.1 hlt
    rw [hnew, List.length_append]
    push_cast
    omega
  · rw [hrep.2 (by omega)]
    omega

theorem replenishedSecondFrame_eq :
    addNewFeatures exampleLibrary exampleConfig exampleCalibration trackedSecondFrame
      (stillFrame 2 fourCorners) = some replenishedSecondFrame := by decide!

/-- C5, witness: cell 3 of the second frame of the example run, which holds one carried
feature and receives one candidate. -/
theorem addNewFeatures_replenishes_witness :
    (addNewFeatures exampleLibrary exampleConfig exampleCalibration trackedSecondFrame
        (stillFrame 2 fourCorners) = some replenishedSecondFrame ∧
      0 ≤ exampleConfig.grid_min_feature_num ∧
      exampleConfig.grid_min_feature_num < 2147483648) ∧
    (ReplenishedCell exampleConfig
        (availableNew exampleLibrary exampleConfig exampleCalibration trackedSecondFrame
          (stillFrame 2 fourCorners) 3)
        (trackedSecondFrame.curr_features.get 3)
        (replenishedSecondFrame.curr_features.get 3) ∧
      min exampleConfig.grid_min_feature_num
          (availableNew exampleLibrary exampleConfig exampleCalibration trackedSecondFrame
            (stillFrame 2 fourCorners) 3 : Int) ≤
        ((replenishedSecondFrame.curr_features.get 3).length : Int)) :=
  ⟨⟨replenishedSecondFrame_eq, by decide, by decide⟩,
    addNewFeatures_replenishes exampleLibrary exampleConfig exampleCalibration
      trackedSecondFrame (stillFrame 2 fourCorners) replenishedSecondFrame
      replenishedSecondFrame_eq (by decide) (by decide) 3⟩

theorem replenished_cell_three :
    (trackedSecondFrame.curr_features.get 3).length = 1 ∧
    availableNew exampleLibrary exampleConfig exampleCalibration trackedSecondFrame
      (stillFrame 2 fourCorners) 3 = 1 ∧
    (replenishedSecondFrame.curr_features.get 3).length = 2 := by decide!

/-! ## The IMU buffer (C11, C12, C13) -/

theorem integrateImuData_eq (cv : OpenCV) (cal : Calibration) (imu_msg_buffer : List ImuMsg)
    (prev_stamp curr_stamp : ℚ) :
    integrateImuData cv cal imu_msg_buffer prev_stamp curr_stamp =
      ((cv.Rodrigues ((cal.R_cam0_imu.t.mulVec
          (meanAngVel (imuWindow imu_msg_buffer prev_stamp curr_stamp))).smul
            (curr_stamp - prev_stamp))).t,
       (cv.Rodrigues ((cal.R_cam1_imu.t.mulVec
          (meanAngVel (imuWindow imu_msg_buffer prev_stamp curr_stamp))).smul
            (curr_stamp - prev_stamp))).t,
       (imu_msg_buffer.dropWhile (fun msg => msg.stamp - prev_stamp < -0.01)).dropWhile
          (fun msg => msg.stamp - curr_stamp < 0.005)) := rfl

theorem mulVec_zero (m : Matx33) : m.mulVec ⟨0, 0, 0⟩ = ⟨0, 0, 0⟩ := by
  simp [Matx33.mulVec, Vec3.dot]

theorem smul_zero_vec (s : ℚ) : Vec3.smul s ⟨0, 0, 0⟩ = ⟨0, 0, 0⟩ := by
  simp [Vec3.smul]

theorem eye_t : Matx33.eye.t = Matx33.eye := by
  simp [Matx33.t, Matx33.eye]

/-- C11: `imuCallback` returns the state unchanged while `is_first_img` is set, and
otherwise changes only the IMU buffer, which becomes the old buffer followed by the
received sample. -/
theorem imuCallback_buffer (s : ImageProcessor) (msg : ImuMsg) :
    imuCallback s msg =
        (if s.is_first_img then s
         else { s with imu_msg_buffer := s.imu_msg_buffer ++ [msg] }) ∧
      (imuCallback s msg).imu_msg_buffer =
        (if s.is_first_img then s.imu_msg_buffer else s.imu_msg_buffer ++ [msg]) ∧
      (imuCallback s msg).imu_msg_buffer.take s.imu_msg_buffer.length = s.imu_msg_buffer := by
  refine ⟨rfl, ?_, ?_⟩
  · unfold imuCallback
    split <;> rfl
  · unfold imuCallback
    split
    · simp
    · simp

/-- C12: when the window of `integrateImuData` is empty and `cv::Rodrigues` maps the zero
vector to the identity, the mean angular velocity is the zero vector and both returned
rotations are the identity, whatever the stamps and the extrinsics. -/
theorem integrateImuData_empty_window (cv : OpenCV) (cal : Calibration)
    (imu_msg_buffer : List ImuMsg) (prev_stamp curr_stamp : ℚ)
    (hR : cv.Rodrigues ⟨0, 0, 0⟩ = Matx33.eye)
    (hw : imuWindow imu_msg_buffer prev_stamp curr_stamp = []) :
    meanAngVel (imuWindow imu_msg_buffer prev_stamp curr_stamp) = ⟨0, 0, 0⟩ ∧
      (integrateImuData cv cal imu_msg_buffer prev_stamp curr_stamp).1 = Matx33.eye ∧
      (integrateImuData cv cal imu_msg_buffer prev_stamp curr_stamp).2.1 = Matx33.eye := by
  have hm : meanAngVel (imuWindow imu_msg_buffer prev_stamp curr_stamp) = ⟨0, 0, 0⟩ := by
    rw [hw]
    simp [meanAngVel]
  rw [integrateImuData_eq, hm]
  simp only [mulVec_zero, smul_zero_vec, hR, eye_t]
  exact ⟨trivial, trivial, trivial⟩

theorem integrateImuData_empty_window_witness :
    (exampleLibrary.Rodrigues ⟨0, 0, 0⟩ = Matx33.eye ∧ imuWindow lateSample 0 1 = []) ∧
      meanAngVel (imuWindow lateSample 0 1) = ⟨0, 0, 0⟩ ∧
      (integrateImuData exampleLibrary exampleCalibration lateSample 0 1).1 = Matx33.eye ∧
      (integrateImuData exampleLibrary exampleCalibration lateSample 0 1).2.1 =
        Matx33.eye :=
  ⟨⟨rfl, by decide!⟩,
    integrateImuData_empty_window exampleLibrary exampleCalibration lateSample 0 1 rfl
      (by decide!)⟩

/-- C13: the buffer that `integrateImuData` leaves is the old buffer without the skipped
samples and without the averaging window: the old buffer is the skipped samples, then the
window, then the new buffer, so the new buffer is the suffix that starts at the end of
the window. -/
theorem integrateImuData_buffer_suffix (cv : OpenCV) (cal : Calibration)
    (imu_msg_buffer : List ImuMsg) (prev_stamp curr_stamp : ℚ) :
    imu_msg_buffer =
        imuSkipped imu_msg_buffer prev_stamp ++
          imuWindow imu_msg_buffer prev_stamp curr_stamp ++
          (integrateImuData cv cal imu_msg_buffer prev_stamp curr_stamp).2.2 ∧
      (integrateImuData cv cal imu_msg_buffer prev_stamp curr_stamp).2.2 =
        imu_msg_buffer.drop ((imuSkipped imu_msg_buffer prev_stamp).length +
          (imuWindow imu_msg_buffer prev_stamp curr_stamp).length) := by
  have h1 : imu_msg_buffer =
      imuSkipped imu_msg_buffer prev_stamp ++
        imuWindow imu_msg_buffer prev_stamp curr_stamp ++
        (integrateImuData cv cal imu_msg_buffer prev_stamp curr_stamp).2.2 := by
    rw [integrateImuData_eq]
    unfold imuSkipped imuWindow
    rw [List.append_assoc, List.takeWhile_append_dropWhile, List.takeWhile_append_dropWhile]
  refine ⟨h1, ?_⟩
  have h2 := congrArg (List.drop ((imuSkipped imu_msg_buffer prev_stamp).length +
    (imuWindow imu_msg_buffer prev_stamp curr_stamp).length)) h1
  rw [← List.length_append, List.drop_left] at h2
  rw [← List.length_append]
  exact h2.symm

theorem integrateImuData_fourSamples :
    imuSkipped fourSamples 0 = [⟨-1, ⟨9, 9, 9⟩⟩] ∧
      imuWindow fourSamples 0 1 = [⟨1 / 4, ⟨1, 0, 0⟩⟩, ⟨3 / 4, ⟨0, 1, 0⟩⟩] ∧
      meanAngVel (imuWindow fourSamples 0 1) = ⟨1 / 2, 1 / 2, 0⟩ ∧
      (integrateImuData exampleLibrary exampleCalibration fourSamples 0 1).2.2 =
        [⟨2, ⟨0, 0, 1⟩⟩] := by
  decide!

/-! ## Sampling and the two-point model (C18, C19, C20) -/

theorem ransacIteration_eq (random : Nat → Nat) (coeff_t : List Vec3)
    (inlier_markers : List Int) (raw_inlier_idx : List Nat) (e u : ℚ) (n_pts iter_idx : Nat)
    (best : RansacBest) :
    ransacIteration random coeff_t inlier_markers raw_inlier_idx e u n_pts iter_idx best =
      match pairIndices raw_inlier_idx
          (uniformInteger (random (2 * iter_idx)) 0 ((raw_inlier_idx.length : Int) - 1))
          (uniformInteger (random (2 * iter_idx + 1)) 1
            ((raw_inlier_idx.length : Int) - 1)) with
      | none => none
      | some (pair_idx1, pair_idx2) =>
        match readAt coeff_t pair_idx1, readAt coeff_t pair_idx2 with
        | some row1, some row2 =>
          let inlier_set := inlierSet coeff_t inlier_markers
            (twoPointModel (baseIndicator row1 row2) row1 row2) e u
          if (inlier_set.length : ℚ) < 0.2 * (n_pts : ℚ) then some best
          else if inlier_set.length > best.best_inlier_set.length then
            some ⟨inlier_set,
              (inlier_set.foldl (fun acc i => acc +
                |(coeff_t.map (fun r => r.dot (refitModel (baseIndicator row1 row2)
                  (inlier_set.map (fun i => coeff_t.getD i ⟨0, 0, 0⟩))))).getD i 0|) 0) /
                (inlier_set.length : ℚ)⟩
          else some best
        | _, _ => none := by
  unfold ransacIteration pairIndices
  dsimp only
  cases readAt raw_inlier_idx
      (uniformInteger (random (2 * iter_idx)) 0 ((raw_inlier_idx.length : Int) - 1)) with
  | none => rfl
  | some idx1 => rfl

theorem rawInlierIdx_mem_lt (inlier_markers : List Int) :
    ∀ i ∈ rawInlierIdx inlier_markers, i < inlier_markers.length := by
  intro i hi
  unfold rawInlierIdx at hi
  exact List.mem_range.1 (List.mem_filter.1 hi).1

theorem rawInlierIdx_length_le (inlier_markers : List Int) :
    (rawInlierIdx inlier_markers).length ≤ inlier_markers.length := by
  unfold rawInlierIdx
  have h := List.length_filter_le (fun i => decide (inlier_markers.getD i 0 ≠ 0))
    (List.range inlier_markers.length)
  rw [List.length_range] at h
  exact h

theorem rawInlierIdx_mem_marker (inlier_markers : List Int) (i : Nat) :
    i ∈ rawInlierIdx inlier_markers ↔
      i < inlier_markers.length ∧ inlier_markers.getD i 0 ≠ 0 := by
  unfold rawInlierIdx
  simp [List.mem_filter]

theorem pairIndices_first_mem (raw_inlier_idx : List Nat) (r idx_diff : Int)
    (pair_idx1 pair_idx2 : Int)
    (h : pairIndices raw_inlier_idx r idx_diff = some (pair_idx1, pair_idx2)) :
    0 ≤ pair_idx1 ∧ pair_idx1.toNat ∈ raw_inlier_idx := by
  unfold pairIndices at h
  dsimp only at h
  cases hread : readAt raw_inlier_idx r with
  | none => rw [hread] at h; simp at h
  | some idx1 =>
    rw [hread] at h
    simp only [Option.some.injEq, Prod.mk.injEq] at h
    unfold readAt at hread
    split at hread
    · have hmem : idx1 ∈ raw_inlier_idx := List.mem_iff_getElem?.2 ⟨_, hread⟩
      rw [← h.1]
      exact ⟨by omega, by simpa using hmem⟩
    · simp at hread

/-- C19: with at least 3 entries in `raw_inlier_idx`, every draw `r` of
`[0, size-1]` and every draw `idx_diff` of `[1, size-1]` give two different indices
`pair_idx1` and `pair_idx2`, both in `[0, |pts1|)`, so that both rows of `coeff_t` (which
has one row per pair) exist; and the two calls of `uniformInteger` return draws of these
ranges. -/
theorem pairIndices_distinct_in_range (inlier_markers : List Int) (coeff_t : List Vec3)
    (r idx_diff : Int) (hc : coeff_t.length = inlier_markers.length)
    (hn : 3 ≤ (rawInlierIdx inlier_markers).length)
    (hr : 0 ≤ r ∧ r ≤ ((rawInlierIdx inlier_markers).length : Int) - 1)
    (hd : 1 ≤ idx_diff ∧ idx_diff ≤ ((rawInlierIdx inlier_markers).length : Int) - 1) :
    (∃ pair_idx1 pair_idx2 row1 row2,
        pairIndices (rawInlierIdx inlier_markers) r idx_diff = some (pair_idx1, pair_idx2) ∧
        pair_idx1 ≠ pair_idx2 ∧
        0 ≤ pair_idx1 ∧ pair_idx1 < (inlier_markers.length : Int) ∧
        0 ≤ pair_idx2 ∧ pair_idx2 < (inlier_markers.length : Int) ∧
        readAt coeff_t pair_idx1 = some row1 ∧ readAt coeff_t pair_idx2 = some row2) ∧
      ∀ raw : Nat,
        (0 ≤ uniformInteger raw 0 (((rawInlierIdx inlier_markers).length : Int) - 1) ∧
          uniformInteger raw 0 (((rawInlierIdx inlier_markers).length : Int) - 1) ≤
            ((rawInlierIdx inlier_markers).length : Int) - 1) ∧
        (1 ≤ uniformInteger raw 1 (((rawInlierIdx inlier_markers).length : Int) - 1) ∧
          uniformInteger raw 1 (((rawInlierIdx inlier_markers).length : Int) - 1) ≤
            ((rawInlierIdx inlier_markers).length : Int) - 1) := by
  have hle := rawInlierIdx_length_le inlier_markers
  refine ⟨?_, fun raw => ⟨uniformInteger_range raw 0 _ (by omega),
    uniformInteger_range raw 1 _ (by omega)⟩⟩
  obtain ⟨idx1, hidx1, hmem1⟩ := readAt_some_of_lt (rawInlierIdx inlier_markers) r hr.1
    (by omega)
  have hlt1 := rawInlierIdx_mem_lt inlier_markers idx1 hmem1
  have h2 : 0 ≤ (if (idx1 : Int) + idx_diff < ((rawInlierIdx inlier_markers).length : Int)
        then (idx1 : Int) + idx_diff
        else (idx1 : Int) + idx_diff - ((rawInlierIdx inlier_markers).length : Int)) ∧
      (if (idx1 : Int) + idx_diff < ((rawInlierIdx inlier_markers).length : Int)
        then (idx1 : Int) + idx_diff
        else (idx1 : Int) + idx_diff - ((rawInlierIdx inlier_markers).length : Int)) <
        (inlier_markers.length : Int) ∧
      (idx1 : Int) ≠ (if (idx1 : Int) + idx_diff <
          ((rawInlierIdx inlier_markers).length : Int)
        then (idx1 : Int) + idx_diff
        else (idx1 : Int) + idx_diff - ((rawInlierIdx inlier_markers).length : Int)) := by
    split <;> refine ⟨?_, ?_, ?_⟩ <;> omega
  obtain ⟨row1, hrow1, -⟩ := readAt_some_of_lt coeff_t (idx1 : Int) (by omega) (by omega)
  obtain ⟨row2, hrow2, -⟩ := readAt_some_of_lt coeff_t _ h2.1 (by rw [hc]; exact h2.2.1)
  refine ⟨(idx1 : Int), _, row1, row2, ?_, h2.2.2, by omega, by omega, h2.1, h2.2.1,
    hrow1, hrow2⟩
  unfold pairIndices
  rw [hidx1]

theorem pairIndices_distinct_in_range_witness :
    ([(0 : ℚ), 0, 0, 0].map (fun z => (⟨z, z, z⟩ : Vec3))).length =
        ([1, 0, 1, 1] : List Int).length ∧
      3 ≤ (rawInlierIdx [1, 0, 1, 1]).length ∧
      ((0 : Int) ≤ 0 ∧ (0 : Int) ≤ ((rawInlierIdx [1, 0, 1, 1]).length : Int) - 1) ∧
      ((1 : Int) ≤ 1 ∧ (1 : Int) ≤ ((rawInlierIdx [1, 0, 1, 1]).length : Int) - 1) ∧
      ∃ pair_idx1 pair_idx2 row1 row2,
        pairIndices (rawInlierIdx [1, 0, 1, 1]) 0 1 = some (pair_idx1, pair_idx2) ∧
        pair_idx1 ≠ pair_idx2 ∧
        0 ≤ pair_idx1 ∧ pair_idx1 < (([1, 0, 1, 1] : List Int).length : Int) ∧
        0 ≤ pair_idx2 ∧ pair_idx2 < (([1, 0, 1, 1] : List Int).length : Int) ∧
        readAt ([(0 : ℚ), 0, 0, 0].map (fun z => (⟨z, z, z⟩ : Vec3))) pair_idx1 =
          some row1 ∧
        readAt ([(0 : ℚ), 0, 0, 0].map (fun z => (⟨z, z, z⟩ : Vec3))) pair_idx2 =
          some row2 :=
  ⟨rfl, by decide, by decide, by decide,
    (pairIndices_distinct_in_range [1, 0, 1, 1]
      ([(0 : ℚ), 0, 0, 0].map (fun z => (⟨z, z, z⟩ : Vec3))) 0 1 rfl (by decide)
      (by decide) (by decide)).1⟩

/-- C20: the pivot `base_indicator` is the first of the three columns whose L1 norm over
the two sampled rows is smallest; the model has the pivot component equal to 1; and when
the determinant of the 2x2 matrix of the two other columns is not 0, both sampled rows
have residual 0 on the model. -/
theorem twoPointModel_pivot_and_residual (row1 row2 : Vec3) :
    baseIndicator row1 row2 < 3 ∧
      (∀ k, k < 3 →
        |row1.component (baseIndicator row1 row2)| +
            |row2.component (baseIndicator row1 row2)| ≤
          |row1.component k| + |row2.component k|) ∧
      (∀ k, k < baseIndicator row1 row2 →
        |row1.component (baseIndicator row1 row2)| +
            |row2.component (baseIndicator row1 row2)| <
          |row1.component k| + |row2.component k|) ∧
      (twoPointModel (baseIndicator row1 row2) row1 row2).component
          (baseIndicator row1 row2) = 1 ∧
      (pivotDet (baseIndicator row1 row2) row1 row2 ≠ 0 →
        row1.dot (twoPointModel (baseIndicator row1 row2) row1 row2) = 0 ∧
        row2.dot (twoPointModel (baseIndicator row1 row2) row1 row2) = 0) := by
  obtain ⟨x1, y1, z1⟩ := row1
  obtain ⟨x2, y2, z2⟩ := row2
  have hcases : (baseIndicator ⟨x1, y1, z1⟩ ⟨x2, y2, z2⟩ = 0 ∧
        |x1| + |x2| ≤ |y1| + |y2| ∧ |x1| + |x2| ≤ |z1| + |z2|) ∨
      (baseIndicator ⟨x1, y1, z1⟩ ⟨x2, y2, z2⟩ = 1 ∧
        |y1| + |y2| < |x1| + |x2| ∧ |y1| + |y2| ≤ |z1| + |z2|) ∨
      (baseIndicator ⟨x1, y1, z1⟩ ⟨x2, y2, z2⟩ = 2 ∧
        |z1| + |z2| < |x1| + |x2| ∧ |z1| + |z2| < |y1| + |y2|) := by
    unfold baseIndicator minElement3
    dsimp only
    by_cases h10 : |y1| + |y2| < |x1| + |x2|
    · rw [if_pos h10, if_pos h10]
      by_cases h2 : |z1| + |z2| < |y1| + |y2|
      · rw [if_pos h2]
        exact Or.inr (Or.inr ⟨rfl, lt_trans h2 h10, h2⟩)
      · rw [if_neg h2]
        exact Or.inr (Or.inl ⟨rfl, h10, not_lt.1 h2⟩)
    · rw [if_neg h10, if_neg h10]
      by_cases h2 : |z1| + |z2| < |x1| + |x2|
      · rw [if_pos h2]
        exact Or.inr (Or.inr ⟨rfl, h2, lt_of_lt_of_le h2 (not_lt.1 h10)⟩)
      · rw [if_neg h2]
        exact Or.inl ⟨rfl, not_lt.1 h10, not_lt.1 h2⟩
  rcases hcases with ⟨hb, h1, h2⟩ | ⟨hb, h1, h2⟩ | ⟨hb, h1, h2⟩
  · rw [hb]
    refine ⟨by omega, ?_, ?_, ?_, ?_⟩
    · intro k hk
      interval_cases k
      · exact le_refl _
      · simpa [Vec3.component] using h1
      · simpa [Vec3.component] using h2
    · intro k hk
      omega
    · simp [twoPointModel, Vec3.component]
    · intro hdet
      simp only [pivotDet, if_true] at hdet
      have hdet2 : y1 * z2 - z1 * y2 ≠ 0 := by
        intro h0
        apply hdet
        linarith
      simp only [twoPointModel, solve2, Vec3.dot, if_true]
      constructor
      · field_simp
        ring
      · field_simp
        ring
  · rw [hb]
    refine ⟨by omega, ?_, ?_, ?_, ?_⟩
    · intro k hk
      interval_cases k
      · simpa [Vec3.component] using le_of_lt h1
      · exact le_refl _
      · simpa [Vec3.component] using h2
    · intro k hk
      interval_cases k
      simpa [Vec3.component] using h1
    · simp [twoPointModel, Vec3.component]
    · intro hdet
      simp only [pivotDet, if_true, one_ne_zero, if_false] at hdet
      have hdet2 : x1 * z2 - z1 * x2 ≠ 0 := by
        intro h0
        apply hdet
        linarith
      simp only [twoPointModel, solve2, Vec3.dot, if_true, one_ne_zero, if_false]
      constructor
      · field_simp
        ring
      · field_simp
        ring
  · rw [hb]
    refine ⟨by omega, ?_, ?_, ?_, ?_⟩
    · intro k hk
      interval_cases k
      · simpa [Vec3.component] using le_of_lt h1
      · simpa [Vec3.component] using le_of_lt h2
      · exact le_refl _
    · intro k hk
      interval_cases k
      · simpa [Vec3.component] using h1
      · simpa [Vec3.component] using h2
    · simp [twoPointModel, Vec3.component]
    · intro hdet
      have hdet2 : x1 * y2 - y1 * x2 ≠ 0 := by
        intro h0
        apply hdet
        simp only [pivotDet]
        norm_num
        linarith
      simp only [twoPointModel, solve2, Vec3.dot]
      norm_num
      constructor
      · field_simp
        ring
      · field_simp
        ring

theorem twoPointModel_pivot_and_residual_witness :
    baseIndicator ⟨1, 2, 3⟩ ⟨2, 1, 5⟩ = 0 ∧
      pivotDet (baseIndicator ⟨1, 2, 3⟩ ⟨2, 1, 5⟩) ⟨1, 2, 3⟩ ⟨2, 1, 5⟩ ≠ 0 ∧
      twoPointModel (baseIndicator ⟨1, 2, 3⟩ ⟨2, 1, 5⟩) ⟨1, 2, 3⟩ ⟨2, 1, 5⟩ =
        ⟨1, 1 / 7, -3 / 7⟩ ∧
      Vec3.dot ⟨1, 2, 3⟩
          (twoPointModel (baseIndicator ⟨1, 2, 3⟩ ⟨2, 1, 5⟩) ⟨1, 2, 3⟩ ⟨2, 1, 5⟩) = 0 ∧
      Vec3.dot ⟨2, 1, 5⟩
          (twoPointModel (baseIndicator ⟨1, 2, 3⟩ ⟨2, 1, 5⟩) ⟨1, 2, 3⟩ ⟨2, 1, 5⟩) = 0 :=
  ⟨by decide!, by decide!, by decide!,
    (twoPointModel_pivot_and_residual ⟨1, 2, 3⟩ ⟨2, 1, 5⟩).2.2.2.2 (by decide!)⟩

/-! ## The paths of twoPointRansac (C16, C17) -/

theorem twoPointRansac_of_points (cv : OpenCV) (random : Nat → Nat)
    (pts1 pts2 : List Point2f) (R_p_c : Matx33) (intrinsics : Vec4)
    (distortion_model : String) (distortion_coeffs : Vec4)
    (inlier_error success_probability : ℚ) (p1 p2 : List Point2f) (sf : ℚ)
    (hp : ransacPoints cv pts1 pts2 R_p_c intrinsics distortion_model distortion_coeffs =
      some (p1, p2, sf)) :
    twoPointRansac cv random pts1 pts2 R_p_c intrinsics distortion_model distortion_coeffs
        inlier_error success_probability =
      if rawInlierCntr cv (List.zipWith Point2f.sub p1 p2) (ransacPixelUnit intrinsics sf) < 3
      then
        some ⟨decide (pts1.length ≠ pts2.length),
          (preFilterMarkers cv (List.zipWith Point2f.sub p1 p2)
            (ransacPixelUnit intrinsics sf)).map (fun _ => 0)⟩
      else if preFilterDistanceSum cv (List.zipWith Point2f.sub p1 p2)
            (ransacPixelUnit intrinsics sf) /
          (rawInlierCntr cv (List.zipWith Point2f.sub p1 p2)
            (ransacPixelUnit intrinsics sf) : ℚ) < ransacPixelUnit intrinsics sf
      then
        some ⟨decide (pts1.length ≠ pts2.length),
          degenerateMarkers cv
            (preFilterMarkers cv (List.zipWith Point2f.sub p1 p2)
              (ransacPixelUnit intrinsics sf))
            (List.zipWith Point2f.sub p1 p2) inlier_error (ransacPixelUnit intrinsics sf)⟩
      else
        (ransacLoop random (List.zipWith coeffRow p1 p2)
          (preFilterMarkers cv (List.zipWith Point2f.sub p1 p2)
            (ransacPixelUnit intrinsics sf))
          (rawInlierIdx (preFilterMarkers cv (List.zipWith Point2f.sub p1 p2)
            (ransacPixelUnit intrinsics sf)))
          inlier_error (ransacPixelUnit intrinsics sf) p1.length
          (ransacIterNum cv success_probability).toNat 0 ⟨[], 10000000000⟩).map
          (fun best =>
            ⟨decide (pts1.length ≠ pts2.length), fillMarkers pts1.length
              best.best_inlier_set⟩) := by
  unfold ransacPoints at hp
  dsimp only at hp
  unfold twoPointRansac
  dsimp only
  rw [hp]
  dsimp only
  unfold ransacPixelUnit rawInlierIdx ransacIterNum
  split
  · rfl
  · split
    · rfl
    · cases ransacLoop random (List.zipWith coeffRow p1 p2)
          (preFilterMarkers cv (List.zipWith Point2f.sub p1 p2)
            (2 / (intrinsics.v0 + intrinsics.v1) * sf))
          ((List.range (preFilterMarkers cv (List.zipWith Point2f.sub p1 p2)
            (2 / (intrinsics.v0 + intrinsics.v1) * sf)).length).filter
            (fun i => decide ((preFilterMarkers cv (List.zipWith Point2f.sub p1 p2)
              (2 / (intrinsics.v0 + intrinsics.v1) * sf)).getD i 0 ≠ 0)))
          inlier_error (2 / (intrinsics.v0 + intrinsics.v1) * sf) p1.length
          (truncToInt ((Int.ceil (cv.log (1 - success_probability) /
            cv.log (1 - 0.7 * 0.7)) : Int) : ℚ)).toNat 0 ⟨[], 10000000000⟩ with
      | none => rfl
      | some best => rfl

theorem ransacPoints_lengths (cv : OpenCV) (pts1 pts2 : List Point2f) (R_p_c : Matx33)
    (intrinsics : Vec4) (distortion_model : String) (distortion_coeffs : Vec4)
    (p1 p2 : List Point2f) (sf : ℚ)
    (hp : ransacPoints cv pts1 pts2 R_p_c intrinsics distortion_model distortion_coeffs =
      some (p1, p2, sf)) :
    p1.length = pts1.length ∧ p2.length = pts2.length ∧ pts1.length ≤ pts2.length := by
  have hu1 := undistortPoints_length cv pts1 intrinsics distortion_model distortion_coeffs
    (List.replicate pts1.length ⟨0, 0⟩) Matx33.eye defaultNewIntrinsics
    (fun hnil => by simp [hnil])
  have hu2 := undistortPoints_length cv pts2 intrinsics distortion_model distortion_coeffs
    (List.replicate pts2.length ⟨0, 0⟩) Matx33.eye defaultNewIntrinsics
    (fun hnil => by simp [hnil])
  unfold ransacPoints at hp
  dsimp only at hp
  unfold rescalePoints at hp
  split at hp
  · simp at hp
  · rename_i hlen
    simp only [List.length_map, hu1, hu2, not_lt] at hlen
    simp only [Option.some.injEq, Prod.mk.injEq] at hp
    obtain ⟨h1, h2, -⟩ := hp
    rw [← h1, ← h2]
    simp only [List.length_map, List.length_append, List.length_take, List.length_drop,
      hu1, hu2]
    refine ⟨trivial, ?_, hlen⟩
    rw [Nat.min_eq_left hlen]
    omega

theorem degenerateMarkers_getD (cv : OpenCV) (p1 p2 : List Point2f) (e u : ℚ) (i : Nat)
    (h1 : i < p1.length) (h2 : i < p2.length) :
    (degenerateMarkers cv (preFilterMarkers cv (List.zipWith Point2f.sub p1 p2) u)
        (List.zipWith Point2f.sub p1 p2) e u).getD i 1 =
      if pairDistance cv p1 p2 i > 50 * u then 0
      else if pairDistance cv p1 p2 i > e * u then 0 else 1 := by
  have hl : i < (degenerateMarkers cv (preFilterMarkers cv (List.zipWith Point2f.sub p1 p2) u)
      (List.zipWith Point2f.sub p1 p2) e u).length := by
    simp only [degenerateMarkers, preFilterMarkers, List.length_zipWith, List.length_map]
    omega
  rw [List.getD_eq_getElem _ _ hl]
  simp only [degenerateMarkers, preFilterMarkers, List.getElem_zipWith, List.getElem_map,
    pairDistance, List.getD_eq_getElem _ _ h1, List.getD_eq_getElem _ _ h2]
  by_cases hfar : cv.sqrt ((p1[i].sub p2[i]).dot (p1[i].sub p2[i])) > 50 * u
  · simp [hfar]
  · by_cases herr : cv.sqrt ((p1[i].sub p2[i]).dot (p1[i].sub p2[i])) > e * u
    · simp [hfar, herr]
    · simp [hfar, herr]

/-- C17 (amended): on the degenerate path (at least 3 pairs pass the pre-filter and their
mean distance is below the scaled pixel unit `u`) the returned mask has one entry per pair
of `pts1`, each 0 or 1, and marks pair `i` as outlier exactly when its distance exceeds
`50*u` (the pre-filter) or `inlier_error*u`; for `inlier_error ≤ 50` and `0 ≤ u` that is
exactly when the distance exceeds `inlier_error*u`. -/
theorem twoPointRansac_degenerate_mask (cv : OpenCV) (random : Nat → Nat)
    (pts1 pts2 : List Point2f) (R_p_c : Matx33) (intrinsics : Vec4)
    (distortion_model : String) (distortion_coeffs : Vec4)
    (inlier_error success_probability : ℚ) (p1 p2 : List Point2f) (sf : ℚ)
    (hp : ransacPoints cv pts1 pts2 R_p_c intrinsics distortion_model distortion_coeffs =
      some (p1, p2, sf))
    (h3 : 3 ≤ rawInlierCntr cv (List.zipWith Point2f.sub p1 p2)
      (ransacPixelUnit intrinsics sf))
    (hmean : preFilterDistanceSum cv (List.zipWith Point2f.sub p1 p2)
        (ransacPixelUnit intrinsics sf) /
      (rawInlierCntr cv (List.zipWith Point2f.sub p1 p2) (ransacPixelUnit intrinsics sf) : ℚ) <
        ransacPixelUnit intrinsics sf) :
    ∃ out, twoPointRansac cv random pts1 pts2 R_p_c intrinsics distortion_model
        distortion_coeffs inlier_error success_probability = some out ∧
      out.inlier_markers.length = pts1.length ∧
      ∀ i, i < pts1.length →
        (out.inlier_markers.getD i 1 = 0 ∨ out.inlier_markers.getD i 1 = 1) ∧
        (out.inlier_markers.getD i 1 = 0 ↔
          (pairDistance cv p1 p2 i > 50 * ransacPixelUnit intrinsics sf ∨
            pairDistance cv p1 p2 i > inlier_error * ransacPixelUnit intrinsics sf)) ∧
        (inlier_error ≤ 50 → 0 ≤ ransacPixelUnit intrinsics sf →
          (out.inlier_markers.getD i 1 = 0 ↔
            pairDistance cv p1 p2 i > inlier_error * ransacPixelUnit intrinsics sf)) := by
  obtain ⟨hl1, hl2, hle⟩ := ransacPoints_lengths cv pts1 pts2 R_p_c intrinsics
    distortion_model distortion_coeffs p1 p2 sf hp
  rw [twoPointRansac_of_points cv random pts1 pts2 R_p_c intrinsics distortion_model
    distortion_coeffs inlier_error success_probability p1 p2 sf hp, if_neg (by omega),
    if_pos hmean]
  refine ⟨_, rfl, ?_, ?_⟩
  · simp only [degenerateMarkers, preFilterMarkers, List.length_zipWith, List.length_map]
    omega
  · intro i hi
    dsimp only
    rw [degenerateMarkers_getD cv p1 p2 inlier_error (ransacPixelUnit intrinsics sf) i
      (by omega) (by omega)]
    by_cases hfar : pairDistance cv p1 p2 i > 50 * ransacPixelUnit intrinsics sf
    · rw [if_pos hfar]
      refine ⟨Or.inl rfl, ⟨fun _ => Or.inl hfar, fun _ => rfl⟩, ?_⟩
      intro he hu
      refine ⟨fun _ => ?_, fun _ => rfl⟩
      have hmul : inlier_error * ransacPixelUnit intrinsics sf ≤
          50 * ransacPixelUnit intrinsics sf := mul_le_mul_of_nonneg_right he hu
      exact lt_of_le_of_lt hmul hfar
    · rw [if_neg hfar]
      by_cases herr : pairDistance cv p1 p2 i > inlier_error * ransacPixelUnit intrinsics sf
      · rw [if_pos herr]
        exact ⟨Or.inl rfl, ⟨fun _ => Or.inr herr, fun _ => rfl⟩,
          fun _ _ => ⟨fun _ => herr, fun _ => rfl⟩⟩
      · rw [if_neg herr]
        refine ⟨Or.inr rfl, ⟨fun h => absurd h (by decide), fun h => ?_⟩,
          fun _ _ => ⟨fun h => absurd h (by decide), fun h => absurd h herr⟩⟩
        rcases h with h | h
        · exact absurd h hfar
        · exact absurd h herr

theorem restingScaled_eq :
    ransacPoints pinholeLibrary squarePts restingPts Matx33.eye pinholeIntrinsics "radtan"
        ⟨0, 0, 0, 0⟩ =
      some (restingScaled.1, restingScaled.2.1, restingScaled.2.2) := by
  decide!

theorem restingScaled_degenerate :
    3 ≤ rawInlierCntr pinholeLibrary (List.zipWith Point2f.sub restingScaled.1
        restingScaled.2.1) (ransacPixelUnit pinholeIntrinsics restingScaled.2.2) ∧
      preFilterDistanceSum pinholeLibrary (List.zipWith Point2f.sub restingScaled.1
          restingScaled.2.1) (ransacPixelUnit pinholeIntrinsics restingScaled.2.2) /
        (rawInlierCntr pinholeLibrary (List.zipWith Point2f.sub restingScaled.1
          restingScaled.2.1) (ransacPixelUnit pinholeIntrinsics restingScaled.2.2) : ℚ) <
        ransacPixelUnit pinholeIntrinsics restingScaled.2.2 := by
  decide!

theorem twoPointRansac_degenerate_mask_witness :
    (ransacPoints pinholeLibrary squarePts restingPts Matx33.eye pinholeIntrinsics "radtan"
          ⟨0, 0, 0, 0⟩ =
        some (restingScaled.1, restingScaled.2.1, restingScaled.2.2) ∧
      3 ≤ rawInlierCntr pinholeLibrary (List.zipWith Point2f.sub restingScaled.1
        restingScaled.2.1) (ransacPixelUnit pinholeIntrinsics restingScaled.2.2) ∧
      preFilterDistanceSum pinholeLibrary (List.zipWith Point2f.sub restingScaled.1
          restingScaled.2.1) (ransacPixelUnit pinholeIntrinsics restingScaled.2.2) /
        (rawInlierCntr pinholeLibrary (List.zipWith Point2f.sub restingScaled.1
          restingScaled.2.1) (ransacPixelUnit pinholeIntrinsics restingScaled.2.2) : ℚ) <
        ransacPixelUnit pinholeIntrinsics restingScaled.2.2) ∧
      ∃ out, twoPointRansac pinholeLibrary (fun _ => 0) squarePts restingPts Matx33.eye
          pinholeIntrinsics "radtan" ⟨0, 0, 0, 0⟩ 3 (99 / 100) = some out ∧
        out.inlier_markers.length = squarePts.length ∧
        ∀ i, i < squarePts.length →
          (out.inlier_markers.getD i 1 = 0 ∨ out.inlier_markers.getD i 1 = 1) ∧
          (out.inlier_markers.getD i 1 = 0 ↔
            (pairDistance pinholeLibrary restingScaled.1 restingScaled.2.1 i >
                50 * ransacPixelUnit pinholeIntrinsics restingScaled.2.2 ∨
              pairDistance pinholeLibrary restingScaled.1 restingScaled.2.1 i >
                3 * ransacPixelUnit pinholeIntrinsics restingScaled.2.2)) ∧
          ((3 : ℚ) ≤ 50 → 0 ≤ ransacPixelUnit pinholeIntrinsics restingScaled.2.2 →
            (out.inlier_markers.getD i 1 = 0 ↔
              pairDistance pinholeLibrary restingScaled.1 restingScaled.2.1 i >
                3 * ransacPixelUnit pinholeIntrinsics restingScaled.2.2)) :=
  ⟨⟨restingScaled_eq, restingScaled_degenerate.1, restingScaled_degenerate.2⟩,
    twoPointRansac_degenerate_mask pinholeLibrary (fun _ => 0) squarePts restingPts
      Matx33.eye pinholeIntrinsics "radtan" ⟨0, 0, 0, 0⟩ 3 (99 / 100) restingScaled.1
      restingScaled.2.1 restingScaled.2.2 restingScaled_eq restingScaled_degenerate.1
      restingScaled_degenerate.2⟩

/-- C17 (counterexample): with `inlier_error = 100` the pair 3 of `squarePts` and
`restingPts` is on the degenerate path, its distance does not exceed `inlier_error*u`, and
the returned mask marks it as outlier: it was cleared by the pre-filter at `50*u`. -/
theorem degenerate_mask_keeps_prefilter :
    ∃ out, twoPointRansac pinholeLibrary (fun _ => 0) squarePts restingPts Matx33.eye
        pinholeIntrinsics "radtan" ⟨0, 0, 0, 0⟩ 100 (99 / 100) = some out ∧
      3 ≤ rawInlierCntr pinholeLibrary (List.zipWith Point2f.sub restingScaled.1
        restingScaled.2.1) (ransacPixelUnit pinholeIntrinsics restingScaled.2.2) ∧
      preFilterDistanceSum pinholeLibrary (List.zipWith Point2f.sub restingScaled.1
          restingScaled.2.1) (ransacPixelUnit pinholeIntrinsics restingScaled.2.2) /
        (rawInlierCntr pinholeLibrary (List.zipWith Point2f.sub restingScaled.1
          restingScaled.2.1) (ransacPixelUnit pinholeIntrinsics restingScaled.2.2) : ℚ) <
        ransacPixelUnit pinholeIntrinsics restingScaled.2.2 ∧
      out.inlier_markers = [1, 1, 1, 0] ∧
      out.inlier_markers.getD 3 1 = 0 ∧
      ¬ (pairDistance pinholeLibrary restingScaled.1 restingScaled.2.1 3 >
        100 * ransacPixelUnit pinholeIntrinsics restingScaled.2.2) := by
  have hsome : (twoPointRansac pinholeLibrary (fun _ => 0) squarePts restingPts Matx33.eye
      pinholeIntrinsics "radtan" ⟨0, 0, 0, 0⟩ 100 (99 / 100)).map
        (fun o => o.inlier_markers) = some [1, 1, 1, 0] := by
    decide!
  cases hr : twoPointRansac pinholeLibrary (fun _ => 0) squarePts restingPts Matx33.eye
      pinholeIntrinsics "radtan" ⟨0, 0, 0, 0⟩ 100 (99 / 100) with
  | none => rw [hr] at hsome; simp at hsome
  | some out =>
    rw [hr] at hsome
    simp only [Option.map_some', Option.some.injEq] at hsome
    refine ⟨out, rfl, restingScaled_degenerate.1, restingScaled_degenerate.2, hsome, ?_, ?_⟩
    · rw [hsome]
      rfl
    · decide!

theorem shiftedScaled_eq :
    ransacPoints pinholeLibrary squarePts shiftedPts Matx33.eye pinholeIntrinsics "radtan"
        ⟨0, 0, 0, 0⟩ =
      some (shiftedScaled.1, shiftedScaled.2.1, shiftedScaled.2.2) := by
  decide!

/-- C18 (failing input): for `squarePts` and `shiftedPts` the pre-filter clears pair 1 and
keeps the pairs 0, 2 and 3, the motion is not degenerate, and with the draws `r = 0` and
`idx_diff = 1` of the first pass the loop samples `pair_idx1 = 0` and `pair_idx2 = 1`:
`pair_idx2` is not an entry of `raw_inlier_idx`, and its marker is 0. -/
theorem sampled_pair_outside_survivors :
    preFilterMarkers pinholeLibrary
        (List.zipWith Point2f.sub shiftedScaled.1 shiftedScaled.2.1)
        (ransacPixelUnit pinholeIntrinsics shiftedScaled.2.2) = [1, 0, 1, 1] ∧
      rawInlierIdx [1, 0, 1, 1] = [0, 2, 3] ∧
      ¬ (rawInlierCntr pinholeLibrary
        (List.zipWith Point2f.sub shiftedScaled.1 shiftedScaled.2.1)
        (ransacPixelUnit pinholeIntrinsics shiftedScaled.2.2) < 3) ∧
      ¬ (preFilterDistanceSum pinholeLibrary
          (List.zipWith Point2f.sub shiftedScaled.1 shiftedScaled.2.1)
          (ransacPixelUnit pinholeIntrinsics shiftedScaled.2.2) /
        (rawInlierCntr pinholeLibrary
          (List.zipWith Point2f.sub shiftedScaled.1 shiftedScaled.2.1)
          (ransacPixelUnit pinholeIntrinsics shiftedScaled.2.2) : ℚ) <
        ransacPixelUnit pinholeIntrinsics shiftedScaled.2.2) ∧
      0 < (ransacIterNum pinholeLibrary (99 / 100)).toNat ∧
      uniformInteger 0 0 (((rawInlierIdx [1, 0, 1, 1]).length : Int) - 1) = 0 ∧
      uniformInteger 0 1 (((rawInlierIdx [1, 0, 1, 1]).length : Int) - 1) = 1 ∧
      pairIndices (rawInlierIdx [1, 0, 1, 1]) 0 1 = some (0, 1) ∧
      (1 : Nat) ∉ rawInlierIdx [1, 0, 1, 1] ∧
      ([1, 0, 1, 1] : List Int).getD 1 1 = 0 := by
  refine ⟨by decide!, by decide, by decide!, by decide!, by decide!, by decide, by decide,
    by decide, by decide, by decide⟩

/-! ## Cell codes (C15) -/

theorem truncToInt_div_range (y : ℚ) (size n cell : Int) (hcell : 0 < cell)
    (hsize : n * cell = size) (hy : 0 ≤ y ∧ y ≤ (size : ℚ) - 1) :
    0 ≤ truncToInt (y / (cell : ℚ)) ∧ truncToInt (y / (cell : ℚ)) < n := by
  have hcq : (0 : ℚ) < (cell : ℚ) := by exact_mod_cast hcell
  have h0 : 0 ≤ y / (cell : ℚ) := div_nonneg hy.1 (le_of_lt hcq)
  unfold truncToInt
  rw [if_pos h0]
  refine ⟨Int.floor_nonneg.2 h0, ?_⟩
  rw [Int.floor_lt, div_lt_iff₀ hcq]
  have hs : ((n * cell : Int) : ℚ) = (size : ℚ) := by rw [hsize]
  push_cast at hs
  linarith [hy.2]

theorem cellCode_in_grid (rows cols grid_row grid_col : Int) (p : Point2f)
    (hrow : 0 < grid_row) (hcol : 0 < grid_col) (hrows : 0 < rows) (hcols : 0 < cols)
    (hdr : grid_row ∣ rows) (hdc : grid_col ∣ cols)
    (hx : 0 ≤ p.x ∧ p.x ≤ (cols : ℚ) - 1) (hy : 0 ≤ p.y ∧ p.y ≤ (rows : ℚ) - 1) :
    (0 ≤ truncToInt (p.y / ((Int.tdiv rows grid_row : Int) : ℚ)) ∧
        truncToInt (p.y / ((Int.tdiv rows grid_row : Int) : ℚ)) < grid_row) ∧
      (0 ≤ truncToInt (p.x / ((Int.tdiv cols grid_col : Int) : ℚ)) ∧
        truncToInt (p.x / ((Int.tdiv cols grid_col : Int) : ℚ)) < grid_col) ∧
      0 ≤ cellCode (Int.tdiv rows grid_row) (Int.tdiv cols grid_col) grid_col p ∧
      cellCode (Int.tdiv rows grid_row) (Int.tdiv cols grid_col) grid_col p <
        grid_row * grid_col := by
  obtain ⟨kr, hkr⟩ := hdr
  obtain ⟨kc, hkc⟩ := hdc
  have hgr : Int.tdiv rows grid_row = kr := by
    rw [hkr, Int.mul_tdiv_cancel_left _ (ne_of_gt hrow)]
  have hgc : Int.tdiv cols grid_col = kc := by
    rw [hkc, Int.mul_tdiv_cancel_left _ (ne_of_gt hcol)]
  have hkrpos : 0 < kr := by
    by_contra hneg
    have : grid_row * kr ≤ 0 := Int.mul_nonpos_of_nonneg_of_nonpos (le_of_lt hrow) (by omega)
    omega
  have hkcpos : 0 < kc := by
    by_contra hneg
    have : grid_col * kc ≤ 0 := Int.mul_nonpos_of_nonneg_of_nonpos (le_of_lt hcol) (by omega)
    omega
  rw [hgr, hgc]
  have hR := truncToInt_div_range p.y rows grid_row kr hkrpos hkr.symm hy
  have hC := truncToInt_div_range p.x cols grid_col kc hkcpos hkc.symm hx
  refine ⟨hR, hC, ?_, ?_⟩
  · unfold cellCode
    have := Int.mul_nonneg hR.1 (le_of_lt hcol)
    omega
  · unfold cellCode
    have h1 : truncToInt (p.y / (kr : ℚ)) * grid_col ≤ (grid_row - 1) * grid_col :=
      Int.mul_le_mul_of_nonneg_right (by omega) (le_of_lt hcol)
    have h2 : (grid_row - 1) * grid_col = grid_row * grid_col - grid_col := by ring
    omega

/-- C15 (failing input): for an image of 480 rows and 752 columns and a 7x4 grid the cell
is 68 rows high; the in-frame point `(100, 476)` gets row 7 and code 28, which is not below
`grid_row*grid_col = 28`; the write to `new_feature_sieve[28]` is outside the vector, and
`addNewFeatures` has no defined result on a frame with this detection. -/
theorem cell_code_outside_grid :
    gridSize sevenRowConfig (wideFrame 1 [⟨⟨100, 476⟩, 1⟩]) = some (68, 188) ∧
      ((0 : ℚ) ≤ 100 ∧ (100 : ℚ) ≤ 752 - 1 ∧ (0 : ℚ) ≤ 476 ∧ (476 : ℚ) ≤ 480 - 1) ∧
      truncToInt ((476 : ℚ) / ((68 : Int) : ℚ)) = 7 ∧
      cellCode 68 188 sevenRowConfig.grid_col ⟨100, 476⟩ = 28 ∧
      ¬ (cellCode 68 188 sevenRowConfig.grid_col ⟨100, 476⟩ <
        sevenRowConfig.grid_row * sevenRowConfig.grid_col) ∧
      sievedDetections 68 188 sevenRowConfig [⟨⟨100, 476⟩, 1⟩] = none ∧
      afterWideFirstFrame.is_first_img = false ∧
      (trackFeatures exampleLibrary sevenRowConfig exampleCalibration afterWideFirstFrame
        (wideFrame 1 [⟨⟨100, 476⟩, 1⟩])).isSome = true ∧
      (stereoCallback exampleLibrary sevenRowConfig exampleCalibration afterWideFirstFrame
        (wideFrame 1 [⟨⟨100, 470⟩, 1⟩])).isSome = true ∧
      addNewFeatures exampleLibrary sevenRowConfig exampleCalibration afterWideFirstFrame
        (wideFrame 1 [⟨⟨100, 476⟩, 1⟩]) = none ∧
      stereoCallback exampleLibrary sevenRowConfig exampleCalibration afterWideFirstFrame
        (wideFrame 1 [⟨⟨100, 476⟩, 1⟩]) = none := by
  refine ⟨by decide!, by norm_num, by decide!, by decide!, by decide!, by decide!,
    by decide!, by decide!, by decide!, by decide!, by decide!⟩

/-! ## The iteration count (C16) -/

theorem truncToInt_intCast (z : Int) : truncToInt (z : ℚ) = z := by
  unfold truncToInt
  split
  · exact Int.floor_intCast z
  · exact Int.ceil_intCast z

theorem log_ratio_bounds :
    Real.log (1 / 100) - 6 * Real.log (51 / 100) < -(7 / 100) ∧
      8 / 100 < Real.log (1 / 100) - 7 * Real.log (51 / 100) ∧
      Real.log (51 / 100) < -(1 / 100) := by
  have h51 : (0 : ℝ) < 51 / 100 := by norm_num
  have e6 : Real.log ((1 / 100) / (51 / 100) ^ 6) =
      Real.log (1 / 100) - 6 * Real.log (51 / 100) := by
    rw [Real.log_div (by norm_num) (by positivity), Real.log_pow]
    norm_num
  have e7 : Real.log ((1 / 100) / (51 / 100) ^ 7) =
      Real.log (1 / 100) - 7 * Real.log (51 / 100) := by
    rw [Real.log_div (by norm_num) (by positivity), Real.log_pow]
    norm_num
  have u6 := Real.log_le_sub_one_of_pos
    (show (0 : ℝ) < (1 / 100) / (51 / 100) ^ 6 by positivity)
  have l7 := Real.one_sub_inv_le_log_of_pos
    (show (0 : ℝ) < (1 / 100) / (51 / 100) ^ 7 by positivity)
  have u51 := Real.log_le_sub_one_of_pos h51
  rw [e6] at u6
  rw [e7] at l7
  refine ⟨?_, ?_, ?_⟩
  · have : ((1 : ℝ) / 100) / (51 / 100) ^ 6 - 1 < -(7 / 100) := by norm_num
    linarith
  · have : (8 : ℝ) / 100 < 1 - ((1 / 100) / (51 / 100) ^ 7)⁻¹ := by norm_num
    linarith
  · have : ((51 : ℝ) / 100) - 1 < -(1 / 100) := by norm_num
    linarith

/-- C16: `iter_num` is the ceiling of `log(1 - success_probability) / log(1 - 0.7*0.7)`,
and with a `log` that is within 1/100 of the natural logarithm at the two arguments
`1 - 0.99` and `1 - 0.7*0.7` it is 7 for the success probability 0.99. -/
theorem ransacIterNum_value (cv : OpenCV) :
    (∀ success_probability : ℚ,
        ransacIterNum cv success_probability =
          ⌈cv.log (1 - success_probability) / cv.log (1 - 0.7 * 0.7)⌉) ∧
      (|((cv.log (1 - 0.99) : ℚ) : ℝ) - Real.log (1 - 0.99)| ≤ 1 / 100 →
        |((cv.log (1 - 0.7 * 0.7) : ℚ) : ℝ) - Real.log (1 - 0.7 * 0.7)| ≤ 1 / 100 →
        ransacIterNum cv 0.99 = 7) := by
  refine ⟨fun p => truncToInt_intCast _, ?_⟩
  intro h1 h2
  have ea : (1 : ℝ) - 0.99 = 1 / 100 := by norm_num
  have eb : (1 : ℝ) - 0.7 * 0.7 = 51 / 100 := by norm_num
  rw [ea] at h1
  rw [eb] at h2
  obtain ⟨b6, b7, bneg⟩ := log_ratio_bounds
  rw [abs_le] at h1 h2
  unfold ransacIterNum
  rw [truncToInt_intCast, Int.ceil_eq_iff]
  have hbR : ((cv.log (1 - 0.7 * 0.7) : ℚ) : ℝ) < 0 := by linarith [h2.2]
  have hb : cv.log (1 - 0.7 * 0.7) < 0 := by exact_mod_cast hbR
  have h6R : ((cv.log (1 - 0.99) : ℚ) : ℝ) < 6 * ((cv.log (1 - 0.7 * 0.7) : ℚ) : ℝ) := by
    linarith [h1.2, h2.1]
  have h7R : 7 * ((cv.log (1 - 0.7 * 0.7) : ℚ) : ℝ) ≤ ((cv.log (1 - 0.99) : ℚ) : ℝ) := by
    linarith [h1.1, h2.2]
  have h6 : cv.log (1 - 0.99) < 6 * cv.log (1 - 0.7 * 0.7) := by exact_mod_cast h6R
  have h7 : 7 * cv.log (1 - 0.7 * 0.7) ≤ cv.log (1 - 0.99) := by exact_mod_cast h7R
  constructor
  · rw [lt_div_iff_of_neg hb]
    push_cast
    linarith
  · rw [div_le_iff_of_neg hb]
    push_cast
    linarith

theorem log_table_bounds :
    |((-460517 / 100000 : ℚ) : ℝ) - Real.log (1 / 100)| ≤ 1 / 100 ∧
      |((-67334 / 100000 : ℚ) : ℝ) - Real.log (51 / 100)| ≤ 1 / 100 := by
  have l2 := Real.log_two_gt_d9
  have u2 := Real.log_two_lt_d9
  have e125 : Real.log (125 / 128) = 3 * Real.log 5 - 7 * Real.log 2 := by
    rw [Real.log_div (by norm_num) (by norm_num),
      show (125 : ℝ) = 5 ^ 3 by norm_num, show (128 : ℝ) = 2 ^ 7 by norm_num,
      Real.log_pow, Real.log_pow]
    norm_num
  have e100 : Real.log (1 / 100) = -(2 * Real.log 2 + 2 * Real.log 5) := by
    rw [one_div, Real.log_inv, show (100 : ℝ) = 2 ^ 2 * 5 ^ 2 by norm_num,
      Real.log_mul (by norm_num) (by norm_num), Real.log_pow, Real.log_pow]
    norm_num
  have e51 : Real.log (51 / 100) = Real.log (102 / 100) - Real.log 2 := by
    rw [show (51 : ℝ) / 100 = (102 / 100) / 2 by norm_num,
      Real.log_div (by norm_num) (by norm_num)]
  have u125 := Real.log_le_sub_one_of_pos (show (0 : ℝ) < 125 / 128 by norm_num)
  have l125 := Real.one_sub_inv_le_log_of_pos (show (0 : ℝ) < 125 / 128 by norm_num)
  have u102 := Real.log_le_sub_one_of_pos (show (0 : ℝ) < 102 / 100 by norm_num)
  have l102 := Real.one_sub_inv_le_log_of_pos (show (0 : ℝ) < 102 / 100 by norm_num)
  norm_num at u125 l125 u102 l102 l2 u2
  constructor
  · rw [abs_le, e100]
    push_cast
    constructor <;> linarith
  · rw [abs_le, e51]
    push_cast
    constructor <;> linarith

theorem ransacIterNum_value_witness :
    (|((pinholeLibrary.log (1 - 0.99) : ℚ) : ℝ) - Real.log (1 - 0.99)| ≤ 1 / 100 ∧
      |((pinholeLibrary.log (1 - 0.7 * 0.7) : ℚ) : ℝ) - Real.log (1 - 0.7 * 0.7)| ≤
        1 / 100) ∧
      ransacIterNum pinholeLibrary 0.99 = 7 :=
  have ha : pinholeLibrary.log (1 - 0.99) = -460517 / 100000 := by
    norm_num [pinholeLibrary]
  have hb : pinholeLibrary.log (1 - 0.7 * 0.7) = -67334 / 100000 := by
    norm_num [pinholeLibrary]
  have h1 : |((pinholeLibrary.log (1 - 0.99) : ℚ) : ℝ) - Real.log (1 - 0.99)| ≤ 1 / 100 := by
    rw [ha, show (1 : ℝ) - 0.99 = 1 / 100 by norm_num]
    exact log_table_bounds.1
  have h2 : |((pinholeLibrary.log (1 - 0.7 * 0.7) : ℚ) : ℝ) - Real.log (1 - 0.7 * 0.7)| ≤
      1 / 100 := by
    rw [hb, show (1 : ℝ) - 0.7 * 0.7 = 51 / 100 by norm_num]
    exact log_table_bounds.2
  ⟨⟨h1, h2⟩, (ransacIterNum_value pinholeLibrary).2 h1 h2⟩

/-! ## The best inlier set (C21, C22, C23, C24, C29) -/

theorem ransacIteration_best_set (random : Nat → Nat) (coeff_t : List Vec3)
    (inlier_markers : List Int) (raw_inlier_idx : List Nat) (e u : ℚ) (n_pts iter_idx : Nat)
    (best : RansacBest) :
    (ransacIteration random coeff_t inlier_markers raw_inlier_idx e u n_pts iter_idx
        best).map RansacBest.best_inlier_set =
      (iterationInliers random coeff_t inlier_markers raw_inlier_idx e u iter_idx).map
        (updateBestSet n_pts best.best_inlier_set) := by
  rw [ransacIteration_eq]
  unfold iterationInliers sampledRows
  cases pairIndices raw_inlier_idx
      (uniformInteger (random (2 * iter_idx)) 0 ((raw_inlier_idx.length : Int) - 1))
      (uniformInteger (random (2 * iter_idx + 1)) 1
        ((raw_inlier_idx.length : Int) - 1)) with
  | none => rfl
  | some pair =>
    obtain ⟨pair_idx1, pair_idx2⟩ := pair
    dsimp only
    cases readAt coeff_t pair_idx1 with
    | none => rfl
    | some row1 =>
      cases readAt coeff_t pair_idx2 with
      | none => rfl
      | some row2 =>
        dsimp only
        simp only [Option.map_some', updateBestSet, passesInlierTest, decide_eq_true_eq]
        by_cases hsmall : ((inlierSet coeff_t inlier_markers
            (twoPointModel (baseIndicator row1 row2) row1 row2) e u).length : ℚ) <
              0.2 * (n_pts : ℚ)
        · rw [if_pos hsmall, if_neg (fun h => h.1 hsmall)]
          rfl
        · rw [if_neg hsmall]
          by_cases hlarger : (inlierSet coeff_t inlier_markers
              (twoPointModel (baseIndicator row1 row2) row1 row2) e u).length >
                best.best_inlier_set.length
          · rw [if_pos hlarger, if_pos ⟨hsmall, hlarger⟩]
            rfl
          · rw [if_neg hlarger, if_neg (fun h => hlarger h.2)]
            rfl

theorem ransacIteration_cases (random : Nat → Nat) (coeff_t : List Vec3)
    (inlier_markers : List Int) (raw_inlier_idx : List Nat) (e u : ℚ) (n_pts iter_idx : Nat)
    (best : RansacBest) (s : List Nat)
    (hs : iterationInliers random coeff_t inlier_markers raw_inlier_idx e u iter_idx =
      some s) :
    ∃ this_error, ransacIteration random coeff_t inlier_markers raw_inlier_idx e u n_pts
        iter_idx best =
      some (if passesInlierTest n_pts s = true ∧ s.length > best.best_inlier_set.length
        then ⟨s, this_error⟩ else best) := by
  rw [ransacIteration_eq]
  unfold iterationInliers sampledRows at hs
  cases hpair : pairIndices raw_inlier_idx
      (uniformInteger (random (2 * iter_idx)) 0 ((raw_inlier_idx.length : Int) - 1))
      (uniformInteger (random (2 * iter_idx + 1)) 1
        ((raw_inlier_idx.length : Int) - 1)) with
  | none => rw [hpair] at hs; simp at hs
  | some pair =>
    obtain ⟨pair_idx1, pair_idx2⟩ := pair
    rw [hpair] at hs
    dsimp only at hs ⊢
    cases h1 : readAt coeff_t pair_idx1 with
    | none => rw [h1] at hs; simp at hs
    | some row1 =>
      cases h2 : readAt coeff_t pair_idx2 with
      | none => rw [h1, h2] at hs; simp at hs
      | some row2 =>
        rw [h1, h2] at hs
        simp only [Option.map_some', Option.some.injEq] at hs
        dsimp only
        rw [hs]
        simp only [passesInlierTest, decide_eq_true_eq]
        refine ⟨(s.foldl (fun acc i => acc +
          |(coeff_t.map (fun r => r.dot (refitModel (baseIndicator row1 row2)
            (s.map (fun i => coeff_t.getD i ⟨0, 0, 0⟩))))).getD i 0|) 0) /
          (s.length : ℚ), ?_⟩
        by_cases hsmall : (s.length : ℚ) < 0.2 * (n_pts : ℚ)
        · simp only [hsmall, if_true, not_true_eq_false, false_and, if_false]
        · by_cases hlarger : s.length > best.best_inlier_set.length
          · simp only [hsmall, hlarger, if_true, if_false, not_false_eq_true, and_self]
          · simp only [hsmall, hlarger, if_true, if_false, not_false_eq_true, and_false]

theorem ransacLoop_invariant (random : Nat → Nat) (coeff_t : List Vec3)
    (inlier_markers : List Int) (raw_inlier_idx : List Nat) (e u : ℚ) (n_pts : Nat)
    (P : Nat → List Nat → Prop)
    (hstep : ∀ i b s, P i b →
      iterationInliers random coeff_t inlier_markers raw_inlier_idx e u i = some s →
      P (i + 1) (updateBestSet n_pts b s))
    (remaining iter_idx : Nat) (best result : RansacBest)
    (h0 : P iter_idx best.best_inlier_set)
    (hres : ransacLoop random coeff_t inlier_markers raw_inlier_idx e u n_pts remaining
      iter_idx best = some result) :
    P (iter_idx + remaining) result.best_inlier_set := by
  induction remaining generalizing iter_idx best with
  | zero =>
    unfold ransacLoop at hres
    simp only [Option.some.injEq] at hres
    rw [← hres]
    exact h0
  | succ k ih =>
    unfold ransacLoop at hres
    have hset := ransacIteration_best_set random coeff_t inlier_markers raw_inlier_idx e u
      n_pts iter_idx best
    cases hit : ransacIteration random coeff_t inlier_markers raw_inlier_idx e u n_pts
        iter_idx best with
    | none => rw [hit] at hres; simp at hres
    | some best1 =>
      rw [hit] at hres hset
      dsimp only at hres
      cases hs : iterationInliers random coeff_t inlier_markers raw_inlier_idx e u
          iter_idx with
      | none => rw [hs] at hset; simp at hset
      | some s =>
        rw [hs] at hset
        simp only [Option.map_some', Option.some.injEq] at hset
        have h1 := hstep iter_idx best.best_inlier_set s h0 hs
        rw [← hset] at h1
        have := ih (iter_idx + 1) best1 h1 hres
        rw [show iter_idx + (k + 1) = iter_idx + 1 + k by omega]
        exact this

theorem ransacIteration_noRefit (random : Nat → Nat) (coeff_t : List Vec3)
    (inlier_markers : List Int) (raw_inlier_idx : List Nat) (e u : ℚ) (n_pts iter_idx : Nat)
    (best : RansacBest) :
    (ransacIteration random coeff_t inlier_markers raw_inlier_idx e u n_pts iter_idx
        best).map RansacBest.best_inlier_set =
      ransacIterationNoRefit random coeff_t inlier_markers raw_inlier_idx e u n_pts iter_idx
        best.best_inlier_set := by
  unfold ransacIteration ransacIterationNoRefit
  dsimp only
  cases readAt raw_inlier_idx
      (uniformInteger (random (2 * iter_idx)) 0 ((raw_inlier_idx.length : Int) - 1)) with
  | none => rfl
  | some idx1 =>
    dsimp only
    split
    · split
      · rfl
      · split <;> rfl
    · rfl

theorem ransacLoop_noRefit (random : Nat → Nat) (coeff_t : List Vec3)
    (inlier_markers : List Int) (raw_inlier_idx : List Nat) (e u : ℚ) (n_pts : Nat)
    (remaining iter_idx : Nat) (best : RansacBest) :
    (ransacLoop random coeff_t inlier_markers raw_inlier_idx e u n_pts remaining iter_idx
        best).map RansacBest.best_inlier_set =
      ransacLoopNoRefit random coeff_t inlier_markers raw_inlier_idx e u n_pts remaining
        iter_idx best.best_inlier_set := by
  induction remaining generalizing iter_idx best with
  | zero => rfl
  | succ k ih =>
    unfold ransacLoop ransacLoopNoRefit
    rw [← ransacIteration_noRefit]
    cases ransacIteration random coeff_t inlier_markers raw_inlier_idx e u n_pts iter_idx
        best with
    | none => rfl
    | some best1 => exact ih (iter_idx + 1) best1

theorem ransacLoop_noRefit_nil (random : Nat → Nat) (coeff_t : List Vec3)
    (inlier_markers : List Int) (raw_inlier_idx : List Nat) (e u : ℚ) (n_pts : Nat)
    (remaining iter_idx : Nat) (best_error : ℚ) :
    (ransacLoop random coeff_t inlier_markers raw_inlier_idx e u n_pts remaining iter_idx
        ⟨[], best_error⟩).map RansacBest.best_inlier_set =
      ransacLoopNoRefit random coeff_t inlier_markers raw_inlier_idx e u n_pts remaining
        iter_idx [] :=
  ransacLoop_noRefit random coeff_t inlier_markers raw_inlier_idx e u n_pts remaining
    iter_idx ⟨[], best_error⟩

/-- C29: the result of `twoPointRansac` (the mask and the logged size error) is the result
of the same procedure with the refit step removed from the loop, for all inputs and all
random draws. -/
theorem twoPointRansac_independent_of_refit (cv : OpenCV) (random : Nat → Nat)
    (pts1 pts2 : List Point2f) (R_p_c : Matx33) (intrinsics : Vec4)
    (distortion_model : String) (distortion_coeffs : Vec4)
    (inlier_error success_probability : ℚ) :
    twoPointRansac cv random pts1 pts2 R_p_c intrinsics distortion_model distortion_coeffs
        inlier_error success_probability =
      twoPointRansacNoRefit cv random pts1 pts2 R_p_c intrinsics distortion_model
        distortion_coeffs inlier_error success_probability := by
  unfold twoPointRansac twoPointRansacNoRefit
  dsimp only
  split
  · rfl
  · split
    · rfl
    · split
      · rfl
      · rw [← ransacLoop_noRefit_nil random _ _ _ _ _ _ _ _ 10000000000]
        split <;> rename_i hloop <;> rw [hloop] <;> rfl

/-- C21 (amended): a pass whose inlier set has fewer than 20% of the number of pairs
leaves the best model as it is; a pass whose inlier set has at least 20% of the number of
pairs (equality included) is considered, and its set becomes the best inlier set exactly
when it is larger than the best one so far. -/
theorem ransacIteration_inlier_test (random : Nat → Nat) (coeff_t : List Vec3)
    (inlier_markers : List Int) (raw_inlier_idx : List Nat) (e u : ℚ) (n_pts iter_idx : Nat)
    (best : RansacBest) (s : List Nat)
    (hs : iterationInliers random coeff_t inlier_markers raw_inlier_idx e u iter_idx =
      some s) :
    ∃ b, ransacIteration random coeff_t inlier_markers raw_inlier_idx e u n_pts iter_idx
        best = some b ∧
      ((s.length : ℚ) < 0.2 * (n_pts : ℚ) → b = best) ∧
      (0.2 * (n_pts : ℚ) ≤ (s.length : ℚ) →
        b.best_inlier_set =
          if s.length > best.best_inlier_set.length then s else best.best_inlier_set) := by
  obtain ⟨err, herr⟩ := ransacIteration_cases random coeff_t inlier_markers raw_inlier_idx
    e u n_pts iter_idx best s hs
  refine ⟨_, herr, ?_, ?_⟩
  · intro hsmall
    have hfail : ¬ (passesInlierTest n_pts s = true ∧
        s.length > best.best_inlier_set.length) := by
      intro h
      have h1 := h.1
      simp only [passesInlierTest, decide_eq_true_eq] at h1
      exact h1 hsmall
    rw [if_neg hfail]
  · intro hlarge
    have hpass : passesInlierTest n_pts s = true := by
      simp only [passesInlierTest, decide_eq_true_eq, not_lt]
      exact hlarge
    by_cases hgt : s.length > best.best_inlier_set.length
    · rw [if_pos ⟨hpass, hgt⟩, if_pos hgt]
    · rw [if_neg (fun h => hgt h.2), if_neg hgt]

theorem tenScaled_eq :
    ransacPoints pinholeLibrary tenPts1 tenPts2 Matx33.eye pinholeIntrinsics "radtan"
        ⟨0, 0, 0, 0⟩ =
      some (tenScaled.1, tenScaled.2.1, tenScaled.2.2) := by
  decide!

theorem tenScaled_first_pass :
    iterationInliers (fun _ => 0) (ransacCoeff tenScaled)
        (ransacMarkers pinholeLibrary pinholeIntrinsics tenScaled)
        (rawInlierIdx (ransacMarkers pinholeLibrary pinholeIntrinsics tenScaled)) 3
        (ransacPixelUnit pinholeIntrinsics tenScaled.2.2) 0 = some [0, 1] := by
  decide!

theorem ransacIteration_inlier_test_witness :
    iterationInliers (fun _ => 0) (ransacCoeff tenScaled)
        (ransacMarkers pinholeLibrary pinholeIntrinsics tenScaled)
        (rawInlierIdx (ransacMarkers pinholeLibrary pinholeIntrinsics tenScaled)) 3
        (ransacPixelUnit pinholeIntrinsics tenScaled.2.2) 0 = some [0, 1] ∧
      ∃ b, ransacIteration (fun _ => 0) (ransacCoeff tenScaled)
          (ransacMarkers pinholeLibrary pinholeIntrinsics tenScaled)
          (rawInlierIdx (ransacMarkers pinholeLibrary pinholeIntrinsics tenScaled)) 3
          (ransacPixelUnit pinholeIntrinsics tenScaled.2.2) 10 0 ⟨[], 10000000000⟩ =
            some b ∧
        ((([0, 1] : List Nat).length : ℚ) < 0.2 * ((10 : Nat) : ℚ) →
          b = ⟨[], 10000000000⟩) ∧
        (0.2 * ((10 : Nat) : ℚ) ≤ (([0, 1] : List Nat).length : ℚ) →
          b.best_inlier_set =
            if ([0, 1] : List Nat).length >
                (⟨[], 10000000000⟩ : RansacBest).best_inlier_set.length
            then [0, 1] else (⟨[], 10000000000⟩ : RansacBest).best_inlier_set) :=
  ⟨tenScaled_first_pass,
    ransacIteration_inlier_test (fun _ => 0) (ransacCoeff tenScaled)
      (ransacMarkers pinholeLibrary pinholeIntrinsics tenScaled)
      (rawInlierIdx (ransacMarkers pinholeLibrary pinholeIntrinsics tenScaled)) 3
      (ransacPixelUnit pinholeIntrinsics tenScaled.2.2) 10 0 ⟨[], 10000000000⟩ [0, 1]
      tenScaled_first_pass⟩

/-- C21 (counterexample): for `tenPts1` and `tenPts2` every pass has the inlier set
`[0, 1]`, whose size 2 is exactly 20% of the 10 pairs and so not strictly larger; the pass
is not skipped: its set becomes the best inlier set and the returned mask marks the pairs
0 and 1. -/
theorem inlier_test_admits_equality :
    iterationInliers (fun _ => 0) (ransacCoeff tenScaled)
        (ransacMarkers pinholeLibrary pinholeIntrinsics tenScaled)
        (rawInlierIdx (ransacMarkers pinholeLibrary pinholeIntrinsics tenScaled)) 3
        (ransacPixelUnit pinholeIntrinsics tenScaled.2.2) 0 = some [0, 1] ∧
      ¬ ((([0, 1] : List Nat).length : ℚ) > 0.2 * (tenPts1.length : ℚ)) ∧
      (ransacIteration (fun _ => 0) (ransacCoeff tenScaled)
          (ransacMarkers pinholeLibrary pinholeIntrinsics tenScaled)
          (rawInlierIdx (ransacMarkers pinholeLibrary pinholeIntrinsics tenScaled)) 3
          (ransacPixelUnit pinholeIntrinsics tenScaled.2.2) tenPts1.length 0
          ⟨[], 10000000000⟩).map RansacBest.best_inlier_set = some [0, 1] ∧
      (twoPointRansac pinholeLibrary (fun _ => 0) tenPts1 tenPts2 Matx33.eye
          pinholeIntrinsics "radtan" ⟨0, 0, 0, 0⟩ 3 (99 / 100)).map
        RansacOutput.inlier_markers = some [1, 1, 0, 0, 0, 0, 0, 0, 0, 0] := by
  refine ⟨tenScaled_first_pass, by decide!, by decide!, by decide!⟩

theorem fillMarkers_getD (n : Nat) (best : List Nat) (i : Nat) (d : Int) (hi : i < n) :
    (fillMarkers n best).getD i d = if i ∈ best then 1 else 0 := by
  unfold fillMarkers
  have key : ∀ (init : List Int), i < init.length →
      (best.foldl (fun markers inlier_idx => markers.set inlier_idx 1) init).getD i d =
        if i ∈ best then 1 else init.getD i d := by
    induction best with
    | nil => intro init _; simp
    | cons x rest ih =>
      intro init hlen
      rw [List.foldl_cons, ih (init.set x 1) (by rw [List.length_set]; exact hlen)]
      by_cases hrest : i ∈ rest
      · rw [if_pos hrest, if_pos (List.mem_cons_of_mem _ hrest)]
      · rw [if_neg hrest]
        rw [List.getD_eq_getElem _ _ (by rw [List.length_set]; exact hlen),
          List.getElem_set]
        by_cases hx : x = i
        · rw [if_pos hx, if_pos (by rw [hx]; exact List.mem_cons_self _ _)]
        · rw [if_neg hx, List.getD_eq_getElem _ _ hlen]
          have hnot : i ∉ x :: rest := by
            intro hmem
            rcases List.mem_cons.1 hmem with h | h
            · exact hx h.symm
            · exact hrest h
          rw [if_neg hnot]
  rw [key _ (by rw [List.length_replicate]; exact hi)]
  by_cases hmem : i ∈ best
  · rw [if_pos hmem, if_pos hmem]
  · rw [if_neg hmem, if_neg hmem, List.getD_eq_getElem _ _
      (by rw [List.length_replicate]; exact hi)]
    simp

theorem preFilterMarkers_getD (cv : OpenCV) (p1 p2 : List Point2f) (u : ℚ) (i : Nat)
    (h1 : i < p1.length) (h2 : i < p2.length) :
    (preFilterMarkers cv (List.zipWith Point2f.sub p1 p2) u).getD i 0 =
      if pairDistance cv p1 p2 i > 50 * u then 0 else 1 := by
  have hl : i < (preFilterMarkers cv (List.zipWith Point2f.sub p1 p2) u).length := by
    simp only [preFilterMarkers, List.length_zipWith, List.length_map]
    omega
  rw [List.getD_eq_getElem _ _ hl]
  simp only [preFilterMarkers, List.getElem_zipWith, List.getElem_map,
    pairDistance, List.getD_eq_getElem _ _ h1, List.getD_eq_getElem _ _ h2]

theorem inlierSet_mem (coeff_t : List Vec3) (inlier_markers : List Int) (model : Vec3)
    (e u : ℚ) (i : Nat) :
    i ∈ inlierSet coeff_t inlier_markers model e u ↔
      i < coeff_t.length ∧ inlier_markers.getD i 0 ≠ 0 ∧
        |(coeff_t.getD i ⟨0, 0, 0⟩).dot model| < e * u := by
  unfold inlierSet
  simp only [List.mem_filter, List.mem_range, List.length_map, decide_eq_true_eq]
  constructor
  · rintro ⟨hlt, hm, herr⟩
    refine ⟨hlt, hm, ?_⟩
    rw [List.getD_eq_getElem _ _ (by rw [List.length_map]; exact hlt),
      List.getElem_map] at herr
    rw [List.getD_eq_getElem _ _ hlt]
    exact herr
  · rintro ⟨hlt, hm, herr⟩
    refine ⟨hlt, hm, ?_⟩
    rw [List.getD_eq_getElem _ _ (by rw [List.length_map]; exact hlt),
      List.getElem_map]
    rw [List.getD_eq_getElem _ _ hlt] at herr
    exact herr

theorem iterationInliers_mem (random : Nat → Nat) (coeff_t : List Vec3)
    (inlier_markers : List Int) (raw_inlier_idx : List Nat) (e u : ℚ) (iter_idx : Nat)
    (s : List Nat)
    (hs : iterationInliers random coeff_t inlier_markers raw_inlier_idx e u iter_idx =
      some s) :
    ∃ row1 row2, sampledRows random coeff_t raw_inlier_idx iter_idx = some (row1, row2) ∧
      s = inlierSet coeff_t inlier_markers
        (twoPointModel (baseIndicator row1 row2) row1 row2) e u := by
  unfold iterationInliers at hs
  cases hrows : sampledRows random coeff_t raw_inlier_idx iter_idx with
  | none => rw [hrows] at hs; simp at hs
  | some rows =>
    rw [hrows] at hs
    simp only [Option.map_some', Option.some.injEq] at hs
    exact ⟨rows.1, rows.2, rfl, hs.symm⟩

theorem iterationInliers_isSome (random : Nat → Nat) (coeff_t : List Vec3)
    (inlier_markers : List Int) (raw_inlier_idx : List Nat) (e u : ℚ) (iter_idx : Nat)
    (hm : 2 ≤ raw_inlier_idx.length) (hmn : raw_inlier_idx.length ≤ coeff_t.length)
    (helem : ∀ i ∈ raw_inlier_idx, i < coeff_t.length) :
    ∃ s, iterationInliers random coeff_t inlier_markers raw_inlier_idx e u iter_idx =
      some s := by
  obtain ⟨b, hb⟩ := ransacIteration_isSome random coeff_t inlier_markers raw_inlier_idx
    e u 0 iter_idx ⟨[], 0⟩ hm hmn helem
  have hset := ransacIteration_best_set random coeff_t inlier_markers raw_inlier_idx e u 0
    iter_idx ⟨[], 0⟩
  rw [hb] at hset
  cases hs : iterationInliers random coeff_t inlier_markers raw_inlier_idx e u iter_idx with
  | none => rw [hs] at hset; simp at hset
  | some s => exact ⟨s, rfl⟩

theorem ransacPath_facts (cv : OpenCV) (p1 p2 : List Point2f) (u : ℚ) (n : Nat)
    (h1 : p1.length = n) (h2 : n ≤ p2.length) :
    (List.zipWith coeffRow p1 p2).length = n ∧
      (preFilterMarkers cv (List.zipWith Point2f.sub p1 p2) u).length = n ∧
      (rawInlierIdx (preFilterMarkers cv (List.zipWith Point2f.sub p1 p2) u)).length =
        rawInlierCntr cv (List.zipWith Point2f.sub p1 p2) u := by
  refine ⟨?_, ?_, ?_⟩
  · rw [List.length_zipWith, h1]; omega
  · simp only [preFilterMarkers, List.length_map, List.length_zipWith, h1]; omega
  · exact rawInlierIdx_length cv _ u

/-- C22: on every return path of `twoPointRansac` a pair whose distance exceeds `50*u` has
marker 0 in the returned mask; and the inlier set of every pass of the RANSAC loop
consists of exactly the indices `i` that passed the pre-filter and have
`|coeff_t(i,:) · model| < inlier_error*u` for the model of the pass. -/
theorem twoPointRansac_prefiltered_stay_outliers (cv : OpenCV) (random : Nat → Nat)
    (pts1 pts2 : List Point2f) (R_p_c : Matx33) (intrinsics : Vec4)
    (distortion_model : String) (distortion_coeffs : Vec4)
    (inlier_error success_probability : ℚ) (p1 p2 : List Point2f) (sf : ℚ)
    (hp : ransacPoints cv pts1 pts2 R_p_c intrinsics distortion_model distortion_coeffs =
      some (p1, p2, sf)) :
    (∃ out, twoPointRansac cv random pts1 pts2 R_p_c intrinsics distortion_model
        distortion_coeffs inlier_error success_probability = some out ∧
      out.inlier_markers.length = pts1.length ∧
      ∀ i, i < pts1.length →
        pairDistance cv p1 p2 i > 50 * ransacPixelUnit intrinsics sf →
        out.inlier_markers.getD i 1 = 0) ∧
      ∀ iter_idx s,
        iterationInliers random (ransacCoeff (p1, p2, sf))
            (ransacMarkers cv intrinsics (p1, p2, sf))
            (rawInlierIdx (ransacMarkers cv intrinsics (p1, p2, sf))) inlier_error
            (ransacPixelUnit intrinsics sf) iter_idx = some s →
        ∃ row1 row2,
          sampledRows random (ransacCoeff (p1, p2, sf))
              (rawInlierIdx (ransacMarkers cv intrinsics (p1, p2, sf))) iter_idx =
            some (row1, row2) ∧
          ∀ i, i ∈ s ↔
            (i < pts1.length ∧
              ¬ (pairDistance cv p1 p2 i > 50 * ransacPixelUnit intrinsics sf) ∧
              |((ransacCoeff (p1, p2, sf)).getD i ⟨0, 0, 0⟩).dot
                  (twoPointModel (baseIndicator row1 row2) row1 row2)| <
                inlier_error * ransacPixelUnit intrinsics sf) := by
  obtain ⟨hl1, hl2, hle⟩ := ransacPoints_lengths cv pts1 pts2 R_p_c intrinsics
    distortion_model distortion_coeffs p1 p2 sf hp
  obtain ⟨hcoeff, hmark, hraw⟩ := ransacPath_facts cv p1 p2 (ransacPixelUnit intrinsics sf)
    pts1.length hl1 (by omega)
  have hmarker : ∀ i, i < pts1.length →
      ((preFilterMarkers cv (List.zipWith Point2f.sub p1 p2)
        (ransacPixelUnit intrinsics sf)).getD i 0 ≠ 0 ↔
        ¬ (pairDistance cv p1 p2 i > 50 * ransacPixelUnit intrinsics sf)) := by
    intro i hi
    rw [preFilterMarkers_getD cv p1 p2 _ i (by omega) (by omega)]
    by_cases hfar : pairDistance cv p1 p2 i > 50 * ransacPixelUnit intrinsics sf
    · simp [hfar]
    · simp [hfar]
  constructor
  · obtain ⟨out, hout, -, hlen, -⟩ := twoPointRansac_mask cv random pts1 pts2 R_p_c
      intrinsics distortion_model distortion_coeffs inlier_error success_probability hle
    refine ⟨out, hout, hlen, ?_⟩
    intro i hi hfar
    rw [twoPointRansac_of_points cv random pts1 pts2 R_p_c intrinsics distortion_model
      distortion_coeffs inlier_error success_probability p1 p2 sf hp] at hout
    split at hout
    · simp only [Option.some.injEq] at hout
      rw [← hout]
      dsimp only
      rw [List.getD_eq_getElem _ _ (by rw [List.length_map, hmark]; exact hi)]
      simp
    · split at hout
      · simp only [Option.some.injEq] at hout
        rw [← hout]
        dsimp only
        rw [degenerateMarkers_getD cv p1 p2 inlier_error (ransacPixelUnit intrinsics sf) i
          (by omega) (by omega), if_pos hfar]
      · cases hloop : ransacLoop random (List.zipWith coeffRow p1 p2)
            (preFilterMarkers cv (List.zipWith Point2f.sub p1 p2)
              (ransacPixelUnit intrinsics sf))
            (rawInlierIdx (preFilterMarkers cv (List.zipWith Point2f.sub p1 p2)
              (ransacPixelUnit intrinsics sf)))
            inlier_error (ransacPixelUnit intrinsics sf) p1.length
            (ransacIterNum cv success_probability).toNat 0 ⟨[], 10000000000⟩ with
        | none => rw [hloop] at hout; simp at hout
        | some best =>
          rw [hloop] at hout
          simp only [Option.map_some', Option.some.injEq] at hout
          rw [← hout]
          dsimp only
          have hinv := ransacLoop_invariant random (List.zipWith coeffRow p1 p2)
            (preFilterMarkers cv (List.zipWith Point2f.sub p1 p2)
              (ransacPixelUnit intrinsics sf))
            (rawInlierIdx (preFilterMarkers cv (List.zipWith Point2f.sub p1 p2)
              (ransacPixelUnit intrinsics sf)))
            inlier_error (ransacPixelUnit intrinsics sf) p1.length
            (fun _ b => ∀ x ∈ b, (preFilterMarkers cv (List.zipWith Point2f.sub p1 p2)
              (ransacPixelUnit intrinsics sf)).getD x 0 ≠ 0)
            (by
              intro j b s hb hs x hx
              unfold updateBestSet at hx
              split at hx
              · obtain ⟨row1, row2, -, hset⟩ := iterationInliers_mem _ _ _ _ _ _ _ _ hs
                rw [hset] at hx
                exact ((inlierSet_mem _ _ _ _ _ _).1 hx).2.1
              · exact hb x hx)
            (ransacIterNum cv success_probability).toNat 0 ⟨[], 10000000000⟩ best
            (by intro x hx; simp at hx) hloop
          rw [fillMarkers_getD _ _ _ _ hi]
          have hnot : i ∉ best.best_inlier_set := by
            intro hmem
            exact (hmarker i hi).1 (hinv i hmem) hfar
          rw [if_neg hnot]
  · intro iter_idx s hs
    obtain ⟨row1, row2, hrows, hset⟩ := iterationInliers_mem _ _ _ _ _ _ _ _ hs
    refine ⟨row1, row2, hrows, ?_⟩
    intro i
    rw [hset, inlierSet_mem]
    unfold ransacCoeff ransacMarkers
    dsimp only
    rw [hcoeff]
    constructor
    · rintro ⟨hi, hm, herr⟩
      exact ⟨hi, (hmarker i hi).1 hm, herr⟩
    · rintro ⟨hi, hm, herr⟩
      exact ⟨hi, (hmarker i hi).2 hm, herr⟩

theorem twoPointRansac_prefiltered_stay_outliers_witness :
    ransacPoints pinholeLibrary squarePts shiftedPts Matx33.eye pinholeIntrinsics "radtan"
          ⟨0, 0, 0, 0⟩ =
        some (shiftedScaled.1, shiftedScaled.2.1, shiftedScaled.2.2) ∧
      pairDistance pinholeLibrary shiftedScaled.1 shiftedScaled.2.1 1 >
        50 * ransacPixelUnit pinholeIntrinsics shiftedScaled.2.2 ∧
      ∃ out, twoPointRansac pinholeLibrary (fun _ => 0) squarePts shiftedPts Matx33.eye
          pinholeIntrinsics "radtan" ⟨0, 0, 0, 0⟩ 3 (99 / 100) = some out ∧
        out.inlier_markers.length = squarePts.length ∧
        ∀ i, i < squarePts.length →
          pairDistance pinholeLibrary shiftedScaled.1 shiftedScaled.2.1 i >
            50 * ransacPixelUnit pinholeIntrinsics shiftedScaled.2.2 →
          out.inlier_markers.getD i 1 = 0 :=
  ⟨shiftedScaled_eq, by decide!,
    (twoPointRansac_prefiltered_stay_outliers pinholeLibrary (fun _ => 0) squarePts
      shiftedPts Matx33.eye pinholeIntrinsics "radtan" ⟨0, 0, 0, 0⟩ 3 (99 / 100)
      shiftedScaled.1 shiftedScaled.2.1 shiftedScaled.2.2 shiftedScaled_eq).1⟩

theorem passesInlierTest_pos (n_pts : Nat) (s : List Nat) (hn : 0 < n_pts)
    (h : passesInlierTest n_pts s = true) : 0 < s.length := by
  simp only [passesInlierTest, decide_eq_true_eq, not_lt] at h
  have hq : (0 : ℚ) < (n_pts : ℚ) := by exact_mod_cast hn
  have hpos : (0 : ℚ) < (s.length : ℚ) := by
    have : (0 : ℚ) < 0.2 * (n_pts : ℚ) := mul_pos (by norm_num) hq
    linarith
  exact_mod_cast hpos

theorem earliestLargest_step (sets : Nat → Option (List Nat)) (n_pts : Nat)
    (hn : 0 < n_pts) (i : Nat) (b s : List Nat) (hP : EarliestLargest sets n_pts i b)
    (hs : sets i = some s) :
    EarliestLargest sets n_pts (i + 1) (updateBestSet n_pts b s) := by
  unfold updateBestSet
  by_cases hcond : passesInlierTest n_pts s = true ∧ s.length > b.length
  · rw [if_pos hcond]
    right
    refine ⟨i, by omega, hs, hcond.1, ?_, ?_⟩
    · intro k hk t ht hpass
      by_cases hki : k = i
      · rw [hki, hs] at ht
        simp only [Option.some.injEq] at ht
        rw [← ht]
      · have hklt : k < i := by omega
        rcases hP with ⟨-, hnone⟩ | ⟨j, -, -, -, hmax, -⟩
        · rw [hnone k hklt t ht] at hpass
          exact absurd hpass (by decide)
        · have := hmax k hklt t ht hpass
          omega
    · intro k hk t ht hpass
      rcases hP with ⟨-, hnone⟩ | ⟨j, -, -, -, hmax, -⟩
      · rw [hnone k hk t ht] at hpass
        exact absurd hpass (by decide)
      · have := hmax k hk t ht hpass
        omega
  · rw [if_neg hcond]
    rcases hP with ⟨hnil, hnone⟩ | ⟨j, hj, hsj, hpassj, hmax, hfirst⟩
    · left
      refine ⟨hnil, ?_⟩
      intro k hk t ht
      by_cases hki : k = i
      · rw [hki, hs] at ht
        simp only [Option.some.injEq] at ht
        rw [← ht]
        by_contra hpass
        have hpass2 : passesInlierTest n_pts s = true := by
          cases hval : passesInlierTest n_pts s with
          | true => rfl
          | false => exact absurd hval hpass
        have hpos := passesInlierTest_pos n_pts s hn hpass2
        apply hcond
        refine ⟨hpass2, ?_⟩
        rw [hnil]
        exact hpos
      · exact hnone k (by omega) t ht
    · right
      refine ⟨j, by omega, hsj, hpassj, ?_, hfirst⟩
      intro k hk t ht hpass
      by_cases hki : k = i
      · rw [hki, hs] at ht
        simp only [Option.some.injEq] at ht
        rw [← ht]
        by_contra hgt
        exact hcond ⟨by rw [ht]; exact hpass, by omega⟩
      · exact hmax k (by omega) t ht hpass

/-- C23: on the RANSAC path every pass has an inlier set, and the returned mask has a 1
exactly at the indices of the set `best` that is the inlier set of the earliest pass whose
set passes the 20% test and is largest among the sets that pass it; when no set passes
the test, `best` is empty and the mask is all zeros. -/
theorem twoPointRansac_marks_earliest_largest (cv : OpenCV) (random : Nat → Nat)
    (pts1 pts2 : List Point2f) (R_p_c : Matx33) (intrinsics : Vec4)
    (distortion_model : String) (distortion_coeffs : Vec4)
    (inlier_error success_probability : ℚ) (p1 p2 : List Point2f) (sf : ℚ)
    (hp : ransacPoints cv pts1 pts2 R_p_c intrinsics distortion_model distortion_coeffs =
      some (p1, p2, sf))
    (h3 : ¬ (rawInlierCntr cv (List.zipWith Point2f.sub p1 p2)
      (ransacPixelUnit intrinsics sf) < 3))
    (hmean : ¬ (preFilterDistanceSum cv (List.zipWith Point2f.sub p1 p2)
        (ransacPixelUnit intrinsics sf) /
      (rawInlierCntr cv (List.zipWith Point2f.sub p1 p2) (ransacPixelUnit intrinsics sf) : ℚ) <
        ransacPixelUnit intrinsics sf)) :
    ∃ out best, twoPointRansac cv random pts1 pts2 R_p_c intrinsics distortion_model
        distortion_coeffs inlier_error success_probability = some out ∧
      (∀ j, ∃ s, iterationInliers random (ransacCoeff (p1, p2, sf))
        (ransacMarkers cv intrinsics (p1, p2, sf))
        (rawInlierIdx (ransacMarkers cv intrinsics (p1, p2, sf))) inlier_error
        (ransacPixelUnit intrinsics sf) j = some s) ∧
      EarliestLargest
        (fun j => iterationInliers random (ransacCoeff (p1, p2, sf))
          (ransacMarkers cv intrinsics (p1, p2, sf))
          (rawInlierIdx (ransacMarkers cv intrinsics (p1, p2, sf))) inlier_error
          (ransacPixelUnit intrinsics sf) j)
        pts1.length (ransacIterNum cv success_probability).toNat best ∧
      out.inlier_markers.length = pts1.length ∧
      (∀ i, i < pts1.length → out.inlier_markers.getD i 0 = if i ∈ best then 1 else 0) ∧
      (best = [] → ∀ i, i < pts1.length → out.inlier_markers.getD i 0 = 0) := by
  obtain ⟨hl1, hl2, hle⟩ := ransacPoints_lengths cv pts1 pts2 R_p_c intrinsics
    distortion_model distortion_coeffs p1 p2 sf hp
  obtain ⟨hcoeff, hmark, hraw⟩ := ransacPath_facts cv p1 p2 (ransacPixelUnit intrinsics sf)
    pts1.length hl1 (by omega)
  have hcnt : rawInlierCntr cv (List.zipWith Point2f.sub p1 p2)
      (ransacPixelUnit intrinsics sf) ≤ pts1.length := by
    rw [← hraw]
    have := rawInlierIdx_length_le (preFilterMarkers cv (List.zipWith Point2f.sub p1 p2)
      (ransacPixelUnit intrinsics sf))
    rw [hmark] at this
    exact this
  have hn : 0 < pts1.length := by omega
  obtain ⟨out, hout, -, hlen, -⟩ := twoPointRansac_mask cv random pts1 pts2 R_p_c
    intrinsics distortion_model distortion_coeffs inlier_error success_probability hle
  have hout2 := hout
  rw [twoPointRansac_of_points cv random pts1 pts2 R_p_c intrinsics distortion_model
    distortion_coeffs inlier_error success_probability p1 p2 sf hp, if_neg h3,
    if_neg hmean] at hout2
  cases hloop : ransacLoop random (List.zipWith coeffRow p1 p2)
      (preFilterMarkers cv (List.zipWith Point2f.sub p1 p2) (ransacPixelUnit intrinsics sf))
      (rawInlierIdx (preFilterMarkers cv (List.zipWith Point2f.sub p1 p2)
        (ransacPixelUnit intrinsics sf)))
      inlier_error (ransacPixelUnit intrinsics sf) p1.length
      (ransacIterNum cv success_probability).toNat 0 ⟨[], 10000000000⟩ with
  | none => rw [hloop] at hout2; simp at hout2
  | some best =>
    rw [hloop] at hout2
    simp only [Option.map_some', Option.some.injEq] at hout2
    have hinv := ransacLoop_invariant random (List.zipWith coeffRow p1 p2)
      (preFilterMarkers cv (List.zipWith Point2f.sub p1 p2) (ransacPixelUnit intrinsics sf))
      (rawInlierIdx (preFilterMarkers cv (List.zipWith Point2f.sub p1 p2)
        (ransacPixelUnit intrinsics sf)))
      inlier_error (ransacPixelUnit intrinsics sf) p1.length
      (EarliestLargest
        (fun j => iterationInliers random (List.zipWith coeffRow p1 p2)
          (preFilterMarkers cv (List.zipWith Point2f.sub p1 p2)
            (ransacPixelUnit intrinsics sf))
          (rawInlierIdx (preFilterMarkers cv (List.zipWith Point2f.sub p1 p2)
            (ransacPixelUnit intrinsics sf)))
          inlier_error (ransacPixelUnit intrinsics sf) j) p1.length)
      (fun i b s hP hs => earliestLargest_step _ p1.length (by omega) i b s hP hs)
      (ransacIterNum cv success_probability).toNat 0 ⟨[], 10000000000⟩ best
      (Or.inl ⟨rfl, fun k hk => absurd hk (by omega)⟩) hloop
    rw [Nat.zero_add, hl1] at hinv
    have hmask : ∀ i, i < pts1.length →
        out.inlier_markers.getD i 0 = if i ∈ best.best_inlier_set then 1 else 0 := by
      intro i hi
      rw [← hout2]
      exact fillMarkers_getD _ _ _ _ hi
    refine ⟨out, best.best_inlier_set, hout, ?_, hinv, hlen, hmask, ?_⟩
    · intro j
      exact iterationInliers_isSome random _ _ _ _ _ j
        (by unfold ransacMarkers; dsimp only; rw [hraw]; omega)
        (by unfold ransacMarkers ransacCoeff; dsimp only; rw [hraw, hcoeff]; exact hcnt)
        (by
          intro i hi
          unfold ransacCoeff
          dsimp only
          rw [hcoeff]
          have := rawInlierIdx_mem_lt _ i hi
          unfold ransacMarkers at this
          dsimp only at this
          rw [hmark] at this
          exact this)
    · intro hnil i hi
      rw [hmask i hi, hnil]
      simp

theorem tenScaled_general_motion :
    ¬ (rawInlierCntr pinholeLibrary (List.zipWith Point2f.sub tenScaled.1 tenScaled.2.1)
        (ransacPixelUnit pinholeIntrinsics tenScaled.2.2) < 3) ∧
      ¬ (preFilterDistanceSum pinholeLibrary
          (List.zipWith Point2f.sub tenScaled.1 tenScaled.2.1)
          (ransacPixelUnit pinholeIntrinsics tenScaled.2.2) /
        (rawInlierCntr pinholeLibrary (List.zipWith Point2f.sub tenScaled.1 tenScaled.2.1)
          (ransacPixelUnit pinholeIntrinsics tenScaled.2.2) : ℚ) <
        ransacPixelUnit pinholeIntrinsics tenScaled.2.2) := by
  refine ⟨by decide!, by decide!⟩

theorem twoPointRansac_marks_earliest_largest_witness :
    (ransacPoints pinholeLibrary tenPts1 tenPts2 Matx33.eye pinholeIntrinsics "radtan"
          ⟨0, 0, 0, 0⟩ =
        some (tenScaled.1, tenScaled.2.1, tenScaled.2.2) ∧
      ¬ (rawInlierCntr pinholeLibrary (List.zipWith Point2f.sub tenScaled.1 tenScaled.2.1)
        (ransacPixelUnit pinholeIntrinsics tenScaled.2.2) < 3) ∧
      ¬ (preFilterDistanceSum pinholeLibrary
          (List.zipWith Point2f.sub tenScaled.1 tenScaled.2.1)
          (ransacPixelUnit pinholeIntrinsics tenScaled.2.2) /
        (rawInlierCntr pinholeLibrary (List.zipWith Point2f.sub tenScaled.1 tenScaled.2.1)
          (ransacPixelUnit pinholeIntrinsics tenScaled.2.2) : ℚ) <
        ransacPixelUnit pinholeIntrinsics tenScaled.2.2)) ∧
      ∃ out best, twoPointRansac pinholeLibrary (fun _ => 0) tenPts1 tenPts2 Matx33.eye
        pinholeIntrinsics "radtan" ⟨0, 0, 0, 0⟩ 3 (99 / 100) = some out ∧
      (∀ j, ∃ s, iterationInliers (fun _ => 0) (ransacCoeff tenScaled)
        (ransacMarkers pinholeLibrary pinholeIntrinsics tenScaled)
        (rawInlierIdx (ransacMarkers pinholeLibrary pinholeIntrinsics tenScaled)) 3
        (ransacPixelUnit pinholeIntrinsics tenScaled.2.2) j = some s) ∧
      EarliestLargest
        (fun j => iterationInliers (fun _ => 0) (ransacCoeff tenScaled)
          (ransacMarkers pinholeLibrary pinholeIntrinsics tenScaled)
          (rawInlierIdx (ransacMarkers pinholeLibrary pinholeIntrinsics tenScaled)) 3
          (ransacPixelUnit pinholeIntrinsics tenScaled.2.2) j)
        tenPts1.length (ransacIterNum pinholeLibrary (99 / 100)).toNat best ∧
      out.inlier_markers.length = tenPts1.length ∧
      (∀ i, i < tenPts1.length → out.inlier_markers.getD i 0 = if i ∈ best then 1 else 0) ∧
      (best = [] → ∀ i, i < tenPts1.length → out.inlier_markers.getD i 0 = 0) :=
  ⟨⟨tenScaled_eq, tenScaled_general_motion.1, tenScaled_general_motion.2⟩,
    twoPointRansac_marks_earliest_largest pinholeLibrary (fun _ => 0) tenPts1 tenPts2
      Matx33.eye pinholeIntrinsics "radtan" ⟨0, 0, 0, 0⟩ 3 (99 / 100) tenScaled.1
      tenScaled.2.1 tenScaled.2.2 tenScaled_eq tenScaled_general_motion.1
      tenScaled_general_motion.2⟩

/-- C24 (amended): `twoPointRansac` returns a mask, and a pass whose refit matrix
`A.transpose() * A` has determinant 0 is treated like every other pass: its inlier set
becomes the best inlier set exactly when it passes the 20% test and is larger than the
best one so far. -/
theorem twoPointRansac_singular_refit (cv : OpenCV) (random : Nat → Nat)
    (pts1 pts2 : List Point2f) (R_p_c : Matx33) (intrinsics : Vec4)
    (distortion_model : String) (distortion_coeffs : Vec4)
    (inlier_error success_probability : ℚ) (p1 p2 : List Point2f) (sf : ℚ)
    (hp : ransacPoints cv pts1 pts2 R_p_c intrinsics distortion_model distortion_coeffs =
      some (p1, p2, sf)) :
    (∃ out, twoPointRansac cv random pts1 pts2 R_p_c intrinsics distortion_model
        distortion_coeffs inlier_error success_probability = some out ∧
      out.inlier_markers.length = pts1.length) ∧
      ∀ iter_idx best s,
        iterationInliers random (ransacCoeff (p1, p2, sf))
            (ransacMarkers cv intrinsics (p1, p2, sf))
            (rawInlierIdx (ransacMarkers cv intrinsics (p1, p2, sf))) inlier_error
            (ransacPixelUnit intrinsics sf) iter_idx = some s →
        iterationRefitDet random (ransacCoeff (p1, p2, sf))
            (ransacMarkers cv intrinsics (p1, p2, sf))
            (rawInlierIdx (ransacMarkers cv intrinsics (p1, p2, sf))) inlier_error
            (ransacPixelUnit intrinsics sf) iter_idx = some 0 →
        ∃ b, ransacIteration random (ransacCoeff (p1, p2, sf))
            (ransacMarkers cv intrinsics (p1, p2, sf))
            (rawInlierIdx (ransacMarkers cv intrinsics (p1, p2, sf))) inlier_error
            (ransacPixelUnit intrinsics sf) pts1.length iter_idx best = some b ∧
          b.best_inlier_set =
            if passesInlierTest pts1.length s = true ∧
                s.length > best.best_inlier_set.length
            then s else best.best_inlier_set := by
  obtain ⟨-, -, hle⟩ := ransacPoints_lengths cv pts1 pts2 R_p_c intrinsics
    distortion_model distortion_coeffs p1 p2 sf hp
  obtain ⟨out, hout, -, hlen, -⟩ := twoPointRansac_mask cv random pts1 pts2 R_p_c
    intrinsics distortion_model distortion_coeffs inlier_error success_probability hle
  refine ⟨⟨out, hout, hlen⟩, ?_⟩
  intro iter_idx best s hs _
  obtain ⟨err, herr⟩ := ransacIteration_cases random _ _ _ inlier_error
    (ransacPixelUnit intrinsics sf) pts1.length iter_idx best s hs
  refine ⟨_, herr, ?_⟩
  by_cases hcond : passesInlierTest pts1.length s = true ∧
      s.length > best.best_inlier_set.length
  · rw [if_pos hcond, if_pos hcond]
  · rw [if_neg hcond, if_neg hcond]

theorem scatteredScaled_eq :
    ransacPoints pinholeLibrary squarePts scatteredPts Matx33.eye pinholeIntrinsics "radtan"
        ⟨0, 0, 0, 0⟩ =
      some (scatteredScaled.1, scatteredScaled.2.1, scatteredScaled.2.2) := by
  decide!

theorem scatteredScaled_first_pass :
    iterationInliers (fun _ => 0) (ransacCoeff scatteredScaled)
          (ransacMarkers pinholeLibrary pinholeIntrinsics scatteredScaled)
          (rawInlierIdx (ransacMarkers pinholeLibrary pinholeIntrinsics scatteredScaled)) 3
          (ransacPixelUnit pinholeIntrinsics scatteredScaled.2.2) 0 = some [0] ∧
      iterationRefitDet (fun _ => 0) (ransacCoeff scatteredScaled)
          (ransacMarkers pinholeLibrary pinholeIntrinsics scatteredScaled)
          (rawInlierIdx (ransacMarkers pinholeLibrary pinholeIntrinsics scatteredScaled)) 3
          (ransacPixelUnit pinholeIntrinsics scatteredScaled.2.2) 0 = some 0 := by
  refine ⟨by decide!, by decide!⟩

theorem twoPointRansac_singular_refit_witness :
    ransacPoints pinholeLibrary squarePts scatteredPts Matx33.eye pinholeIntrinsics
          "radtan" ⟨0, 0, 0, 0⟩ =
        some (scatteredScaled.1, scatteredScaled.2.1, scatteredScaled.2.2) ∧
      (∃ out, twoPointRansac pinholeLibrary (fun _ => 0) squarePts scatteredPts Matx33.eye
          pinholeIntrinsics "radtan" ⟨0, 0, 0, 0⟩ 3 (99 / 100) = some out ∧
        out.inlier_markers.length = squarePts.length) ∧
      ∃ b, ransacIteration (fun _ => 0) (ransacCoeff scatteredScaled)
          (ransacMarkers pinholeLibrary pinholeIntrinsics scatteredScaled)
          (rawInlierIdx (ransacMarkers pinholeLibrary pinholeIntrinsics scatteredScaled)) 3
          (ransacPixelUnit pinholeIntrinsics scatteredScaled.2.2) squarePts.length 0
          ⟨[], 10000000000⟩ = some b ∧
        b.best_inlier_set =
          if passesInlierTest squarePts.length [0] = true ∧
              ([0] : List Nat).length >
                (⟨[], 10000000000⟩ : RansacBest).best_inlier_set.length
          then [0] else (⟨[], 10000000000⟩ : RansacBest).best_inlier_set :=
  ⟨scatteredScaled_eq,
    (twoPointRansac_singular_refit pinholeLibrary (fun _ => 0) squarePts scatteredPts
      Matx33.eye pinholeIntrinsics "radtan" ⟨0, 0, 0, 0⟩ 3 (99 / 100) scatteredScaled.1
      scatteredScaled.2.1 scatteredScaled.2.2 scatteredScaled_eq).1,
    (twoPointRansac_singular_refit pinholeLibrary (fun _ => 0) squarePts scatteredPts
      Matx33.eye pinholeIntrinsics "radtan" ⟨0, 0, 0, 0⟩ 3 (99 / 100) scatteredScaled.1
      scatteredScaled.2.1 scatteredScaled.2.2 scatteredScaled_eq).2 0 ⟨[], 10000000000⟩
      [0] scatteredScaled_first_pass.1 scatteredScaled_first_pass.2⟩

/-- C24 (counterexample): for `squarePts` and `scatteredPts` the first pass samples the
pairs 0 and 1 with an invertible 2x2 matrix, its inlier set is `[0]` (pair 1 is cleared by
the pre-filter), so the refit matrix has determinant 0; the pass is not skipped: `[0]`
becomes the best inlier set and the returned mask marks pair 0. -/
theorem singular_refit_replaces_best :
    iterationInliers (fun _ => 0) (ransacCoeff scatteredScaled)
          (ransacMarkers pinholeLibrary pinholeIntrinsics scatteredScaled)
          (rawInlierIdx (ransacMarkers pinholeLibrary pinholeIntrinsics scatteredScaled)) 3
          (ransacPixelUnit pinholeIntrinsics scatteredScaled.2.2) 0 = some [0] ∧
      iterationRefitDet (fun _ => 0) (ransacCoeff scatteredScaled)
          (ransacMarkers pinholeLibrary pinholeIntrinsics scatteredScaled)
          (rawInlierIdx (ransacMarkers pinholeLibrary pinholeIntrinsics scatteredScaled)) 3
          (ransacPixelUnit pinholeIntrinsics scatteredScaled.2.2) 0 = some 0 ∧
      (sampledRows (fun _ => 0) (ransacCoeff scatteredScaled)
          (rawInlierIdx (ransacMarkers pinholeLibrary pinholeIntrinsics scatteredScaled))
          0).map (fun rows =>
            decide (pivotDet (baseIndicator rows.1 rows.2) rows.1 rows.2 ≠ 0)) =
        some true ∧
      (ransacIteration (fun _ => 0) (ransacCoeff scatteredScaled)
          (ransacMarkers pinholeLibrary pinholeIntrinsics scatteredScaled)
          (rawInlierIdx (ransacMarkers pinholeLibrary pinholeIntrinsics scatteredScaled)) 3
          (ransacPixelUnit pinholeIntrinsics scatteredScaled.2.2) squarePts.length 0
          ⟨[], 10000000000⟩).map RansacBest.best_inlier_set = some [0] ∧
      (twoPointRansac pinholeLibrary (fun _ => 0) squarePts scatteredPts Matx33.eye
          pinholeIntrinsics "radtan" ⟨0, 0, 0, 0⟩ 3 (99 / 100)).map
        RansacOutput.inlier_markers = some [1, 0, 0, 0] := by
  refine ⟨scatteredScaled_first_pass.1, scatteredScaled_first_pass.2, by decide!,
    by decide!, by decide!⟩

/-! ## The IMU window as a selection by stamp (C28) -/

theorem dropWhile_eq_filter_of_sorted {α : Type} (R : α → α → Prop) (p : α → Bool)
    (hp : ∀ a b, R a b → p b = true → p a = true) (l : List α) (hl : l.Pairwise R) :
    l.dropWhile p = l.filter (fun a => !p a) := by
  induction l with
  | nil => rfl
  | cons a t ih =>
    rw [List.pairwise_cons] at hl
    by_cases ha : p a = true
    · rw [List.dropWhile_cons_of_pos ha, ih hl.2, List.filter_cons_of_neg (by simp [ha])]
    · rw [List.dropWhile_cons_of_neg ha, List.filter_cons_of_pos (by simp [ha])]
      congr 1
      symm
      rw [List.filter_eq_self]
      intro b hb
      have hpb : ¬ p b = true := fun h => ha (hp a b (hl.1 b hb) h)
      simp [hpb]

theorem takeWhile_eq_filter_of_sorted {α : Type} (R : α → α → Prop) (q : α → Bool)
    (hq : ∀ a b, R a b → q b = true → q a = true) (l : List α) (hl : l.Pairwise R) :
    l.takeWhile q = l.filter q := by
  induction l with
  | nil => rfl
  | cons a t ih =>
    rw [List.pairwise_cons] at hl
    by_cases ha : q a = true
    · rw [List.takeWhile_cons_of_pos ha, ih hl.2, List.filter_cons_of_pos ha]
    · rw [List.takeWhile_cons_of_neg ha, List.filter_cons_of_neg ha]
      symm
      rw [List.filter_eq_nil_iff]
      intro b hb h
      exact ha (hq a b (hl.1 b hb) h)

theorem foldl_add_angular (window : List ImuMsg) (acc : Vec3) :
    window.foldl (fun acc msg => acc.add msg.angular_velocity) acc =
      ⟨acc.x + (window.map (fun m => m.angular_velocity.x)).sum,
        acc.y + (window.map (fun m => m.angular_velocity.y)).sum,
        acc.z + (window.map (fun m => m.angular_velocity.z)).sum⟩ := by
  induction window generalizing acc with
  | nil => simp
  | cons m t ih =>
    rw [List.foldl_cons, ih]
    simp only [Vec3.add, List.map_cons, List.sum_cons, Vec3.mk.injEq]
    refine ⟨by ring, by ring, by ring⟩

/-- C28: for a buffer with non-decreasing stamps the window of `integrateImuData` consists
of exactly the buffered samples with `prev_stamp - 0.01 ≤ stamp` and
`stamp < curr_stamp + 0.005`, in buffer order, and the mean angular velocity of a non-empty
window is the componentwise sum of its samples divided by their number (the zero vector
for an empty window). -/
theorem imuWindow_selects_by_stamp (imu_msg_buffer : List ImuMsg) (prev_stamp curr_stamp : ℚ)
    (hsorted : imu_msg_buffer.Pairwise (fun a b => a.stamp ≤ b.stamp)) :
    imuWindow imu_msg_buffer prev_stamp curr_stamp =
        imu_msg_buffer.filter (fun msg =>
          decide (prev_stamp - 0.01 ≤ msg.stamp ∧ msg.stamp < curr_stamp + 0.005)) ∧
      meanAngVel (imuWindow imu_msg_buffer prev_stamp curr_stamp) =
        (if (imuWindow imu_msg_buffer prev_stamp curr_stamp).length > 0 then
          ⟨((imuWindow imu_msg_buffer prev_stamp curr_stamp).map
                (fun m => m.angular_velocity.x)).sum /
              ((imuWindow imu_msg_buffer prev_stamp curr_stamp).length : ℚ),
            ((imuWindow imu_msg_buffer prev_stamp curr_stamp).map
                (fun m => m.angular_velocity.y)).sum /
              ((imuWindow imu_msg_buffer prev_stamp curr_stamp).length : ℚ),
            ((imuWindow imu_msg_buffer prev_stamp curr_stamp).map
                (fun m => m.angular_velocity.z)).sum /
              ((imuWindow imu_msg_buffer prev_stamp curr_stamp).length : ℚ)⟩
        else ⟨0, 0, 0⟩) := by
  constructor
  · unfold imuWindow
    rw [dropWhile_eq_filter_of_sorted (fun a b : ImuMsg => a.stamp ≤ b.stamp)
      (fun msg => decide (msg.stamp - prev_stamp < -0.01))
      (by
        intro a b hab hb
        simp only [decide_eq_true_eq] at hb ⊢
        linarith)
      imu_msg_buffer hsorted]
    rw [takeWhile_eq_filter_of_sorted (fun a b : ImuMsg => a.stamp ≤ b.stamp)
      (fun msg => decide (msg.stamp - curr_stamp < 0.005))
      (by
        intro a b hab hb
        simp only [decide_eq_true_eq] at hb ⊢
        linarith)
      _ (hsorted.sublist (List.filter_sublist _))]
    rw [List.filter_filter]
    apply List.filter_congr
    intro msg _
    by_cases h1 : msg.stamp - prev_stamp < -0.01
    · have h1' : ¬ (prev_stamp - 0.01 ≤ msg.stamp) := by
        intro h
        linarith
      simp [h1, h1']
    · have h1' : prev_stamp - 0.01 ≤ msg.stamp := by linarith
      by_cases h2 : msg.stamp - curr_stamp < 0.005
      · have h2' : msg.stamp < curr_stamp + 0.005 := by linarith
        simp [h1, h1', h2, h2']
      · have h2' : ¬ (msg.stamp < curr_stamp + 0.005) := by
          intro h
          apply h2
          linarith
        simp [h1, h2, h2']
  · unfold meanAngVel
    dsimp only
    rw [foldl_add_angular]
    by_cases hlen : (imuWindow imu_msg_buffer prev_stamp curr_stamp).length > 0
    · rw [if_pos hlen, if_pos hlen]
      simp only [Vec3.smul, zero_add, Vec3.mk.injEq]
      refine ⟨by ring, by ring, by ring⟩
    · rw [if_neg hlen, if_neg hlen]
      have hnil : imuWindow imu_msg_buffer prev_stamp curr_stamp = [] :=
        List.length_eq_zero.1 (by omega)
      rw [hnil]
      simp

theorem imuWindow_selects_by_stamp_witness :
    fourSamples.Pairwise (fun a b => a.stamp ≤ b.stamp) ∧
      imuWindow fourSamples 0 1 =
        fourSamples.filter (fun msg =>
          decide ((0 : ℚ) - 0.01 ≤ msg.stamp ∧ msg.stamp < 1 + 0.005)) ∧
      imuWindow fourSamples 0 1 = [⟨1 / 4, ⟨1, 0, 0⟩⟩, ⟨3 / 4, ⟨0, 1, 0⟩⟩] ∧
      meanAngVel (imuWindow fourSamples 0 1) = ⟨1 / 2, 1 / 2, 0⟩ :=
  have hs : fourSamples.Pairwise (fun a b => a.stamp ≤ b.stamp) := by
    unfold fourSamples
    simp only [List.pairwise_cons, List.mem_cons, List.mem_singleton, forall_eq_or_imp,
      forall_eq, List.not_mem_nil, false_implies, implies_true, List.Pairwise.nil, and_true]
    norm_num
  ⟨hs, (imuWindow_selects_by_stamp fourSamples 0 1 hs).1, by decide!, by decide!⟩

/-! ## The detection mask (C27) -/

/-- C27: at a pixel `(r, c)` of the image the mask of `addNewFeatures` is 0 exactly when
some feature has a truncated position `(x, y)` with `|r - y| ≤ 2` and `|c - x| ≤ 2`, and it
is 1 otherwise; every cleared range lies inside the image, so no position outside the
image has the value 0. -/
theorem detectionMask_neighbourhoods (rows cols : Int) (features : List FeatureMetaData)
    (r c : Int) (hr : 0 ≤ r ∧ r < rows) (hc : 0 ≤ c ∧ c < cols) :
    (detectionMask rows cols features r c = 0 ↔
        ∃ feature ∈ features,
          |r - truncToInt feature.cam0_point.y| ≤ 2 ∧
            |c - truncToInt feature.cam0_point.x| ≤ 2) ∧
      (detectionMask rows cols features r c = 0 ∨
        detectionMask rows cols features r c = 1) ∧
      ∀ r' c' : Int, detectionMask rows cols features r' c' = 0 →
        (0 ≤ r' ∧ r' < rows) ∧ (0 ≤ c' ∧ c' < cols) := by
  have hany : ∀ r' c' : Int, detectionMask rows cols features r' c' = 0 ↔
      ∃ feature ∈ features,
        (if truncToInt feature.cam0_point.y - 2 < 0 then 0
          else truncToInt feature.cam0_point.y - 2) ≤ r' ∧
        r' < (if truncToInt feature.cam0_point.y + 3 > rows then rows
          else truncToInt feature.cam0_point.y + 3) ∧
        (if truncToInt feature.cam0_point.x - 2 < 0 then 0
          else truncToInt feature.cam0_point.x - 2) ≤ c' ∧
        c' < (if truncToInt feature.cam0_point.x + 3 > cols then cols
          else truncToInt feature.cam0_point.x + 3) := by
    intro r' c'
    unfold detectionMask
    constructor
    · intro h
      split at h
      · rename_i hex
        simp only [List.any_eq_true, decide_eq_true_eq] at hex
        exact hex
      · exact absurd h (by decide)
    · intro h
      rw [if_pos]
      simp only [List.any_eq_true, decide_eq_true_eq]
      exact h
  refine ⟨?_, ?_, ?_⟩
  · rw [hany]
    constructor
    · rintro ⟨feature, hmem, h1, h2, h3, h4⟩
      refine ⟨feature, hmem, ?_, ?_⟩
      · rw [abs_le]
        split at h1 <;> split at h2 <;> constructor <;> omega
      · rw [abs_le]
        split at h3 <;> split at h4 <;> constructor <;> omega
    · rintro ⟨feature, hmem, h1, h2⟩
      rw [abs_le] at h1 h2
      refine ⟨feature, hmem, ?_, ?_, ?_, ?_⟩
      · split <;> omega
      · split <;> omega
      · split <;> omega
      · split <;> omega
  · unfold detectionMask
    split
    · exact Or.inl rfl
    · exact Or.inr rfl
  · intro r' c' h
    obtain ⟨feature, _, h1, h2, h3, h4⟩ := (hany r' c').1 h
    refine ⟨⟨?_, ?_⟩, ⟨?_, ?_⟩⟩
    · split at h1 <;> omega
    · split at h2 <;> omega
    · split at h3 <;> omega
    · split at h4 <;> omega

theorem detectionMask_neighbourhoods_witness :
    (((0 : Int) ≤ 3 ∧ (3 : Int) < 10) ∧ ((0 : Int) ≤ 0 ∧ (0 : Int) < 10)) ∧
      detectionMask 10 10 [⟨0, 1, 1, ⟨3 / 2, 5 / 2⟩, ⟨3 / 2, 5 / 2⟩⟩] 3 0 = 0 ∧
      detectionMask 10 10 [⟨0, 1, 1, ⟨3 / 2, 5 / 2⟩, ⟨3 / 2, 5 / 2⟩⟩] 5 0 = 1 ∧
      (detectionMask 10 10 [⟨0, 1, 1, ⟨3 / 2, 5 / 2⟩, ⟨3 / 2, 5 / 2⟩⟩] 3 0 = 0 ↔
        ∃ feature ∈ [(⟨0, 1, 1, ⟨3 / 2, 5 / 2⟩, ⟨3 / 2, 5 / 2⟩⟩ : FeatureMetaData)],
          |(3 : Int) - truncToInt feature.cam0_point.y| ≤ 2 ∧
            |(0 : Int) - truncToInt feature.cam0_point.x| ≤ 2) :=
  ⟨⟨⟨by decide, by decide⟩, ⟨by decide, by decide⟩⟩, by decide!, by decide!,
    (detectionMask_neighbourhoods 10 10 [⟨0, 1, 1, ⟨3 / 2, 5 / 2⟩, ⟨3 / 2, 5 / 2⟩⟩] 3 0
      ⟨by decide, by decide⟩ ⟨by decide, by decide⟩).1⟩

/-! ## The epipolar test of stereoMatch (C25, C26) -/

theorem stereoMatch_eq (cv : OpenCV) (cfg : ProcessorConfig) (cal : Calibration)
    (f : StereoFrame) (cam0_points cam1_points : List Point2f) (inlier_markers : List Nat)
    (h : cam0_points.length ≠ 0) :
    stereoMatch cv cfg cal f cam0_points cam1_points inlier_markers =
      ((stereoFlow cv cal f cam0_points cam1_points).map Prod.fst,
        List.zipWith
          (fun (m : Nat) (pq : Point2f × Point2f) =>
            if m = 0 then m
            else if epipolarError cv (essentialMatrix cal) pq.1 pq.2 >
                cfg.stereo_threshold * stereoPixelUnit cal then 0
            else m)
          (stereoInImage f (stereoFlow cv cal f cam0_points cam1_points))
          ((undistortPoints cv cam0_points cal.cam0_intrinsics cal.cam0_distortion_model
              cal.cam0_distortion_coeffs [] Matx33.eye defaultNewIntrinsics).zip
            (undistortPoints cv ((stereoFlow cv cal f cam0_points cam1_points).map Prod.fst)
              cal.cam1_intrinsics cal.cam1_distortion_model cal.cam1_distortion_coeffs []
              Matx33.eye defaultNewIntrinsics))) := by
  unfold stereoMatch
  rw [if_neg h]
  rfl

theorem essentialMatrix_eq (cal : Calibration) :
    essentialMatrix cal = (hatMatrix (stereoTranslation cal)).mul (stereoRotation cal) :=
  rfl

theorem stereoFlow_length_le (cv : OpenCV) (cal : Calibration) (f : StereoFrame)
    (cam0_points cam1_points : List Point2f) :
    (stereoFlow cv cal f cam0_points cam1_points).length ≤ cam0_points.length := by
  unfold stereoFlow
  dsimp only
  rw [List.length_zipWith]
  omega

/-- C25: for a non-empty `cam0_points` and every index `i` of the returned markers, a
marker that is 0 after the optical flow or after the image-bounds test is 0 in the result,
and a marker that is not 0 after the image-bounds test is cleared exactly when the
epipolar error of the undistorted pair for `E = [t]x R` exceeds
`stereo_threshold * 4 / (fx0 + fy0 + fx1 + fy1)`, and is kept as it is otherwise. -/
theorem stereoMatch_epipolar_test (cv : OpenCV) (cfg : ProcessorConfig) (cal : Calibration)
    (f : StereoFrame) (cam0_points cam1_points : List Point2f) (inlier_markers : List Nat)
    (i : Nat) (hne : cam0_points.length ≠ 0)
    (hi : i < (stereoMatch cv cfg cal f cam0_points cam1_points inlier_markers).2.length) :
    (stereoMatch cv cfg cal f cam0_points cam1_points inlier_markers).2.length =
        (stereoFlow cv cal f cam0_points cam1_points).length ∧
      (((stereoFlow cv cal f cam0_points cam1_points).map Prod.snd).getD i 0 = 0 →
        (stereoInImage f (stereoFlow cv cal f cam0_points cam1_points)).getD i 0 = 0) ∧
      ((stereoInImage f (stereoFlow cv cal f cam0_points cam1_points)).getD i 0 = 0 →
        (stereoMatch cv cfg cal f cam0_points cam1_points inlier_markers).2.getD i 0 = 0) ∧
      ((stereoInImage f (stereoFlow cv cal f cam0_points cam1_points)).getD i 0 ≠ 0 →
        ((stereoMatch cv cfg cal f cam0_points cam1_points inlier_markers).2.getD i 0 = 0 ↔
          epipolarError cv ((hatMatrix (stereoTranslation cal)).mul (stereoRotation cal))
              (stereoUndistorted cv cal cam0_points
                (stereoFlow cv cal f cam0_points cam1_points) i).1
              (stereoUndistorted cv cal cam0_points
                (stereoFlow cv cal f cam0_points cam1_points) i).2 >
            cfg.stereo_threshold *
              (4 / (cal.cam0_intrinsics.v0 + cal.cam0_intrinsics.v1 +
                cal.cam1_intrinsics.v0 + cal.cam1_intrinsics.v1))) ∧
        ((stereoMatch cv cfg cal f cam0_points cam1_points inlier_markers).2.getD i 0 ≠ 0 →
          (stereoMatch cv cfg cal f cam0_points cam1_points inlier_markers).2.getD i 0 =
            (stereoInImage f (stereoFlow cv cal f cam0_points cam1_points)).getD i 0)) := by
  have hflow := stereoFlow_length_le cv cal f cam0_points cam1_points
  have hu0 := undistortPoints_length cv cam0_points cal.cam0_intrinsics
    cal.cam0_distortion_model cal.cam0_distortion_coeffs [] Matx33.eye defaultNewIntrinsics
    (fun _ => rfl)
  have hu1 := undistortPoints_length cv
    ((stereoFlow cv cal f cam0_points cam1_points).map Prod.fst) cal.cam1_intrinsics
    cal.cam1_distortion_model cal.cam1_distortion_coeffs [] Matx33.eye defaultNewIntrinsics
    (fun _ => rfl)
  rw [List.length_map] at hu1
  have himg : (stereoInImage f (stereoFlow cv cal f cam0_points cam1_points)).length =
      (stereoFlow cv cal f cam0_points cam1_points).length := by
    simp [stereoInImage]
  rw [stereoMatch_eq cv cfg cal f cam0_points cam1_points inlier_markers hne] at hi ⊢
  dsimp only at hi ⊢
  have hlen : (List.zipWith
      (fun (m : Nat) (pq : Point2f × Point2f) =>
        if m = 0 then m
        else if epipolarError cv (essentialMatrix cal) pq.1 pq.2 >
            cfg.stereo_threshold * stereoPixelUnit cal then 0
        else m)
      (stereoInImage f (stereoFlow cv cal f cam0_points cam1_points))
      ((undistortPoints cv cam0_points cal.cam0_intrinsics cal.cam0_distortion_model
          cal.cam0_distortion_coeffs [] Matx33.eye defaultNewIntrinsics).zip
        (undistortPoints cv ((stereoFlow cv cal f cam0_points cam1_points).map Prod.fst)
          cal.cam1_intrinsics cal.cam1_distortion_model cal.cam1_distortion_coeffs []
          Matx33.eye defaultNewIntrinsics))).length =
      (stereoFlow cv cal f cam0_points cam1_points).length := by
    rw [List.length_zipWith, List.length_zip, himg, hu0, hu1]
    omega
  rw [hlen] at hi
  have hi0 : i < cam0_points.length := by omega
  refine ⟨hlen, ?_, ?_, ?_⟩
  · intro h0
    rw [List.getD_eq_getElem _ _ (by rw [himg]; exact hi)]
    rw [List.getD_eq_getElem _ _ (by rw [List.length_map]; exact hi)] at h0
    simp only [stereoInImage, List.getElem_zipWith]
    rw [if_pos h0]
    exact h0
  · intro h0
    rw [List.getD_eq_getElem _ _ (by rw [hlen]; exact hi)]
    rw [List.getD_eq_getElem _ _ (by rw [himg]; exact hi)] at h0
    rw [List.getElem_zipWith, if_pos h0]
    exact h0
  · intro hnz
    rw [List.getD_eq_getElem _ _ (by rw [hlen]; exact hi)]
    rw [List.getD_eq_getElem _ _ (by rw [himg]; exact hi)] at hnz ⊢
    rw [List.getElem_zipWith, if_neg hnz, List.getElem_zip]
    simp only [stereoUndistorted, List.getD_eq_getElem _ _ (show i <
      (undistortPoints cv cam0_points cal.cam0_intrinsics cal.cam0_distortion_model
        cal.cam0_distortion_coeffs [] Matx33.eye defaultNewIntrinsics).length by
          rw [hu0]; exact hi0),
      List.getD_eq_getElem _ _ (show i <
      (undistortPoints cv ((stereoFlow cv cal f cam0_points cam1_points).map Prod.fst)
        cal.cam1_intrinsics cal.cam1_distortion_model cal.cam1_distortion_coeffs []
        Matx33.eye defaultNewIntrinsics).length by rw [hu1]; exact hi)]
    rw [← essentialMatrix_eq]
    change _ ∧ _
    by_cases herr : epipolarError cv (essentialMatrix cal)
        (undistortPoints cv cam0_points cal.cam0_intrinsics cal.cam0_distortion_model
          cal.cam0_distortion_coeffs [] Matx33.eye defaultNewIntrinsics)[i]
        (undistortPoints cv ((stereoFlow cv cal f cam0_points cam1_points).map Prod.fst)
          cal.cam1_intrinsics cal.cam1_distortion_model cal.cam1_distortion_coeffs []
          Matx33.eye defaultNewIntrinsics)[i] >
          cfg.stereo_threshold * stereoPixelUnit cal
    · rw [if_pos herr]
      exact ⟨⟨fun _ => herr, fun _ => rfl⟩, fun h => absurd rfl h⟩
    · rw [if_neg herr]
      exact ⟨⟨fun h => absurd h hnz, fun h => absurd h herr⟩, fun _ => rfl⟩

theorem stereoMatch_epipolar_test_witness :
    (rigPoints.length ≠ 0 ∧
      0 < (stereoMatch exampleLibrary exampleConfig rigCalibration (stillFrame 1 [])
        rigPoints [] []).2.length) ∧
      (stereoMatch exampleLibrary exampleConfig rigCalibration (stillFrame 1 [])
          rigPoints [] []).2.length =
        rigFlow.length ∧
      ((rigFlow.map Prod.snd).getD 0 0 = 0 →
        (stereoInImage (stillFrame 1 []) rigFlow).getD 0 0 = 0) ∧
      ((stereoInImage (stillFrame 1 []) rigFlow).getD 0 0 = 0 →
        (stereoMatch exampleLibrary exampleConfig rigCalibration (stillFrame 1 [])
          rigPoints [] []).2.getD 0 0 = 0) ∧
      ((stereoInImage (stillFrame 1 []) rigFlow).getD 0 0 ≠ 0 →
        ((stereoMatch exampleLibrary exampleConfig rigCalibration (stillFrame 1 [])
          rigPoints [] []).2.getD 0 0 = 0 ↔
          epipolarError exampleLibrary
              ((hatMatrix (stereoTranslation rigCalibration)).mul
                (stereoRotation rigCalibration))
              (stereoUndistorted exampleLibrary rigCalibration rigPoints
                rigFlow 0).1
              (stereoUndistorted exampleLibrary rigCalibration rigPoints
                rigFlow 0).2 >
            exampleConfig.stereo_threshold *
              (4 / (rigCalibration.cam0_intrinsics.v0 + rigCalibration.cam0_intrinsics.v1 +
                rigCalibration.cam1_intrinsics.v0 + rigCalibration.cam1_intrinsics.v1))) ∧
        ((stereoMatch exampleLibrary exampleConfig rigCalibration (stillFrame 1 [])
          rigPoints [] []).2.getD 0 0 ≠ 0 →
          (stereoMatch exampleLibrary exampleConfig rigCalibration (stillFrame 1 [])
          rigPoints [] []).2.getD 0 0 =
            (stereoInImage (stillFrame 1 []) rigFlow).getD 0 0)) :=
  ⟨⟨by decide, by decide!⟩,
    stereoMatch_epipolar_test exampleLibrary exampleConfig rigCalibration (stillFrame 1 [])
      rigPoints [] [] 0 (by decide) (by decide!)⟩

theorem hat_mul_constraint (R : Matx33) (t v : Vec3) (scale s : ℚ) :
    (Vec3.smul scale ((R.mulVec v).add (Vec3.smul s t))).dot
      (((hatMatrix t).mul R).mulVec v) = 0 := by
  simp only [hatMatrix, Matx33.mul, Matx33.mulVec, Matx33.t, Vec3.dot, Vec3.smul, Vec3.add]
  ring

/-- C26: for the essential matrix `E = [t]x R` of `stereoMatch` and a pair of points whose
homogeneous forms satisfy `p1 = scale * (R p0 + s t)`, the product `p1ᵀ E p0` is 0, the
epipolar error is 0, and the epipolar test does not reject the pair for any
`stereo_threshold ≥ 0` and positive focal lengths. -/
theorem epipolar_error_of_correspondence (cv : OpenCV) (cal : Calibration)
    (p0 p1 : Point2f) (scale s : ℚ)
    (hcorr : (⟨p1.x, p1.y, 1⟩ : Vec3) =
      Vec3.smul scale (((stereoRotation cal).mulVec ⟨p0.x, p0.y, 1⟩).add
        (Vec3.smul s (stereoTranslation cal)))) :
    essentialMatrix cal = (hatMatrix (stereoTranslation cal)).mul (stereoRotation cal) ∧
      Vec3.dot ⟨p1.x, p1.y, 1⟩ ((essentialMatrix cal).mulVec ⟨p0.x, p0.y, 1⟩) = 0 ∧
      epipolarError cv (essentialMatrix cal) p0 p1 = 0 ∧
      ∀ cfg : ProcessorConfig, 0 ≤ cfg.stereo_threshold →
        0 < cal.cam0_intrinsics.v0 → 0 < cal.cam0_intrinsics.v1 →
        0 < cal.cam1_intrinsics.v0 → 0 < cal.cam1_intrinsics.v1 →
        ¬ (epipolarError cv (essentialMatrix cal) p0 p1 >
          cfg.stereo_threshold * stereoPixelUnit cal) := by
  have hdot : Vec3.dot ⟨p1.x, p1.y, 1⟩ ((essentialMatrix cal).mulVec ⟨p0.x, p0.y, 1⟩) = 0 := by
    rw [hcorr, essentialMatrix_eq]
    exact hat_mul_constraint _ _ _ _ _
  have herr : epipolarError cv (essentialMatrix cal) p0 p1 = 0 := by
    unfold epipolarError
    dsimp only
    rw [hdot, abs_zero, zero_div]
  refine ⟨rfl, hdot, herr, ?_⟩
  intro cfg hthr h0 h1 h2 h3
  rw [herr]
  have hu : 0 < stereoPixelUnit cal := by
    unfold stereoPixelUnit
    apply div_pos (by norm_num)
    linarith
  have := mul_nonneg hthr (le_of_lt hu)
  exact not_lt.2 this

theorem epipolar_error_of_correspondence_witness :
    (⟨(⟨3 / 2, -1⟩ : Point2f).x, (⟨3 / 2, -1⟩ : Point2f).y, 1⟩ : Vec3) =
        Vec3.smul (1 / 2) (((stereoRotation rigCalibration).mulVec
          ⟨(⟨1, 1⟩ : Point2f).x, (⟨1, 1⟩ : Point2f).y, 1⟩).add
          (Vec3.smul (-1) (stereoTranslation rigCalibration))) ∧
      stereoTranslation rigCalibration = ⟨-2, 1, -1⟩ ∧
      Vec3.dot ⟨(⟨3 / 2, -1⟩ : Point2f).x, (⟨3 / 2, -1⟩ : Point2f).y, 1⟩
        ((essentialMatrix rigCalibration).mulVec
          ⟨(⟨1, 1⟩ : Point2f).x, (⟨1, 1⟩ : Point2f).y, 1⟩) = 0 ∧
      epipolarError pinholeLibrary (essentialMatrix rigCalibration) ⟨1, 1⟩ ⟨3 / 2, -1⟩ = 0 :=
  ⟨by decide!, by decide!,
    (epipolar_error_of_correspondence pinholeLibrary rigCalibration ⟨1, 1⟩ ⟨3 / 2, -1⟩
      (1 / 2) (-1) (by decide!)).2.1,
    (epipolar_error_of_correspondence pinholeLibrary rigCalibration ⟨1, 1⟩ ⟨3 / 2, -1⟩
      (1 / 2) (-1) (by decide!)).2.2.1⟩

/-! ## The counter after_ransac on the early return of trackFeatures (C6) -/

theorem trackFeatures_early_return (cv : OpenCV) (cfg : ProcessorConfig)
    (cal : Calibration) (s : ImageProcessor) (f : StereoFrame) (s' : ImageProcessor)
    (h : trackFeatures cv cfg cal s f = some s')
    (hprev : s.prev_features.flatten = []) :
    s'.before_tracking = 0 ∧ s'.after_tracking = s.after_tracking ∧
      s'.after_matching = s.after_matching ∧ s'.after_ransac = s.after_ransac ∧
      s'.curr_features = s.curr_features := by
  unfold trackFeatures at h
  split at h
  · simp at h
  · dsimp only at h
    rw [if_pos (by rw [hprev]; rfl)] at h
    simp only [Option.some.injEq] at h
    rw [← h, hprev]
    exact ⟨rfl, rfl, rfl, rfl, rfl⟩

theorem run_outcome (cv : OpenCV) (cfg : ProcessorConfig) (cal : Calibration)
    (s : ImageProcessor) (history : List GridFeatures) (f : StereoFrame)
    (hrun : Run cv cfg cal s history)
    (hsome : (stereoCallback cv cfg cal s f).isSome = true) :
    ∃ history', Run cv cfg cal (outcome (stereoCallback cv cfg cal s f)).1 history' := by
  cases hr : stereoCallback cv cfg cal s f with
  | none => rw [hr] at hsome; simp at hsome
  | some r =>
    refine ⟨r.1.prev_features :: history, ?_⟩
    have hout : (outcome (some r)).1 = r.1 := rfl
    rw [hout]
    exact Run.frame f r.1 r.2 hrun hr

/-- C6 (failing input): after a first frame without detections the previous store is
empty, and `trackFeatures` on the second frame returns at `prev_ids.size() == 0`: no
feature is stereo-matched and none is put into the current store, while `after_ransac`
keeps the value 5 it had before the call. The same happens with a value left by an earlier
frame: under `grid_max_feature_num = 0` the second frame counts 3 survivors, pruning
empties the store, and on the third frame `after_ransac` is still 3 with nothing
matched. -/
theorem stale_after_ransac :
    ((∃ history, Run exampleLibrary exampleConfig exampleCalibration afterBlankFirstFrame
        history) ∧
      afterBlankFirstFrame.is_first_img = false ∧
      afterBlankFirstFrame.prev_features.flatten = [] ∧
      (trackFeatures exampleLibrary exampleConfig exampleCalibration afterBlankFirstFrame
        (stillFrame 2 [])).map
          (fun s => (s.before_tracking, s.after_ransac, s.curr_features.flatten.length)) =
        some (0, 5, 0) ∧
      (stereoCallback exampleLibrary exampleConfig exampleCalibration afterBlankFirstFrame
        (stillFrame 2 [])).map (fun r => r.1.after_ransac) = some 5) ∧
      ((∃ history, Run exampleLibrary capZeroConfig exampleCalibration capZeroSecond
          history) ∧
        capZeroFirst.prev_features.flatten.length = 3 ∧
        capZeroSecond.after_ransac = 3 ∧
        capZeroSecond.prev_features.flatten = [] ∧
        (trackFeatures exampleLibrary capZeroConfig exampleCalibration capZeroSecond
          (stillFrame 3 [])).map
            (fun s => (s.before_tracking, s.after_ransac, s.curr_features.flatten.length)) =
          some (0, 3, 0) ∧
        (stereoCallback exampleLibrary capZeroConfig exampleCalibration capZeroSecond
          (stillFrame 3 [])).map (fun r => r.1.after_ransac) = some 3) := by
  refine ⟨⟨?_, by decide!, by decide!, by decide!, by decide!⟩,
    ⟨?_, by decide!, by decide!, by decide!, by decide!, by decide!⟩⟩
  · exact run_outcome exampleLibrary exampleConfig exampleCalibration unsetProcessor []
      (stillFrame 1 []) (Run.construct 0 9 8 7 5) (by decide!)
  · obtain ⟨history, hrun⟩ := run_outcome exampleLibrary capZeroConfig exampleCalibration
      freshProcessor [] (stillFrame 1 fourCorners) (Run.construct 0 0 0 0 0) (by decide!)
    exact run_outcome exampleLibrary capZeroConfig exampleCalibration capZeroFirst history
      (stillFrame 2 []) hrun (by decide!)

end msckf_vio
